import Mathlib

/-!
# 3d-forest: world generator, collision queries, movement and mouse look

A shallow embedding of the procedural world generator, of the collision query,
of the per-frame movement controller and of the mouse-look callback of
`3d forest.cpp`.

Conventions of the embedding:
* `float` values are read as exact rationals (`ℚ`), `glm::vec3` as a record of
  three rationals; where a statement depends on the rounding of `float`
  operations (the railing offsets, the ground snap), the code is read a second
  time with the rounding explicit, see the section on binary32 arithmetic;
* `rand()` is a cursor into an arbitrary stream of non-negative draws, so every
  statement holds for whatever generator and seed the C library provides;
* `RAND_MAX` comes from `<cstdlib>` and is a parameter of the generators;
* `int` counts are mathematical integers, a `for (int i = 0; i < count; ++i)`
  loop runs `count.toNat` times;
* `std::vector` is a list, `push_back` appends at the end, `clear` empties it
  and `reserve` (capacity only) leaves the contents alone;
* the functions of the math library that leave the rationals (`inversesqrt`
  behind `glm::normalize`, `cos`, `sin`, `glm::radians`) are parameters of the
  functions that call them, and nothing is assumed about them;
* the globals `g_flyModeEnabled` and `deltaTime` and the key states polled with
  `glfwGetKey` are arguments of `processInput`.
-/

namespace Forest

/-! ## Configuration constants -/

def GROUND_SIZE : ℚ := 500
def TREE_COUNT : Int := 800
def BUSH_COUNT : Int := 1500
def HOUSE_COUNT : Int := 50
def APARTMENT_TOWER_COUNT : Int := 25

def GRAVITY : ℚ := 981 / 100 * 2
def JUMP_FORCE : ℚ := 8
def PLAYER_EYE_HEIGHT : ℚ := 17 / 10
def PLAYER_RADIUS : ℚ := 3 / 10
def GROUND_LEVEL : ℚ := -(45 / 100)
def PLAYER_BASE_SPEED : ℚ := 5
def SPRINT_MULTIPLIER : ℚ := 18 / 10
def FLY_VERTICAL_SPEED : ℚ := 4

def TREE_TRUNK_RADIUS : ℚ := 25 / 100
def TREE_TRUNK_HEIGHT : ℚ := 2
def HOUSE_BODY_WIDTH : ℚ := 4
def HOUSE_BODY_DEPTH : ℚ := 5
def HOUSE_BODY_HEIGHT : ℚ := 3
def TOWER_WIDTH : ℚ := 8
def TOWER_DEPTH : ℚ := 8
def TOWER_HEIGHT : ℚ := 40

def BALCONY_WIDTH : ℚ := 25 / 10
def BALCONY_DEPTH : ℚ := 15 / 10
def BALCONY_FLOOR_HEIGHT : ℚ := 2 / 10
def BALCONY_RAILING_HEIGHT : ℚ := 8 / 10
def BALCONY_RAILING_THICKNESS : ℚ := 1 / 10
def BALCONIES_PER_TOWER : Int := 3

/-! ## Data model -/

/-- Three-component vector, the image of `glm::vec3`. -/
structure Vec3 where
  x : ℚ
  y : ℚ
  z : ℚ
deriving DecidableEq, Repr

/-- Balcony record, field for field the `struct Balcony` of the source. -/
structure Balcony where
  position : Vec3
  dimensions : Vec3
  railingFrontPosRel : Vec3
  railingLeftPosRel : Vec3
  railingRightPosRel : Vec3
  railingDimsFront : Vec3
  railingDimsSide : Vec3
deriving DecidableEq, Repr

/-- Hidden state of the C library generator: the stream of values that
successive `rand()` calls return, and how many have been taken. -/
structure Rng where
  draws : Nat → Nat
  pos : Nat

/-- One call of `rand()`: the value under the cursor, and the cursor moved on. -/
def rand (rng : Rng) : Nat × Rng :=
  (rng.draws rng.pos, ⟨rng.draws, rng.pos + 1⟩)

/-- Image of `std::vector::clear`: whatever the vector held, it is empty after. -/
def clear {α : Type} (_v : List α) : List α := []

/-! ## World generator -/

/-- Body of the `for` loop of `generateObjectPositions`, run `k` more times. -/
def generateObjectPositionsLoop (RAND_MAX : Nat) (areaSize halfSize : ℚ) :
    Nat → List Vec3 → Rng → List Vec3 × Rng
  | 0, positions, rng => (positions, rng)
  | k + 1, positions, rng =>
    let r1 := rand rng
    let x : ℚ := ((r1.1 : ℚ) / (RAND_MAX : ℚ)) * areaSize - halfSize
    let r2 := rand r1.2
    let z : ℚ := ((r2.1 : ℚ) / (RAND_MAX : ℚ)) * areaSize - halfSize
    generateObjectPositionsLoop RAND_MAX areaSize halfSize k
      (positions ++ [Vec3.mk x GROUND_LEVEL z]) r2.2

/-- Embedding of `generateObjectPositions(positions, areaSize, count)`: the
first argument is the vector as it is on entry, the result is the vector on
exit together with the generator state. -/
def generateObjectPositions (RAND_MAX : Nat) (positions : List Vec3) (areaSize : ℚ)
    (count : Int) (rng : Rng) : List Vec3 × Rng :=
  let halfSize : ℚ := areaSize / 2
  let positions := clear positions
  generateObjectPositionsLoop RAND_MAX areaSize halfSize count.toNat positions rng

/-- Body of the inner loop of `generateTowersAndBalconies` for balcony index `j`
of a tower at `(towerX, towerZ)` with base `towerBasePos`, once the side draw
`side = rand() % 4` has been taken (0: +Z, 1: -Z, 2: +X, 3: -X). -/
def generateBalcony (towerX towerZ : ℚ) (towerBasePos : Vec3) (balconiesPerTower j : Int)
    (side : Nat) : Balcony :=
  let heightFraction : ℚ := ((j + 1 : Int) : ℚ) / ((balconiesPerTower + 1 : Int) : ℚ)
  let balconyY : ℚ := towerBasePos.y + TOWER_HEIGHT * heightFraction
  let balconyX : ℚ := towerX
  let balconyZ : ℚ := towerZ
  let railingOffsetX : ℚ := BALCONY_WIDTH / 2 - BALCONY_RAILING_THICKNESS / 2
  let railingOffsetZ : ℚ := BALCONY_DEPTH / 2 - BALCONY_RAILING_THICKNESS / 2
  let railingOffsetY : ℚ := BALCONY_FLOOR_HEIGHT / 2 + BALCONY_RAILING_HEIGHT / 2
  let dimensions := Vec3.mk BALCONY_WIDTH BALCONY_FLOOR_HEIGHT BALCONY_DEPTH
  let railingDimsFront := Vec3.mk BALCONY_WIDTH BALCONY_RAILING_HEIGHT BALCONY_RAILING_THICKNESS
  let railingDimsSide := Vec3.mk BALCONY_RAILING_THICKNESS BALCONY_RAILING_HEIGHT BALCONY_DEPTH
  if side = 0 then
    let balconyZ := balconyZ + (TOWER_DEPTH / 2 + BALCONY_DEPTH / 2)
    { position := Vec3.mk balconyX balconyY balconyZ
      dimensions := dimensions
      railingFrontPosRel := Vec3.mk 0 railingOffsetY railingOffsetZ
      railingLeftPosRel := Vec3.mk (-railingOffsetX) railingOffsetY 0
      railingRightPosRel := Vec3.mk railingOffsetX railingOffsetY 0
      railingDimsFront := railingDimsFront
      railingDimsSide := railingDimsSide }
  else if side = 1 then
    let balconyZ := balconyZ - (TOWER_DEPTH / 2 + BALCONY_DEPTH / 2)
    { position := Vec3.mk balconyX balconyY balconyZ
      dimensions := dimensions
      railingFrontPosRel := Vec3.mk 0 railingOffsetY (-railingOffsetZ)
      railingLeftPosRel := Vec3.mk (-railingOffsetX) railingOffsetY 0
      railingRightPosRel := Vec3.mk railingOffsetX railingOffsetY 0
      railingDimsFront :=
        Vec3.mk BALCONY_WIDTH BALCONY_RAILING_HEIGHT BALCONY_RAILING_THICKNESS
      railingDimsSide :=
        Vec3.mk BALCONY_RAILING_THICKNESS BALCONY_RAILING_HEIGHT BALCONY_DEPTH }
  else if side = 2 then
    let balconyX := balconyX + (TOWER_WIDTH / 2 + BALCONY_DEPTH / 2)
    { position := Vec3.mk balconyX balconyY balconyZ
      dimensions := Vec3.mk BALCONY_DEPTH BALCONY_FLOOR_HEIGHT BALCONY_WIDTH
      railingFrontPosRel := Vec3.mk railingOffsetZ railingOffsetY 0
      railingLeftPosRel := Vec3.mk 0 railingOffsetY (-railingOffsetX)
      railingRightPosRel := Vec3.mk 0 railingOffsetY railingOffsetX
      railingDimsFront :=
        Vec3.mk BALCONY_RAILING_THICKNESS BALCONY_RAILING_HEIGHT BALCONY_WIDTH
      railingDimsSide :=
        Vec3.mk BALCONY_DEPTH BALCONY_RAILING_HEIGHT BALCONY_RAILING_THICKNESS }
  else
    let balconyX := balconyX - (TOWER_WIDTH / 2 + BALCONY_DEPTH / 2)
    { position := Vec3.mk balconyX balconyY balconyZ
      dimensions := Vec3.mk BALCONY_DEPTH BALCONY_FLOOR_HEIGHT BALCONY_WIDTH
      railingFrontPosRel := Vec3.mk (-railingOffsetZ) railingOffsetY 0
      railingLeftPosRel := Vec3.mk 0 railingOffsetY (-railingOffsetX)
      railingRightPosRel := Vec3.mk 0 railingOffsetY railingOffsetX
      railingDimsFront :=
        Vec3.mk BALCONY_RAILING_THICKNESS BALCONY_RAILING_HEIGHT BALCONY_WIDTH
      railingDimsSide :=
        Vec3.mk BALCONY_DEPTH BALCONY_RAILING_HEIGHT BALCONY_RAILING_THICKNESS }

/-- Inner `for (int j = ...; j < balconiesPerTower; ++j)` loop, with `k`
iterations left and the loop variable at `j`. -/
def generateBalconiesLoop (towerX towerZ : ℚ) (towerBasePos : Vec3) (balconiesPerTower : Int) :
    Nat → Int → List Balcony → Rng → List Balcony × Rng
  | 0, _, balconyData, rng => (balconyData, rng)
  | k + 1, j, balconyData, rng =>
    let r := rand rng
    let side : Nat := r.1 % 4
    let bal := generateBalcony towerX towerZ towerBasePos balconiesPerTower j side
    generateBalconiesLoop towerX towerZ towerBasePos balconiesPerTower k (j + 1)
      (balconyData ++ [bal]) r.2

/-- Outer `for (int i = ...; i < towerCount; ++i)` loop, with `k` iterations
left. -/
def generateTowersLoop (RAND_MAX : Nat) (areaSize halfSize : ℚ) (balconiesPerTower : Int) :
    Nat → List Vec3 → List Balcony → Rng → (List Vec3 × List Balcony) × Rng
  | 0, apartmentTowerPositions, balconyData, rng =>
    ((apartmentTowerPositions, balconyData), rng)
  | k + 1, apartmentTowerPositions, balconyData, rng =>
    let r1 := rand rng
    let towerX : ℚ := ((r1.1 : ℚ) / (RAND_MAX : ℚ)) * areaSize - halfSize
    let r2 := rand r1.2
    let towerZ : ℚ := ((r2.1 : ℚ) / (RAND_MAX : ℚ)) * areaSize - halfSize
    let towerBasePos := Vec3.mk towerX GROUND_LEVEL towerZ
    let apartmentTowerPositions := apartmentTowerPositions ++ [towerBasePos]
    let inner := generateBalconiesLoop towerX towerZ towerBasePos balconiesPerTower
      balconiesPerTower.toNat 0 balconyData r2.2
    generateTowersLoop RAND_MAX areaSize halfSize balconiesPerTower k
      apartmentTowerPositions inner.1 inner.2

/-- Embedding of `generateTowersAndBalconies(areaSize, towerCount,
balconiesPerTower)`: the two global vectors on entry are arguments, the result
is `((apartmentTowerPositions, balconyData), rng)` on exit. -/
def generateTowersAndBalconies (RAND_MAX : Nat) (apartmentTowerPositions : List Vec3)
    (balconyData : List Balcony) (areaSize : ℚ) (towerCount balconiesPerTower : Int)
    (rng : Rng) : (List Vec3 × List Balcony) × Rng :=
  let halfSize : ℚ := areaSize / 2
  let apartmentTowerPositions := clear apartmentTowerPositions
  let balconyData := clear balconyData
  generateTowersLoop RAND_MAX areaSize halfSize balconiesPerTower towerCount.toNat
    apartmentTowerPositions balconyData rng

/-! ## Collision world -/

/-- The global object vectors the collision query reads. -/
structure World where
  treePositions : List Vec3
  bushPositions : List Vec3
  housePositions : List Vec3
  apartmentTowerPositions : List Vec3
  balconyData : List Balcony

/-- Image of `glm::clamp(x, minVal, maxVal)`, that is `min(max(x, minVal), maxVal)`. -/
def clamp (x minVal maxVal : ℚ) : ℚ := min (max x minVal) maxVal

/-- Image of `glm::length2` on the 2D difference `(ax, az) - (bx, bz)`. -/
def length2 (dx dz : ℚ) : ℚ := dx * dx + dz * dz

/-- Test of one tree inside `checkCollision`. -/
def treeHit (nextPos treeBasePos : Vec3) : Bool :=
  let distSq := length2 (nextPos.x - treeBasePos.x) (nextPos.z - treeBasePos.z)
  let minCollisionDist := PLAYER_RADIUS + TREE_TRUNK_RADIUS
  decide (distSq < minCollisionDist * minCollisionDist)

/-- Test of one house inside `checkCollision`. -/
def houseHit (nextPos houseBasePos : Vec3) : Bool :=
  let objMinX := houseBasePos.x - HOUSE_BODY_WIDTH / 2
  let objMaxX := houseBasePos.x + HOUSE_BODY_WIDTH / 2
  let objMinZ := houseBasePos.z - HOUSE_BODY_DEPTH / 2
  let objMaxZ := houseBasePos.z + HOUSE_BODY_DEPTH / 2
  let closestX := clamp nextPos.x objMinX objMaxX
  let closestZ := clamp nextPos.z objMinZ objMaxZ
  let distSq := length2 (nextPos.x - closestX) (nextPos.z - closestZ)
  decide (distSq < PLAYER_RADIUS * PLAYER_RADIUS)

/-- Test of one apartment tower inside `checkCollision`. -/
def towerHit (nextPos towerBasePos : Vec3) : Bool :=
  let objMinX := towerBasePos.x - TOWER_WIDTH / 2
  let objMaxX := towerBasePos.x + TOWER_WIDTH / 2
  let objMinZ := towerBasePos.z - TOWER_DEPTH / 2
  let objMaxZ := towerBasePos.z + TOWER_DEPTH / 2
  let closestX := clamp nextPos.x objMinX objMaxX
  let closestZ := clamp nextPos.z objMinZ objMaxZ
  let distSq := length2 (nextPos.x - closestX) (nextPos.z - closestZ)
  decide (distSq < PLAYER_RADIUS * PLAYER_RADIUS)

/-- Test of one balcony inside `checkCollision`: the horizontal test first, the
vertical overlap only when the horizontal one succeeds. -/
def balconyHit (nextPos : Vec3) (bal : Balcony) : Bool :=
  let balMinX := bal.position.x - bal.dimensions.x / 2
  let balMaxX := bal.position.x + bal.dimensions.x / 2
  let balMinZ := bal.position.z - bal.dimensions.z / 2
  let balMaxZ := bal.position.z + bal.dimensions.z / 2
  let closestX := clamp nextPos.x balMinX balMaxX
  let closestZ := clamp nextPos.z balMinZ balMaxZ
  let distSq := length2 (nextPos.x - closestX) (nextPos.z - closestZ)
  if distSq < PLAYER_RADIUS * PLAYER_RADIUS then
    let playerFeetY := nextPos.y - PLAYER_EYE_HEIGHT
    let playerHeadY := nextPos.y
    let balconyFloorBottomY := bal.position.y - bal.dimensions.y / 2
    let balconyEffectiveTopY := bal.position.y + bal.dimensions.y / 2 + BALCONY_RAILING_HEIGHT
    decide (playerHeadY > balconyFloorBottomY ∧ playerFeetY < balconyEffectiveTopY)
  else
    false

/-- Embedding of `checkCollision(nextPos)`: the four loops in source order, each
returning `true` at its first hit. -/
def checkCollision (w : World) (nextPos : Vec3) : Bool :=
  if w.treePositions.any (treeHit nextPos) then true
  else if w.housePositions.any (houseHit nextPos) then true
  else if w.apartmentTowerPositions.any (towerHit nextPos) then true
  else if w.balconyData.any (balconyHit nextPos) then true
  else false

/-! ## Vector helpers of the movement code -/

/-- Componentwise sum, the image of `operator+` on `glm::vec3`. -/
def Vec3.add (a b : Vec3) : Vec3 := Vec3.mk (a.x + b.x) (a.y + b.y) (a.z + b.z)

/-- Componentwise difference, the image of `operator-` on `glm::vec3`. -/
def Vec3.sub (a b : Vec3) : Vec3 := Vec3.mk (a.x - b.x) (a.y - b.y) (a.z - b.z)

/-- Vector times scalar, the image of `operator*` on `glm::vec3` and `float`. -/
def Vec3.scale (a : Vec3) (k : ℚ) : Vec3 := Vec3.mk (a.x * k) (a.y * k) (a.z * k)

/-- Image of `glm::dot` on `glm::vec3`. -/
def dot (a b : Vec3) : ℚ := a.x * b.x + a.y * b.y + a.z * b.z

/-- Image of `glm::length2` on `glm::vec3`. -/
def Vec3.length2 (v : Vec3) : ℚ := dot v v

/-- Image of `glm::cross`. -/
def cross (a b : Vec3) : Vec3 :=
  Vec3.mk (a.y * b.z - b.y * a.z) (a.z * b.x - b.z * a.x) (a.x * b.y - b.x * a.y)

/-- Image of `glm::normalize`, `v * inversesqrt(dot(v, v))`; the inverse square
root of the math library is a parameter. -/
def normalize (inversesqrt : ℚ → ℚ) (v : Vec3) : Vec3 := v.scale (inversesqrt (dot v v))

/-! ## Player and camera state -/

/-- Pressed state of the keys `processInput` polls with `glfwGetKey`. -/
structure Keys where
  escape : Bool
  leftShift : Bool
  w : Bool
  s : Bool
  a : Bool
  d : Bool
  space : Bool
  leftControl : Bool
  rightControl : Bool
  f11 : Bool

/-- The camera, physics and mouse-look globals of the program. -/
structure State where
  cameraPos : Vec3
  cameraFront : Vec3
  cameraUp : Vec3
  cameraVelocityY : ℚ
  isOnGround : Bool
  firstMouse : Bool
  yaw : ℚ
  pitch : ℚ
  lastX : ℚ
  lastY : ℚ

def INITIAL_SCR_WIDTH : ℚ := 1280
def INITIAL_SCR_HEIGHT : ℚ := 720

/-- The initial values of the globals, as their declarations give them. -/
def initialState : State :=
  { cameraPos := Vec3.mk 0 (GROUND_LEVEL + PLAYER_EYE_HEIGHT) 3
    cameraFront := Vec3.mk 0 0 (-1)
    cameraUp := Vec3.mk 0 1 0
    cameraVelocityY := 0
    isOnGround := true
    firstMouse := true
    yaw := -90
    pitch := 0
    lastX := INITIAL_SCR_WIDTH / 2
    lastY := INITIAL_SCR_HEIGHT / 2 }

/-- No key pressed. -/
def noKeys : Keys :=
  { escape := false, leftShift := false, w := false, s := false, a := false, d := false,
    space := false, leftControl := false, rightControl := false, f11 := false }

/-! ## Movement controller -/

/-- The `deltaMove` of `processInput`: speed, movement direction from the keys
and the look direction, scaled by the frame time. -/
def deltaMove (inversesqrt : ℚ → ℚ) (g_flyModeEnabled : Bool) (keys : Keys)
    (cameraFront : Vec3) (deltaTime : ℚ) : Vec3 :=
  let currentSpeed : ℚ := PLAYER_BASE_SPEED
  let currentSpeed : ℚ := if keys.leftShift then currentSpeed * SPRINT_MULTIPLIER else currentSpeed
  let moveDir : Vec3 := Vec3.mk 0 0 0
  let forward : Vec3 :=
    if g_flyModeEnabled then cameraFront
    else normalize inversesqrt (Vec3.mk cameraFront.x 0 cameraFront.z)
  let right : Vec3 := normalize inversesqrt (cross forward (Vec3.mk 0 1 0))
  let moveDir := if keys.w then moveDir.add forward else moveDir
  let moveDir := if keys.s then moveDir.sub forward else moveDir
  let moveDir := if keys.a then moveDir.sub right else moveDir
  let moveDir := if keys.d then moveDir.add right else moveDir
  let moveDir := if moveDir.length2 > 1 / 10000 then normalize inversesqrt moveDir else moveDir
  (moveDir.scale currentSpeed).scale deltaTime

/-- Fly branch of `processInput`: the new `cameraPos`. -/
def flyMove (keys : Keys) (deltaTime : ℚ) (cameraPos dMove : Vec3) : Vec3 :=
  let cameraPos := cameraPos.add dMove
  let cameraPos :=
    if keys.space then Vec3.mk cameraPos.x (cameraPos.y + FLY_VERTICAL_SPEED * deltaTime) cameraPos.z
    else cameraPos
  let cameraPos :=
    if keys.leftControl || keys.rightControl then
      Vec3.mk cameraPos.x (cameraPos.y - FLY_VERTICAL_SPEED * deltaTime) cameraPos.z
    else cameraPos
  cameraPos

/-- Horizontal part of the walk branch of `processInput` (simple slide): the
X attempt, then the Z attempt from the resulting position. -/
def walkHorizontal (w : World) (cameraPos dMove : Vec3) : Vec3 :=
  let currentPos := cameraPos
  let nextPosX := Vec3.mk (currentPos.x + dMove.x) currentPos.y currentPos.z
  let cameraPos :=
    if !checkCollision w nextPosX then Vec3.mk nextPosX.x cameraPos.y cameraPos.z
    else cameraPos
  let nextPosZ := Vec3.mk cameraPos.x cameraPos.y (cameraPos.z + dMove.z)
  let cameraPos :=
    if !checkCollision w nextPosZ then Vec3.mk cameraPos.x cameraPos.y nextPosZ.z
    else cameraPos
  cameraPos

/-- Vertical part of the walk branch of `processInput` (gravity, jump, ground
check): from `cameraPos` after the horizontal part, `cameraVelocityY` and
`isOnGround` to their new values. -/
def walkVertical (space : Bool) (deltaTime : ℚ) (cameraPos : Vec3) (cameraVelocityY : ℚ)
    (isOnGround : Bool) : Vec3 × ℚ × Bool :=
  let cameraVelocityY := cameraVelocityY - GRAVITY * deltaTime
  let jump := space && isOnGround
  let cameraVelocityY := if jump then JUMP_FORCE else cameraVelocityY
  let nextPosY := Vec3.mk cameraPos.x (cameraPos.y + cameraVelocityY * deltaTime) cameraPos.z
  let playerFeetY := nextPosY.y - PLAYER_EYE_HEIGHT
  if playerFeetY ≤ GROUND_LEVEL then
    (Vec3.mk cameraPos.x (GROUND_LEVEL + PLAYER_EYE_HEIGHT) cameraPos.z, 0, true)
  else
    (Vec3.mk cameraPos.x nextPosY.y cameraPos.z, cameraVelocityY, false)

/-- Embedding of `processInput(window)` on the camera and physics globals, for
one frame with the given keys and `deltaTime`. The Escape and F11 handling only
write window state, which is not part of `State`. -/
def processInput (inversesqrt : ℚ → ℚ) (g_flyModeEnabled : Bool) (w : World) (keys : Keys)
    (deltaTime : ℚ) (st : State) : State :=
  let dMove := deltaMove inversesqrt g_flyModeEnabled keys st.cameraFront deltaTime
  if g_flyModeEnabled then
    { st with
      cameraPos := flyMove keys deltaTime st.cameraPos dMove
      isOnGround := false
      cameraVelocityY := 0 }
  else
    let cameraPos := walkHorizontal w st.cameraPos dMove
    let v := walkVertical keys.space deltaTime cameraPos st.cameraVelocityY st.isOnGround
    { st with
      cameraPos := v.1
      cameraVelocityY := v.2.1
      isOnGround := v.2.2 }

/-! ## Mouse look -/

/-- Embedding of `mouse_callback(window, xposIn, yposIn)`; `cos`, `sin` and
`glm::radians` of the math library are parameters. -/
def mouse_callback (cos sin radians inversesqrt : ℚ → ℚ) (xposIn yposIn : ℚ) (st : State) :
    State :=
  let xpos := xposIn
  let ypos := yposIn
  let lastX := if st.firstMouse then xpos else st.lastX
  let lastY := if st.firstMouse then ypos else st.lastY
  let firstMouse := if st.firstMouse then false else st.firstMouse
  let xoffset := xpos - lastX
  let yoffset := lastY - ypos
  let lastX := xpos
  let lastY := ypos
  let sensitivity : ℚ := 1 / 10
  let xoffset := xoffset * sensitivity
  let yoffset := yoffset * sensitivity
  let yaw := st.yaw + xoffset
  let pitch := st.pitch + yoffset
  let pitch := if pitch > 89 then 89 else pitch
  let pitch := if pitch < -89 then -89 else pitch
  let front := Vec3.mk (cos (radians yaw) * cos (radians pitch)) (sin (radians pitch))
    (sin (radians yaw) * cos (radians pitch))
  let cameraFront := normalize inversesqrt front
  let worldUp := Vec3.mk 0 1 0
  let cameraRight := normalize inversesqrt (cross cameraFront worldUp)
  let cameraUp := normalize inversesqrt (cross cameraRight cameraFront)
  { st with
    cameraFront := cameraFront
    cameraUp := cameraUp
    firstMouse := firstMouse
    yaw := yaw
    pitch := pitch
    lastX := lastX
    lastY := lastY }

/-! ## Runs of the program -/

/-- What happens between two observations of the state: a cursor sample
delivered to `mouse_callback`, or a frame handled by `processInput`. -/
inductive Event where
  | mouse (xpos ypos : ℚ)
  | frame (keys : Keys) (deltaTime : ℚ)

/-- One event applied to the state. -/
def applyEvent (cos sin radians inversesqrt : ℚ → ℚ) (g_flyModeEnabled : Bool) (w : World)
    (st : State) : Event → State
  | Event.mouse xpos ypos => mouse_callback cos sin radians inversesqrt xpos ypos st
  | Event.frame keys deltaTime => processInput inversesqrt g_flyModeEnabled w keys deltaTime st

/-- The state after a sequence of events, oldest first. -/
def run (cos sin radians inversesqrt : ℚ → ℚ) (g_flyModeEnabled : Bool) (w : World)
    (st : State) (events : List Event) : State :=
  events.foldl (applyEvent cos sin radians inversesqrt g_flyModeEnabled w) st

/-- The state after `n` frames of `processInput` with the same keys and the
same `deltaTime`. -/
def frames (inversesqrt : ℚ → ℚ) (g_flyModeEnabled : Bool) (w : World) (keys : Keys)
    (deltaTime : ℚ) : Nat → State → State
  | 0, st => st
  | n + 1, st =>
    frames inversesqrt g_flyModeEnabled w keys deltaTime n
      (processInput inversesqrt g_flyModeEnabled w keys deltaTime st)

/-! ## The solid obstacles -/

/-- The tree, house and tower loops of `checkCollision`, without the balcony
loop: whether one of these three tests reports a hit at `nextPos`. -/
def solidHit (w : World) (nextPos : Vec3) : Bool :=
  if w.treePositions.any (treeHit nextPos) then true
  else if w.housePositions.any (houseHit nextPos) then true
  else if w.apartmentTowerPositions.any (towerHit nextPos) then true
  else false

/-! ## Reference for the vertical update -/

/-- Reference for the vertical part of a walking step, following the words of
the specification: the jump overrides gravity when the jump input is active and
the player is grounded, then the height is integrated and snapped to the
ground. The result is `(y, v, grounded)`. -/
def verticalReference (y v : ℚ) (grounded jump : Bool) (dt : ℚ) : ℚ × ℚ × Bool :=
  let v1 : ℚ := if jump = true ∧ grounded = true then JUMP_FORCE else v - GRAVITY * dt
  let yc : ℚ := y + v1 * dt
  if yc - PLAYER_EYE_HEIGHT ≤ GROUND_LEVEL then (GROUND_LEVEL + PLAYER_EYE_HEIGHT, 0, true)
  else (yc, v1, false)

/-! ## Binary32 arithmetic

The definitions above read `float` as `ℚ`. The ones below repeat two pieces of
the source, the body that builds one balcony and the vertical part of a walking
step, with the rounding of every `float` operation made explicit, so that the
same code can be read in exact arithmetic and in binary32. -/

/-- Rounding of an exact result to binary32: nearest value with a 24-bit
significand, ties to even. The exponent range is not modelled (no overflow, no
subnormals); every value whose rounding is evaluated below lies between `2^-9`
and `2^5` in magnitude, well inside the normal range. -/
def round32 (q : ℚ) : ℚ :=
  if q = 0 then 0
  else
    let e : ℤ := Int.log 2 |q|
    let ulp : ℚ := (2 : ℚ) ^ (e - 23)
    let t : ℚ := q / ulp
    let n : ℤ := ⌊t⌋
    let r : ℤ :=
      if t - (n : ℚ) < 1 / 2 then n
      else if 1 / 2 < t - (n : ℚ) then n + 1
      else if n % 2 = 0 then n else n + 1
    (r : ℚ) * ulp

/-- An arithmetic for the `float` code: how the exact result of one operation
is stored (`fl`), and the values of the `const float` declarations. -/
structure Arith where
  fl : ℚ → ℚ
  GRAVITY : ℚ
  JUMP_FORCE : ℚ
  PLAYER_EYE_HEIGHT : ℚ
  GROUND_LEVEL : ℚ
  TOWER_WIDTH : ℚ
  TOWER_DEPTH : ℚ
  TOWER_HEIGHT : ℚ
  BALCONY_WIDTH : ℚ
  BALCONY_DEPTH : ℚ
  BALCONY_FLOOR_HEIGHT : ℚ
  BALCONY_RAILING_HEIGHT : ℚ
  BALCONY_RAILING_THICKNESS : ℚ

/-- Exact arithmetic: nothing is rounded and the constants are the decimal
values of their literals. This is the reading of the definitions above. -/
def exactArith : Arith :=
  { fl := fun q => q
    GRAVITY := GRAVITY
    JUMP_FORCE := JUMP_FORCE
    PLAYER_EYE_HEIGHT := PLAYER_EYE_HEIGHT
    GROUND_LEVEL := GROUND_LEVEL
    TOWER_WIDTH := TOWER_WIDTH
    TOWER_DEPTH := TOWER_DEPTH
    TOWER_HEIGHT := TOWER_HEIGHT
    BALCONY_WIDTH := BALCONY_WIDTH
    BALCONY_DEPTH := BALCONY_DEPTH
    BALCONY_FLOOR_HEIGHT := BALCONY_FLOOR_HEIGHT
    BALCONY_RAILING_HEIGHT := BALCONY_RAILING_HEIGHT
    BALCONY_RAILING_THICKNESS := BALCONY_RAILING_THICKNESS }

/-- Binary32 arithmetic: every operation is rounded by `round32`, and every
constant is the binary32 value of its literal (`GRAVITY` is the rounded product
`9.81f * 2.0f`, `GROUND_LEVEL` is `-0.45f`). -/
def binary32Arith : Arith :=
  { fl := round32
    GRAVITY := round32 (round32 (981 / 100) * round32 2)
    JUMP_FORCE := round32 8
    PLAYER_EYE_HEIGHT := round32 (17 / 10)
    GROUND_LEVEL := -(round32 (45 / 100))
    TOWER_WIDTH := round32 8
    TOWER_DEPTH := round32 8
    TOWER_HEIGHT := round32 40
    BALCONY_WIDTH := round32 (25 / 10)
    BALCONY_DEPTH := round32 (15 / 10)
    BALCONY_FLOOR_HEIGHT := round32 (2 / 10)
    BALCONY_RAILING_HEIGHT := round32 (8 / 10)
    BALCONY_RAILING_THICKNESS := round32 (1 / 10) }

/-- The body of the inner loop of `generateTowersAndBalconies`, as
`generateBalcony`, with every `float` operation stored through `A.fl` and the
constants taken from `A`; the two `int` operands of `heightFraction` are
converted to `float` before the division. -/
def generateBalconyIn (A : Arith) (towerX towerZ : ℚ) (towerBasePos : Vec3)
    (balconiesPerTower j : Int) (side : Nat) : Balcony :=
  let heightFraction : ℚ :=
    A.fl (A.fl ((j + 1 : Int) : ℚ) / A.fl ((balconiesPerTower + 1 : Int) : ℚ))
  let balconyY : ℚ := A.fl (towerBasePos.y + A.fl (A.TOWER_HEIGHT * heightFraction))
  let balconyX : ℚ := towerX
  let balconyZ : ℚ := towerZ
  let railingOffsetX : ℚ :=
    A.fl (A.fl (A.BALCONY_WIDTH / 2) - A.fl (A.BALCONY_RAILING_THICKNESS / 2))
  let railingOffsetZ : ℚ :=
    A.fl (A.fl (A.BALCONY_DEPTH / 2) - A.fl (A.BALCONY_RAILING_THICKNESS / 2))
  let railingOffsetY : ℚ :=
    A.fl (A.fl (A.BALCONY_FLOOR_HEIGHT / 2) + A.fl (A.BALCONY_RAILING_HEIGHT / 2))
  let dimensions := Vec3.mk A.BALCONY_WIDTH A.BALCONY_FLOOR_HEIGHT A.BALCONY_DEPTH
  let railingDimsFront :=
    Vec3.mk A.BALCONY_WIDTH A.BALCONY_RAILING_HEIGHT A.BALCONY_RAILING_THICKNESS
  let railingDimsSide :=
    Vec3.mk A.BALCONY_RAILING_THICKNESS A.BALCONY_RAILING_HEIGHT A.BALCONY_DEPTH
  if side = 0 then
    let balconyZ := A.fl (balconyZ + A.fl (A.fl (A.TOWER_DEPTH / 2) + A.fl (A.BALCONY_DEPTH / 2)))
    { position := Vec3.mk balconyX balconyY balconyZ
      dimensions := dimensions
      railingFrontPosRel := Vec3.mk 0 railingOffsetY railingOffsetZ
      railingLeftPosRel := Vec3.mk (-railingOffsetX) railingOffsetY 0
      railingRightPosRel := Vec3.mk railingOffsetX railingOffsetY 0
      railingDimsFront := railingDimsFront
      railingDimsSide := railingDimsSide }
  else if side = 1 then
    let balconyZ := A.fl (balconyZ - A.fl (A.fl (A.TOWER_DEPTH / 2) + A.fl (A.BALCONY_DEPTH / 2)))
    { position := Vec3.mk balconyX balconyY balconyZ
      dimensions := dimensions
      railingFrontPosRel := Vec3.mk 0 railingOffsetY (-railingOffsetZ)
      railingLeftPosRel := Vec3.mk (-railingOffsetX) railingOffsetY 0
      railingRightPosRel := Vec3.mk railingOffsetX railingOffsetY 0
      railingDimsFront :=
        Vec3.mk A.BALCONY_WIDTH A.BALCONY_RAILING_HEIGHT A.BALCONY_RAILING_THICKNESS
      railingDimsSide :=
        Vec3.mk A.BALCONY_RAILING_THICKNESS A.BALCONY_RAILING_HEIGHT A.BALCONY_DEPTH }
  else if side = 2 then
    let balconyX := A.fl (balconyX + A.fl (A.fl (A.TOWER_WIDTH / 2) + A.fl (A.BALCONY_DEPTH / 2)))
    { position := Vec3.mk balconyX balconyY balconyZ
      dimensions := Vec3.mk A.BALCONY_DEPTH A.BALCONY_FLOOR_HEIGHT A.BALCONY_WIDTH
      railingFrontPosRel := Vec3.mk railingOffsetZ railingOffsetY 0
      railingLeftPosRel := Vec3.mk 0 railingOffsetY (-railingOffsetX)
      railingRightPosRel := Vec3.mk 0 railingOffsetY railingOffsetX
      railingDimsFront :=
        Vec3.mk A.BALCONY_RAILING_THICKNESS A.BALCONY_RAILING_HEIGHT A.BALCONY_WIDTH
      railingDimsSide :=
        Vec3.mk A.BALCONY_DEPTH A.BALCONY_RAILING_HEIGHT A.BALCONY_RAILING_THICKNESS }
  else
    let balconyX := A.fl (balconyX - A.fl (A.fl (A.TOWER_WIDTH / 2) + A.fl (A.BALCONY_DEPTH / 2)))
    { position := Vec3.mk balconyX balconyY balconyZ
      dimensions := Vec3.mk A.BALCONY_DEPTH A.BALCONY_FLOOR_HEIGHT A.BALCONY_WIDTH
      railingFrontPosRel := Vec3.mk (-railingOffsetZ) railingOffsetY 0
      railingLeftPosRel := Vec3.mk 0 railingOffsetY (-railingOffsetX)
      railingRightPosRel := Vec3.mk 0 railingOffsetY railingOffsetX
      railingDimsFront :=
        Vec3.mk A.BALCONY_RAILING_THICKNESS A.BALCONY_RAILING_HEIGHT A.BALCONY_WIDTH
      railingDimsSide :=
        Vec3.mk A.BALCONY_DEPTH A.BALCONY_RAILING_HEIGHT A.BALCONY_RAILING_THICKNESS }

/-- The vertical part of the walk branch of `processInput`, as `walkVertical`,
with every `float` operation stored through `A.fl` and the constants taken from
`A`. -/
def walkVerticalIn (A : Arith) (space : Bool) (deltaTime : ℚ) (cameraPos : Vec3)
    (cameraVelocityY : ℚ) (isOnGround : Bool) : Vec3 × ℚ × Bool :=
  let cameraVelocityY := A.fl (cameraVelocityY - A.fl (A.GRAVITY * deltaTime))
  let jump := space && isOnGround
  let cameraVelocityY := if jump then A.JUMP_FORCE else cameraVelocityY
  let nextPosY :=
    Vec3.mk cameraPos.x (A.fl (cameraPos.y + A.fl (cameraVelocityY * deltaTime))) cameraPos.z
  let playerFeetY := A.fl (nextPosY.y - A.PLAYER_EYE_HEIGHT)
  if playerFeetY ≤ A.GROUND_LEVEL then
    (Vec3.mk cameraPos.x (A.fl (A.GROUND_LEVEL + A.PLAYER_EYE_HEIGHT)) cameraPos.z, 0, true)
  else
    (Vec3.mk cameraPos.x nextPosY.y cameraPos.z, cameraVelocityY, false)

/-- The camera position, vertical velocity and grounded flag after `n` walking
frames without the jump key, all with the same `deltaTime`, as far as the
vertical part of `processInput` determines them. -/
def idleFallIn (A : Arith) (deltaTime : ℚ) : Nat → Vec3 × ℚ × Bool → Vec3 × ℚ × Bool
  | 0, s => s
  | n + 1, s => idleFallIn A deltaTime n (walkVerticalIn A false deltaTime s.1 s.2.1 s.2.2)

/-! ## Closed-form descriptions used by the proofs -/

/-- Position number `i` written by a scatter loop that starts with the
generator in state `rng`. -/
def scatterAt (RAND_MAX : Nat) (areaSize halfSize : ℚ) (rng : Rng) (i : Nat) : Vec3 :=
  Vec3.mk (((rng.draws (rng.pos + 2 * i) : ℚ) / (RAND_MAX : ℚ)) * areaSize - halfSize)
    GROUND_LEVEL
    (((rng.draws (rng.pos + 2 * i + 1) : ℚ) / (RAND_MAX : ℚ)) * areaSize - halfSize)

/-- Base position of tower number `i` written by a tower loop that starts with
the generator in state `rng`, when every tower takes `2 + nn` draws. -/
def towerAt (RAND_MAX : Nat) (areaSize halfSize : ℚ) (nn : Nat) (rng : Rng) (i : Nat) : Vec3 :=
  Vec3.mk (((rng.draws (rng.pos + (2 + nn) * i) : ℚ) / (RAND_MAX : ℚ)) * areaSize - halfSize)
    GROUND_LEVEL
    (((rng.draws (rng.pos + (2 + nn) * i + 1) : ℚ) / (RAND_MAX : ℚ)) * areaSize - halfSize)

/-- Balcony number `j` of tower number `i` written by a tower loop that starts
with the generator in state `rng`. -/
def balconyAt (RAND_MAX : Nat) (areaSize halfSize : ℚ) (balconiesPerTower : Int) (rng : Rng)
    (i j : Nat) : Balcony :=
  generateBalcony (towerAt RAND_MAX areaSize halfSize balconiesPerTower.toNat rng i).x
    (towerAt RAND_MAX areaSize halfSize balconiesPerTower.toNat rng i).z
    (towerAt RAND_MAX areaSize halfSize balconiesPerTower.toNat rng i)
    balconiesPerTower (j : Int)
    (rng.draws (rng.pos + (2 + balconiesPerTower.toNat) * i + 2 + j) % 4)

/-! ## Sample inputs -/

/-- A sample draw stream with values in `[0, 32767]`, cursor at the start. -/
def sampleRng : Rng := ⟨fun k => (7919 * k + 13) % 32768, 0⟩

/-- A sample balcony: the lowest of three on the +Z side of a tower standing at
the origin. -/
def sampleBalcony : Balcony :=
  generateBalcony 0 0 (Vec3.mk 0 GROUND_LEVEL 0) 3 0 0

/-- A world with a single tree, at `(1, GROUND_LEVEL, 1)`. -/
def sampleTreeWorld : World := ⟨[Vec3.mk 1 GROUND_LEVEL 1], [], [], [], []⟩

/-- A world with a single tree, at `(1, GROUND_LEVEL, 0)`. -/
def sampleTreeWorldX : World := ⟨[Vec3.mk 1 GROUND_LEVEL 0], [], [], [], []⟩

/-- A world without any object. -/
def emptyWorld : World := ⟨[], [], [], [], []⟩

/-- The initial state lifted to camera height 10, airborne. -/
def droppedState : State :=
  { initialState with cameraPos := Vec3.mk 0 10 3, isOnGround := false }

/-- A world with a single apartment tower, at `(0, GROUND_LEVEL, -2)`: its
footprint reaches from `z = -6` to `z = 2`. -/
def sampleTowerWorld : World := ⟨[], [], [], [Vec3.mk 0 GROUND_LEVEL (-2)], []⟩

/-- Forward and sprint pressed, nothing else. -/
def sprintForward : Keys := { noKeys with w := true, leftShift := true }

/-- An inverse square root that is exact at the two arguments the sample
flying step passes to it, `1` and `16/25`. -/
def sampleInversesqrt : ℚ → ℚ := fun q => if q = 16 / 25 then 5 / 4 else 1

/-- The initial state with the camera looking up along the unit vector
`(0, 3/5, -4/5)`. -/
def pitchedState : State :=
  { initialState with cameraFront := Vec3.mk 0 (3 / 5) (-(4 / 5)) }

/-- Forward pressed, nothing else. -/
def forwardOnly : Keys := { noKeys with w := true }

/-! ## Closed forms of the generator loops -/

theorem scatterAt_shift (RAND_MAX : Nat) (areaSize halfSize : ℚ) (rng : Rng) (i : Nat) :
    scatterAt RAND_MAX areaSize halfSize ⟨rng.draws, rng.pos + 1 + 1⟩ i
      = scatterAt RAND_MAX areaSize halfSize rng (i + 1) := by
  have h1 : rng.pos + 1 + 1 + 2 * i = rng.pos + 2 * (i + 1) := by omega
  have h2 : rng.pos + 1 + 1 + 2 * i + 1 = rng.pos + 2 * (i + 1) + 1 := by omega
  simp only [scatterAt, h1, h2]

theorem generateObjectPositionsLoop_eq (RAND_MAX : Nat) (areaSize halfSize : ℚ) :
    ∀ (k : Nat) (positions : List Vec3) (rng : Rng),
      generateObjectPositionsLoop RAND_MAX areaSize halfSize k positions rng
        = (positions ++ (List.range k).map (scatterAt RAND_MAX areaSize halfSize rng),
            ⟨rng.draws, rng.pos + 2 * k⟩) := by
  intro k
  induction k with
  | zero => intro positions rng; simp [generateObjectPositionsLoop]
  | succ k ih =>
    intro positions rng
    rw [generateObjectPositionsLoop, ih, List.range_succ_eq_map]
    have hs : ∀ i, scatterAt RAND_MAX areaSize halfSize (rand (rand rng).2).2 i
        = scatterAt RAND_MAX areaSize halfSize rng (i + 1) := fun i =>
      scatterAt_shift RAND_MAX areaSize halfSize rng i
    have h0 : Vec3.mk (((rand rng).1 : ℚ) / (RAND_MAX : ℚ) * areaSize - halfSize) GROUND_LEVEL
        (((rand (rand rng).2).1 : ℚ) / (RAND_MAX : ℚ) * areaSize - halfSize)
        = scatterAt RAND_MAX areaSize halfSize rng 0 := by
      simp [scatterAt, rand]
    rw [h0]
    refine Prod.ext ?_ ?_
    · simp only [List.append_assoc, List.singleton_append, List.map_cons, List.map_map]
      congr 2
      apply List.map_congr_left
      intro i _
      exact hs i
    · show (⟨rng.draws, rng.pos + 1 + 1 + 2 * k⟩ : Rng) = ⟨rng.draws, rng.pos + 2 * (k + 1)⟩
      congr 1
      omega

theorem towerAt_shift (RAND_MAX : Nat) (areaSize halfSize : ℚ) (nn : Nat) (rng : Rng) (i : Nat) :
    towerAt RAND_MAX areaSize halfSize nn ⟨rng.draws, rng.pos + 1 + 1 + nn⟩ i
      = towerAt RAND_MAX areaSize halfSize nn rng (i + 1) := by
  have h1 : rng.pos + 1 + 1 + nn + (2 + nn) * i = rng.pos + (2 + nn) * (i + 1) := by
    rw [Nat.mul_succ]; omega
  have h2 : rng.pos + 1 + 1 + nn + (2 + nn) * i + 1 = rng.pos + (2 + nn) * (i + 1) + 1 := by
    rw [h1]
  simp only [towerAt, h1, h2]

theorem balconyAt_shift (RAND_MAX : Nat) (areaSize halfSize : ℚ) (balconiesPerTower : Int)
    (rng : Rng) (i j : Nat) :
    balconyAt RAND_MAX areaSize halfSize balconiesPerTower
        ⟨rng.draws, rng.pos + 1 + 1 + balconiesPerTower.toNat⟩ i j
      = balconyAt RAND_MAX areaSize halfSize balconiesPerTower rng (i + 1) j := by
  have h1 : rng.pos + 1 + 1 + balconiesPerTower.toNat + (2 + balconiesPerTower.toNat) * i + 2 + j
      = rng.pos + (2 + balconiesPerTower.toNat) * (i + 1) + 2 + j := by
    rw [Nat.mul_succ]; omega
  simp only [balconyAt, towerAt_shift, h1]

theorem generateBalconiesLoop_eq (towerX towerZ : ℚ) (towerBasePos : Vec3)
    (balconiesPerTower : Int) :
    ∀ (k : Nat) (j : Int) (balconyData : List Balcony) (rng : Rng),
      generateBalconiesLoop towerX towerZ towerBasePos balconiesPerTower k j balconyData rng
        = (balconyData ++ (List.range k).map (fun (m : Nat) =>
              generateBalcony towerX towerZ towerBasePos balconiesPerTower (j + (m : Int))
                (rng.draws (rng.pos + m) % 4)),
            ⟨rng.draws, rng.pos + k⟩) := by
  intro k
  induction k with
  | zero => intro j balconyData rng; simp [generateBalconiesLoop]
  | succ k ih =>
    intro j balconyData rng
    rw [generateBalconiesLoop, ih, List.range_succ_eq_map]
    refine Prod.ext ?_ ?_
    · simp only [List.append_assoc, List.singleton_append, List.map_cons, List.map_map, rand]
      congr 2
      · simp
      · apply List.map_congr_left
        intro m _
        have h1 : rng.pos + 1 + m = rng.pos + (m + 1) := by omega
        have h2 : j + 1 + (m : Int) = j + ((m + 1 : Nat) : Int) := by push_cast; ring
        simp only [Function.comp, Nat.succ_eq_add_one, h1, h2]
    · show (⟨rng.draws, rng.pos + 1 + k⟩ : Rng) = ⟨rng.draws, rng.pos + (k + 1)⟩
      congr 1
      omega

theorem generateTowersLoop_eq (RAND_MAX : Nat) (areaSize halfSize : ℚ) (balconiesPerTower : Int) :
    ∀ (k : Nat) (towers : List Vec3) (balconyData : List Balcony) (rng : Rng),
      generateTowersLoop RAND_MAX areaSize halfSize balconiesPerTower k towers balconyData rng
        = ((towers ++ (List.range k).map
                (towerAt RAND_MAX areaSize halfSize balconiesPerTower.toNat rng),
            balconyData ++ ((List.range k).map (fun i =>
                (List.range balconiesPerTower.toNat).map
                  (balconyAt RAND_MAX areaSize halfSize balconiesPerTower rng i))).flatten),
            ⟨rng.draws, rng.pos + (2 + balconiesPerTower.toNat) * k⟩) := by
  intro k
  induction k with
  | zero => intro towers balconyData rng; simp [generateTowersLoop]
  | succ k ih =>
    intro towers balconyData rng
    rw [generateTowersLoop]
    simp only [generateBalconiesLoop_eq, ih, List.range_succ_eq_map k]
    have h0 : Vec3.mk (((rand rng).1 : ℚ) / (RAND_MAX : ℚ) * areaSize - halfSize) GROUND_LEVEL
        (((rand (rand rng).2).1 : ℚ) / (RAND_MAX : ℚ) * areaSize - halfSize)
        = towerAt RAND_MAX areaSize halfSize balconiesPerTower.toNat rng 0 := by
      simp [towerAt, rand]
    have hx : ((rand rng).1 : ℚ) / (RAND_MAX : ℚ) * areaSize - halfSize
        = (towerAt RAND_MAX areaSize halfSize balconiesPerTower.toNat rng 0).x := by
      simp [towerAt, rand]
    have hz : ((rand (rand rng).2).1 : ℚ) / (RAND_MAX : ℚ) * areaSize - halfSize
        = (towerAt RAND_MAX areaSize halfSize balconiesPerTower.toNat rng 0).z := by
      simp [towerAt, rand]
    rw [h0, hx, hz]
    have hr : (rand (rand rng).2).2 = ⟨rng.draws, rng.pos + 1 + 1⟩ := rfl
    rw [hr]
    refine Prod.ext (Prod.ext ?_ ?_) ?_
    · simp only [List.append_assoc, List.singleton_append, List.map_cons, List.map_map]
      congr 2
      apply List.map_congr_left
      intro i _
      exact towerAt_shift RAND_MAX areaSize halfSize balconiesPerTower.toNat rng i
    · simp only [List.append_assoc, List.map_cons, List.map_map, List.flatten_cons]
      congr 2
      · apply List.map_congr_left
        intro m _
        have h1 : rng.pos + (2 + balconiesPerTower.toNat) * 0 + 2 + m = rng.pos + 1 + 1 + m := by
          omega
        simp only [balconyAt, h1, zero_add]
      · congr 1
        apply List.map_congr_left
        intro i _
        apply List.map_congr_left
        intro m _
        exact balconyAt_shift RAND_MAX areaSize halfSize balconiesPerTower rng i m
    · show (⟨rng.draws, rng.pos + 1 + 1 + balconiesPerTower.toNat
          + (2 + balconiesPerTower.toNat) * k⟩ : Rng)
        = ⟨rng.draws, rng.pos + (2 + balconiesPerTower.toNat) * (k + 1)⟩
      congr 1
      rw [Nat.mul_succ]; omega

/-! ## Lists of equally long blocks -/

theorem length_flatten_uniform {α : Type} (nn : Nat) :
    ∀ (L : List (List α)), (∀ l ∈ L, l.length = nn) → L.flatten.length = L.length * nn := by
  intro L
  induction L with
  | nil => intro _; simp
  | cons l L ih =>
    intro h
    have hl : l.length = nn := h l (List.mem_cons_self _ _)
    have hL : ∀ m ∈ L, m.length = nn := fun m hm => h m (List.mem_cons_of_mem _ hm)
    rw [List.flatten_cons, List.length_append, ih hL, hl, List.length_cons, Nat.succ_mul]
    omega

theorem getElem?_flatten_uniform {α : Type} (nn : Nat) :
    ∀ (L : List (List α)), (∀ l ∈ L, l.length = nn) → ∀ (i j : Nat), j < nn →
      L.flatten[i * nn + j]? = (L[i]?).bind (fun l => l[j]?) := by
  intro L
  induction L with
  | nil => intro _ i j _; simp
  | cons l L ih =>
    intro h i j hj
    have hl : l.length = nn := h l (List.mem_cons_self _ _)
    have hL : ∀ m ∈ L, m.length = nn := fun m hm => h m (List.mem_cons_of_mem _ hm)
    cases i with
    | zero =>
      rw [List.flatten_cons, Nat.zero_mul, Nat.zero_add,
        List.getElem?_append_left (by rw [hl]; exact hj)]
      simp
    | succ i =>
      have hidx : (i + 1) * nn + j = l.length + (i * nn + j) := by
        rw [hl, Nat.succ_mul]; omega
      rw [List.flatten_cons, hidx, List.getElem?_append_right (Nat.le_add_right _ _),
        Nat.add_sub_cancel_left, ih hL i j hj]
      simp

/-! ## Arithmetic of one scattered coordinate -/

theorem scatter_coord_bounds (RAND_MAX d : Nat) (areaSize : ℚ) (hA : 0 ≤ areaSize)
    (hd : d ≤ RAND_MAX) :
    -(areaSize / 2) ≤ ((d : ℚ) / (RAND_MAX : ℚ)) * areaSize - areaSize / 2 ∧
      ((d : ℚ) / (RAND_MAX : ℚ)) * areaSize - areaSize / 2 ≤ areaSize / 2 := by
  have h0 : (0 : ℚ) ≤ (d : ℚ) / (RAND_MAX : ℚ) := by positivity
  have h1 : (d : ℚ) / (RAND_MAX : ℚ) ≤ 1 := by
    apply div_le_one_of_le₀
    · exact_mod_cast hd
    · positivity
  constructor <;> nlinarith

/-! ## Unfolded forms of the two generators -/

theorem generateObjectPositions_eq (RAND_MAX : Nat) (positions : List Vec3) (areaSize : ℚ)
    (count : Int) (rng : Rng) :
    generateObjectPositions RAND_MAX positions areaSize count rng
      = ((List.range count.toNat).map (scatterAt RAND_MAX areaSize (areaSize / 2) rng),
          ⟨rng.draws, rng.pos + 2 * count.toNat⟩) := by
  simp [generateObjectPositions, generateObjectPositionsLoop_eq, clear]

theorem generateTowersAndBalconies_eq (RAND_MAX : Nat) (towers : List Vec3)
    (balconyData : List Balcony) (areaSize : ℚ) (towerCount balconiesPerTower : Int)
    (rng : Rng) :
    generateTowersAndBalconies RAND_MAX towers balconyData areaSize towerCount
        balconiesPerTower rng
      = (((List.range towerCount.toNat).map
              (towerAt RAND_MAX areaSize (areaSize / 2) balconiesPerTower.toNat rng),
            ((List.range towerCount.toNat).map (fun i =>
                (List.range balconiesPerTower.toNat).map
                  (balconyAt RAND_MAX areaSize (areaSize / 2) balconiesPerTower rng i))).flatten),
          ⟨rng.draws, rng.pos + (2 + balconiesPerTower.toNat) * towerCount.toNat⟩) := by
  simp [generateTowersAndBalconies, generateTowersLoop_eq, clear]

theorem generated_balconies_uniform (RAND_MAX : Nat) (areaSize : ℚ) (towerCount n : Int)
    (rng : Rng) :
    ∀ l ∈ (List.range towerCount.toNat).map (fun i =>
        (List.range n.toNat).map (balconyAt RAND_MAX areaSize (areaSize / 2) n rng i)),
      l.length = n.toNat := by
  intro l hl
  obtain ⟨i, _, rfl⟩ := List.mem_map.mp hl
  simp

theorem generated_towers_getElem? (RAND_MAX : Nat) (towers : List Vec3)
    (balconyData : List Balcony) (areaSize : ℚ) (towerCount n : Int) (rng : Rng) (i : Nat)
    (hi : i < towerCount.toNat) :
    (generateTowersAndBalconies RAND_MAX towers balconyData areaSize towerCount n rng).1.1[i]?
      = some (towerAt RAND_MAX areaSize (areaSize / 2) n.toNat rng i) := by
  rw [generateTowersAndBalconies_eq]
  simp [List.getElem?_range hi]

theorem generated_balconies_getElem? (RAND_MAX : Nat) (towers : List Vec3)
    (balconyData : List Balcony) (areaSize : ℚ) (towerCount n : Int) (rng : Rng) (i j : Nat)
    (hi : i < towerCount.toNat) (hj : j < n.toNat) :
    (generateTowersAndBalconies RAND_MAX towers balconyData areaSize towerCount n
        rng).1.2[i * n.toNat + j]?
      = some (balconyAt RAND_MAX areaSize (areaSize / 2) n rng i j) := by
  rw [generateTowersAndBalconies_eq]
  show ((List.range towerCount.toNat).map (fun i =>
      (List.range n.toNat).map
        (balconyAt RAND_MAX areaSize (areaSize / 2) n rng i))).flatten[i * n.toNat + j]? = _
  rw [getElem?_flatten_uniform n.toNat _
    (generated_balconies_uniform RAND_MAX areaSize towerCount n rng) i j hj]
  simp [List.getElem?_range hi, List.getElem?_range hj]

/-- A tower read at index `i` and a balcony read at index `i * n + j` (with
`j < n`) of the generated vectors are tower `i` and its balcony `j`. -/
theorem generated_pair (RAND_MAX : Nat) (towers : List Vec3) (balconyData : List Balcony)
    (areaSize : ℚ) (towerCount n : Int) (rng : Rng) (i j : Nat) (t : Vec3) (b : Balcony)
    (hj : (j : Int) < n)
    (ht : (generateTowersAndBalconies RAND_MAX towers balconyData areaSize towerCount n
      rng).1.1[i]? = some t)
    (hb : (generateTowersAndBalconies RAND_MAX towers balconyData areaSize towerCount n
      rng).1.2[i * n.toNat + j]? = some b) :
    t = towerAt RAND_MAX areaSize (areaSize / 2) n.toNat rng i ∧
      b = balconyAt RAND_MAX areaSize (areaSize / 2) n rng i j := by
  have hj2 : j < n.toNat := by omega
  have hi : i < towerCount.toNat := by
    have hlt := (List.getElem?_eq_some_iff.mp ht).1
    rw [generateTowersAndBalconies_eq] at hlt
    simpa using hlt
  rw [generated_towers_getElem? RAND_MAX towers balconyData areaSize towerCount n rng i hi] at ht
  rw [generated_balconies_getElem? RAND_MAX towers balconyData areaSize towerCount n rng i j
    hi hj2] at hb
  exact ⟨(Option.some.inj ht).symm, (Option.some.inj hb).symm⟩

/-! ## The loop body that builds one balcony -/

theorem generateBalcony_position_y (towerX towerZ : ℚ) (towerBasePos : Vec3)
    (balconiesPerTower j : Int) (side : Nat) :
    (generateBalcony towerX towerZ towerBasePos balconiesPerTower j side).position.y
      = towerBasePos.y + TOWER_HEIGHT * (((j : ℚ) + 1) / ((balconiesPerTower : ℚ) + 1)) := by
  unfold generateBalcony
  split_ifs <;> simp

/-! ## Closest point of an interval and of a rectangle -/

theorem clamp_mem (x lo hi : ℚ) (h : lo ≤ hi) : lo ≤ clamp x lo hi ∧ clamp x lo hi ≤ hi := by
  unfold clamp
  exact ⟨le_min (le_max_right _ _) h, min_le_right _ _⟩

theorem clamp_of_mem (x lo hi : ℚ) (h1 : lo ≤ x) (h2 : x ≤ hi) : clamp x lo hi = x := by
  unfold clamp
  rw [max_eq_left h1, min_eq_left h2]

theorem clamp_closest (x lo hi q : ℚ) (h1 : lo ≤ q) (h2 : q ≤ hi) :
    (x - clamp x lo hi) ^ 2 ≤ (x - q) ^ 2 := by
  unfold clamp
  rcases le_total x lo with hxl | hxl
  · rw [max_eq_right hxl, min_eq_left (le_trans h1 h2)]
    nlinarith
  · rw [max_eq_left hxl]
    rcases le_total x hi with hxh | hxh
    · rw [min_eq_left hxh]
      nlinarith [sq_nonneg (x - q)]
    · rw [min_eq_right hxh]
      nlinarith

/-- The squared distance to the clamped point is below `r2` exactly when some
point of the rectangle is at squared distance below `r2`. -/
theorem box_test_iff (px pz minX maxX minZ maxZ r2 : ℚ) (hx : minX ≤ maxX) (hz : minZ ≤ maxZ) :
    length2 (px - clamp px minX maxX) (pz - clamp pz minZ maxZ) < r2 ↔
      ∃ qx qz : ℚ, minX ≤ qx ∧ qx ≤ maxX ∧ minZ ≤ qz ∧ qz ≤ maxZ ∧
        (px - qx) ^ 2 + (pz - qz) ^ 2 < r2 := by
  constructor
  · intro h
    refine ⟨clamp px minX maxX, clamp pz minZ maxZ, (clamp_mem px minX maxX hx).1,
      (clamp_mem px minX maxX hx).2, (clamp_mem pz minZ maxZ hz).1,
      (clamp_mem pz minZ maxZ hz).2, ?_⟩
    simpa [length2, sq] using h
  · rintro ⟨qx, qz, h1, h2, h3, h4, h⟩
    have e1 := clamp_closest px minX maxX qx h1 h2
    have e2 := clamp_closest pz minZ maxZ qz h3 h4
    have : length2 (px - clamp px minX maxX) (pz - clamp pz minZ maxZ)
        = (px - clamp px minX maxX) ^ 2 + (pz - clamp pz minZ maxZ) ^ 2 := by
      simp [length2, sq]
    rw [this]
    linarith

theorem sampleRng_le (k : Nat) : sampleRng.draws k ≤ 32767 :=
  Nat.le_of_lt_succ (Nat.mod_lt _ (by decide))

/-! ## Generator claims -/

/-- C1: with a non-negative area size and draws in `[0, RAND_MAX]`, every
position written by `generateObjectPositions` and every tower base written by
`generateTowersAndBalconies` has X and Z within `[-areaSize/2, areaSize/2]` and
Y equal to `GROUND_LEVEL` (for any count, any previous contents). -/
theorem C1_positions_within_area (RAND_MAX : Nat) (areaSize : ℚ)
    (count towerCount balconiesPerTower : Int) (rng : Rng)
    (positions towers : List Vec3) (balconyData : List Balcony)
    (hA : 0 ≤ areaSize) (hd : ∀ k, rng.draws k ≤ RAND_MAX) :
    (∀ p ∈ (generateObjectPositions RAND_MAX positions areaSize count rng).1,
        -(areaSize / 2) ≤ p.x ∧ p.x ≤ areaSize / 2 ∧
        -(areaSize / 2) ≤ p.z ∧ p.z ≤ areaSize / 2 ∧ p.y = GROUND_LEVEL) ∧
    (∀ p ∈ (generateTowersAndBalconies RAND_MAX towers balconyData areaSize towerCount
          balconiesPerTower rng).1.1,
        -(areaSize / 2) ≤ p.x ∧ p.x ≤ areaSize / 2 ∧
        -(areaSize / 2) ≤ p.z ∧ p.z ≤ areaSize / 2 ∧ p.y = GROUND_LEVEL) := by
  constructor
  · intro p hp
    rw [generateObjectPositions_eq] at hp
    obtain ⟨i, _, rfl⟩ := List.mem_map.mp hp
    have hx := scatter_coord_bounds RAND_MAX _ areaSize hA (hd (rng.pos + 2 * i))
    have hz := scatter_coord_bounds RAND_MAX _ areaSize hA (hd (rng.pos + 2 * i + 1))
    exact ⟨hx.1, hx.2, hz.1, hz.2, rfl⟩
  · intro p hp
    rw [generateTowersAndBalconies_eq] at hp
    obtain ⟨i, _, rfl⟩ := List.mem_map.mp hp
    have hx := scatter_coord_bounds RAND_MAX _ areaSize hA
      (hd (rng.pos + (2 + balconiesPerTower.toNat) * i))
    have hz := scatter_coord_bounds RAND_MAX _ areaSize hA
      (hd (rng.pos + (2 + balconiesPerTower.toNat) * i + 1))
    exact ⟨hx.1, hx.2, hz.1, hz.2, rfl⟩

/-- Witness of C1: the program configuration (area 500, 800 trees, 25 towers
with 3 balconies each) on the sample stream. -/
theorem C1_positions_within_area_witness :
    ((0 : ℚ) ≤ GROUND_SIZE ∧ ∀ k, sampleRng.draws k ≤ 32767) ∧
    ((∀ p ∈ (generateObjectPositions 32767 [] GROUND_SIZE TREE_COUNT sampleRng).1,
        -(GROUND_SIZE / 2) ≤ p.x ∧ p.x ≤ GROUND_SIZE / 2 ∧
        -(GROUND_SIZE / 2) ≤ p.z ∧ p.z ≤ GROUND_SIZE / 2 ∧ p.y = GROUND_LEVEL) ∧
    (∀ p ∈ (generateTowersAndBalconies 32767 [] [] GROUND_SIZE APARTMENT_TOWER_COUNT
          BALCONIES_PER_TOWER sampleRng).1.1,
        -(GROUND_SIZE / 2) ≤ p.x ∧ p.x ≤ GROUND_SIZE / 2 ∧
        -(GROUND_SIZE / 2) ≤ p.z ∧ p.z ≤ GROUND_SIZE / 2 ∧ p.y = GROUND_LEVEL)) :=
  ⟨⟨by norm_num [GROUND_SIZE], sampleRng_le⟩,
    C1_positions_within_area 32767 GROUND_SIZE TREE_COUNT APARTMENT_TOWER_COUNT
      BALCONIES_PER_TOWER sampleRng [] [] [] (by norm_num [GROUND_SIZE]) sampleRng_le⟩

/-- C2: `generateObjectPositions` takes exactly `2 * count` draws, X before Z
and object 0 before object 1: position `i` is built from draws `2i` and `2i+1`
after the cursor by the formula of the source; the result depends on nothing
but `areaSize`, `count` and those `2 * count` draws. -/
theorem C2_scatter_draw_order (RAND_MAX : Nat) (positions : List Vec3) (areaSize : ℚ)
    (count : Int) (rng : Rng) (hc : 0 ≤ count) :
    (∀ i : Nat, (i : Int) < count →
        (generateObjectPositions RAND_MAX positions areaSize count rng).1[i]?
          = some (Vec3.mk
              (((rng.draws (rng.pos + 2 * i) : ℚ) / (RAND_MAX : ℚ)) * areaSize - areaSize / 2)
              GROUND_LEVEL
              (((rng.draws (rng.pos + 2 * i + 1) : ℚ) / (RAND_MAX : ℚ)) * areaSize
                - areaSize / 2))) ∧
    (generateObjectPositions RAND_MAX positions areaSize count rng).2.draws = rng.draws ∧
    (((generateObjectPositions RAND_MAX positions areaSize count rng).2.pos : Nat) : Int)
      = (rng.pos : Int) + 2 * count ∧
    (∀ (positions2 : List Vec3) (rng2 : Rng),
        (∀ k : Nat, (k : Int) < 2 * count → rng2.draws (rng2.pos + k) = rng.draws (rng.pos + k)) →
        (generateObjectPositions RAND_MAX positions2 areaSize count rng2).1
          = (generateObjectPositions RAND_MAX positions areaSize count rng).1) := by
  have hcn : ((count.toNat : Nat) : Int) = count := Int.toNat_of_nonneg hc
  refine ⟨?_, ?_, ?_, ?_⟩
  · intro i hi
    have hi2 : i < count.toNat := by omega
    rw [generateObjectPositions_eq]
    simp [List.getElem?_range hi2, scatterAt]
  · rw [generateObjectPositions_eq]
  · rw [generateObjectPositions_eq]
    push_cast
    rw [hcn]
  · intro positions2 rng2 h
    rw [generateObjectPositions_eq, generateObjectPositions_eq]
    apply List.map_congr_left
    intro i hi
    have hi2 : i < count.toNat := List.mem_range.mp hi
    have e1 := h (2 * i) (by push_cast; omega)
    have e2 : rng2.draws (rng2.pos + 2 * i + 1) = rng.draws (rng.pos + 2 * i + 1) :=
      h (2 * i + 1) (by push_cast; omega)
    simp only [scatterAt, e1, e2]

/-- Witness of C2: three objects over an area of 500 on the sample stream. -/
theorem C2_scatter_draw_order_witness :
    (0 : Int) ≤ 3 ∧
    (generateObjectPositions 32767 [] 500 3 sampleRng).1[1]?
      = some (Vec3.mk
          (((sampleRng.draws (sampleRng.pos + 2 * 1) : ℚ) / ((32767 : Nat) : ℚ)) * 500 - 500 / 2)
          GROUND_LEVEL
          (((sampleRng.draws (sampleRng.pos + 2 * 1 + 1) : ℚ) / ((32767 : Nat) : ℚ)) * 500
            - 500 / 2)) ∧
    (generateObjectPositions 32767 [] 500 3 sampleRng).2.draws = sampleRng.draws ∧
    (((generateObjectPositions 32767 [] 500 3 sampleRng).2.pos : Nat) : Int)
      = (sampleRng.pos : Int) + 2 * 3 :=
  ⟨by decide,
    (C2_scatter_draw_order 32767 [] 500 3 sampleRng (by decide)).1 1 (by decide),
    (C2_scatter_draw_order 32767 [] 500 3 sampleRng (by decide)).2.1,
    (C2_scatter_draw_order 32767 [] 500 3 sampleRng (by decide)).2.2.1⟩

/-- C3: whatever the vector held before, after `generateObjectPositions` it
holds exactly `count` elements, none of them from before (the result is the one
obtained from an empty vector); the call always returns a result, and `count = 0`
leaves the vector empty. -/
theorem C3_scatter_length (RAND_MAX : Nat) (positions : List Vec3) (areaSize : ℚ)
    (count : Int) (rng : Rng) (hc : 0 ≤ count) :
    (((generateObjectPositions RAND_MAX positions areaSize count rng).1.length : Nat) : Int)
      = count ∧
    generateObjectPositions RAND_MAX positions areaSize count rng
      = generateObjectPositions RAND_MAX [] areaSize count rng ∧
    (count = 0 → (generateObjectPositions RAND_MAX positions areaSize count rng).1 = []) := by
  refine ⟨?_, ?_, ?_⟩
  · rw [generateObjectPositions_eq]
    simp [Int.toNat_of_nonneg hc]
  · rw [generateObjectPositions_eq, generateObjectPositions_eq]
  · intro h0
    subst h0
    rw [generateObjectPositions_eq]
    simp

/-- Witness of C3: a vector holding one stale element, regenerated with
`count = 2` and with `count = 0`. -/
theorem C3_scatter_length_witness :
    ((0 : Int) ≤ 2 ∧
      (((generateObjectPositions 32767 [Vec3.mk 1 2 3] 500 2 sampleRng).1.length : Nat) : Int)
        = 2) ∧
    ((0 : Int) ≤ 0 ∧ (generateObjectPositions 32767 [Vec3.mk 1 2 3] 500 0 sampleRng).1 = []) :=
  ⟨⟨by decide, (C3_scatter_length 32767 [Vec3.mk 1 2 3] 500 2 sampleRng (by decide)).1⟩,
    ⟨le_refl 0, (C3_scatter_length 32767 [Vec3.mk 1 2 3] 500 0 sampleRng (le_refl 0)).2.2 rfl⟩⟩

/-- C4: `generateTowersAndBalconies` writes `towerCount` towers and
`towerCount * n` balconies and takes `towerCount * (2 + n)` draws; tower `i`
uses the draws at offsets `(2+n)*i` (X) and `(2+n)*i + 1` (Z), its balcony `j`
the draw at offset `(2+n)*i + 2 + j`, reduced modulo 4, as its side; the balcony
stored at index `i*n + j` is the one computed from tower `i` and that draw. -/
theorem C4_tower_draw_order (RAND_MAX : Nat) (towers : List Vec3) (balconyData : List Balcony)
    (areaSize : ℚ) (towerCount n : Int) (rng : Rng) (ht : 0 ≤ towerCount) (hn : 0 ≤ n) :
    (((generateTowersAndBalconies RAND_MAX towers balconyData areaSize towerCount n rng).1.1.length
        : Nat) : Int) = towerCount ∧
    (((generateTowersAndBalconies RAND_MAX towers balconyData areaSize towerCount n rng).1.2.length
        : Nat) : Int) = towerCount * n ∧
    (generateTowersAndBalconies RAND_MAX towers balconyData areaSize towerCount n rng).2.draws
      = rng.draws ∧
    (((generateTowersAndBalconies RAND_MAX towers balconyData areaSize towerCount n rng).2.pos
        : Nat) : Int) = (rng.pos : Int) + towerCount * (2 + n) ∧
    (∀ i : Nat, (i : Int) < towerCount →
      (generateTowersAndBalconies RAND_MAX towers balconyData areaSize towerCount n rng).1.1[i]?
        = some (Vec3.mk
            (((rng.draws (rng.pos + (2 + n.toNat) * i) : ℚ) / (RAND_MAX : ℚ)) * areaSize
              - areaSize / 2)
            GROUND_LEVEL
            (((rng.draws (rng.pos + (2 + n.toNat) * i + 1) : ℚ) / (RAND_MAX : ℚ)) * areaSize
              - areaSize / 2)) ∧
      ∀ j : Nat, (j : Int) < n →
        (generateTowersAndBalconies RAND_MAX towers balconyData areaSize towerCount n
            rng).1.2[i * n.toNat + j]?
          = some (generateBalcony
              (((rng.draws (rng.pos + (2 + n.toNat) * i) : ℚ) / (RAND_MAX : ℚ)) * areaSize
                - areaSize / 2)
              (((rng.draws (rng.pos + (2 + n.toNat) * i + 1) : ℚ) / (RAND_MAX : ℚ)) * areaSize
                - areaSize / 2)
              (Vec3.mk
                (((rng.draws (rng.pos + (2 + n.toNat) * i) : ℚ) / (RAND_MAX : ℚ)) * areaSize
                  - areaSize / 2)
                GROUND_LEVEL
                (((rng.draws (rng.pos + (2 + n.toNat) * i + 1) : ℚ) / (RAND_MAX : ℚ)) * areaSize
                  - areaSize / 2))
              n (j : Int)
              (rng.draws (rng.pos + (2 + n.toNat) * i + 2 + j) % 4))) := by
  have htn : ((towerCount.toNat : Nat) : Int) = towerCount := Int.toNat_of_nonneg ht
  have hnn : ((n.toNat : Nat) : Int) = n := Int.toNat_of_nonneg hn
  refine ⟨?_, ?_, ?_, ?_, ?_⟩
  · rw [generateTowersAndBalconies_eq]
    simp [htn]
  · rw [generateTowersAndBalconies_eq]
    show ((((List.range towerCount.toNat).map (fun i =>
      (List.range n.toNat).map
        (balconyAt RAND_MAX areaSize (areaSize / 2) n rng i))).flatten.length : Nat) : Int) = _
    rw [length_flatten_uniform n.toNat _
      (generated_balconies_uniform RAND_MAX areaSize towerCount n rng)]
    simp only [List.length_map, List.length_range]
    push_cast
    rw [htn, hnn]
  · rw [generateTowersAndBalconies_eq]
  · rw [generateTowersAndBalconies_eq]
    push_cast
    rw [htn, hnn]
    ring
  · intro i hi
    have hi2 : i < towerCount.toNat := by omega
    refine ⟨?_, ?_⟩
    · rw [generated_towers_getElem? RAND_MAX towers balconyData areaSize towerCount n rng i hi2]
      rfl
    · intro j hj
      have hj2 : j < n.toNat := by omega
      rw [generated_balconies_getElem? RAND_MAX towers balconyData areaSize towerCount n rng i j
        hi2 hj2]
      rfl

/-- Witness of C4: the program configuration, 25 towers with 3 balconies each,
on the sample stream. -/
theorem C4_tower_draw_order_witness :
    ((0 : Int) ≤ APARTMENT_TOWER_COUNT ∧ (0 : Int) ≤ BALCONIES_PER_TOWER) ∧
    (((generateTowersAndBalconies 32767 [] [] GROUND_SIZE APARTMENT_TOWER_COUNT
        BALCONIES_PER_TOWER sampleRng).1.1.length : Nat) : Int) = APARTMENT_TOWER_COUNT ∧
    (((generateTowersAndBalconies 32767 [] [] GROUND_SIZE APARTMENT_TOWER_COUNT
        BALCONIES_PER_TOWER sampleRng).1.2.length : Nat) : Int)
      = APARTMENT_TOWER_COUNT * BALCONIES_PER_TOWER ∧
    (((generateTowersAndBalconies 32767 [] [] GROUND_SIZE APARTMENT_TOWER_COUNT
        BALCONIES_PER_TOWER sampleRng).2.pos : Nat) : Int)
      = (sampleRng.pos : Int) + APARTMENT_TOWER_COUNT * (2 + BALCONIES_PER_TOWER) :=
  ⟨⟨by decide, by decide⟩,
    (C4_tower_draw_order 32767 [] [] GROUND_SIZE APARTMENT_TOWER_COUNT BALCONIES_PER_TOWER
      sampleRng (by decide) (by decide)).1,
    (C4_tower_draw_order 32767 [] [] GROUND_SIZE APARTMENT_TOWER_COUNT BALCONIES_PER_TOWER
      sampleRng (by decide) (by decide)).2.1,
    (C4_tower_draw_order 32767 [] [] GROUND_SIZE APARTMENT_TOWER_COUNT BALCONIES_PER_TOWER
      sampleRng (by decide) (by decide)).2.2.2.1⟩

/-- C5: in the generated world, balcony `j` (of `n`) of a tower has its centre
at height `towerBaseY + TOWER_HEIGHT * (j+1)/(n+1)`, the quotient taken in the
rationals; the fraction lies strictly between 0 and 1, so the centre is strictly
between the tower base and the tower top; along one tower the fractions and the
heights strictly increase with `j`; for `n = 3` the fractions are 1/4, 1/2, 3/4. -/
theorem C5_balcony_height (RAND_MAX : Nat) (towers : List Vec3) (balconyData : List Balcony)
    (areaSize : ℚ) (towerCount n : Int) (rng : Rng) (i j : Nat) (t : Vec3) (b : Balcony)
    (hj : (j : Int) < n)
    (ht : (generateTowersAndBalconies RAND_MAX towers balconyData areaSize towerCount n
      rng).1.1[i]? = some t)
    (hb : (generateTowersAndBalconies RAND_MAX towers balconyData areaSize towerCount n
      rng).1.2[i * n.toNat + j]? = some b) :
    b.position.y = t.y + TOWER_HEIGHT * (((j : ℚ) + 1) / ((n : ℚ) + 1)) ∧
    0 < ((j : ℚ) + 1) / ((n : ℚ) + 1) ∧ ((j : ℚ) + 1) / ((n : ℚ) + 1) < 1 ∧
    t.y < b.position.y ∧ b.position.y < t.y + TOWER_HEIGHT ∧
    (∀ (j2 : Nat) (b2 : Balcony), j < j2 → (j2 : Int) < n →
      (generateTowersAndBalconies RAND_MAX towers balconyData areaSize towerCount n
        rng).1.2[i * n.toNat + j2]? = some b2 →
      ((j : ℚ) + 1) / ((n : ℚ) + 1) < ((j2 : ℚ) + 1) / ((n : ℚ) + 1) ∧
        b.position.y < b2.position.y) ∧
    (n = 3 →
      (j = 0 ∧ ((j : ℚ) + 1) / ((n : ℚ) + 1) = 1 / 4) ∨
      (j = 1 ∧ ((j : ℚ) + 1) / ((n : ℚ) + 1) = 1 / 2) ∨
      (j = 2 ∧ ((j : ℚ) + 1) / ((n : ℚ) + 1) = 3 / 4)) := by
  obtain ⟨rfl, rfl⟩ := generated_pair RAND_MAX towers balconyData areaSize towerCount n rng
    i j t b hj ht hb
  have hjq : (j : ℚ) < (n : ℚ) := by exact_mod_cast hj
  have hj0 : (0 : ℚ) ≤ (j : ℚ) := Nat.cast_nonneg j
  have hden : (0 : ℚ) < (n : ℚ) + 1 := by linarith
  have hy : ∀ m : Nat, (balconyAt RAND_MAX areaSize (areaSize / 2) n rng i m).position.y
      = (towerAt RAND_MAX areaSize (areaSize / 2) n.toNat rng i).y
        + TOWER_HEIGHT * (((m : ℚ) + 1) / ((n : ℚ) + 1)) := by
    intro m
    rw [balconyAt, generateBalcony_position_y]
    push_cast
    rfl
  have hpos : 0 < ((j : ℚ) + 1) / ((n : ℚ) + 1) := div_pos (by linarith) hden
  have hlt1 : ((j : ℚ) + 1) / ((n : ℚ) + 1) < 1 := by
    rw [div_lt_one hden]; linarith
  have hTH : (0 : ℚ) < TOWER_HEIGHT := by norm_num [TOWER_HEIGHT]
  refine ⟨hy j, hpos, hlt1, ?_, ?_, ?_, ?_⟩
  · rw [hy j]
    have := mul_pos hTH hpos
    linarith
  · rw [hy j]
    have : TOWER_HEIGHT * (((j : ℚ) + 1) / ((n : ℚ) + 1)) < TOWER_HEIGHT * 1 :=
      mul_lt_mul_of_pos_left hlt1 hTH
    linarith
  · intro j2 b2 hjj hj2 hb2
    obtain ⟨-, rfl⟩ := generated_pair RAND_MAX towers balconyData areaSize towerCount n rng
      i j2 _ b2 hj2 ht hb2
    have hjj2 : (j : ℚ) < (j2 : ℚ) := by exact_mod_cast hjj
    have hfr : ((j : ℚ) + 1) / ((n : ℚ) + 1) < ((j2 : ℚ) + 1) / ((n : ℚ) + 1) :=
      div_lt_div_of_pos_right (by linarith) hden
    refine ⟨hfr, ?_⟩
    rw [hy j, hy j2]
    have := mul_lt_mul_of_pos_left hfr hTH
    linarith
  · intro h3
    subst h3
    have hj3 : j < 3 := by omega
    interval_cases j
    · left; exact ⟨rfl, by norm_num⟩
    · right; left; exact ⟨rfl, by norm_num⟩
    · right; right; exact ⟨rfl, by norm_num⟩

/-- Witness of C5: the middle balcony of the first tower in the program
configuration (25 towers, 3 balconies each) on the sample stream. -/
theorem C5_balcony_height_witness :
    (((1 : Nat) : Int) < BALCONIES_PER_TOWER) ∧
    (balconyAt 32767 GROUND_SIZE (GROUND_SIZE / 2) BALCONIES_PER_TOWER sampleRng 0 1).position.y
      = (towerAt 32767 GROUND_SIZE (GROUND_SIZE / 2) BALCONIES_PER_TOWER.toNat sampleRng 0).y
        + TOWER_HEIGHT * ((((1 : Nat) : ℚ) + 1) / ((BALCONIES_PER_TOWER : ℚ) + 1)) :=
  ⟨by decide,
    (C5_balcony_height 32767 [] [] GROUND_SIZE APARTMENT_TOWER_COUNT BALCONIES_PER_TOWER
      sampleRng 0 1 _ _ (by decide)
      (generated_towers_getElem? 32767 [] [] GROUND_SIZE APARTMENT_TOWER_COUNT
        BALCONIES_PER_TOWER sampleRng 0 (by decide))
      (generated_balconies_getElem? 32767 [] [] GROUND_SIZE APARTMENT_TOWER_COUNT
        BALCONIES_PER_TOWER sampleRng 0 1 (by decide) (by decide))).1⟩

/-- C6: in the generated world, balcony `j` of tower `i` is attached on the side
`s = draw % 4` (0: +Z, 1: -Z, 2: +X, 3: -X): its centre keeps the tower
coordinate on the other horizontal axis and is moved along the axis of `s`, in
the direction of `s`, by half the tower extent plus half `BALCONY_DEPTH`; the
floor is `(BALCONY_WIDTH, BALCONY_FLOOR_HEIGHT, BALCONY_DEPTH)` on the Z sides
and `(BALCONY_DEPTH, BALCONY_FLOOR_HEIGHT, BALCONY_WIDTH)` on the X sides, so
its extent along the projecting axis is `BALCONY_DEPTH` and its inner edge lies
exactly on the tower face. -/
theorem C6_balcony_attachment (RAND_MAX : Nat) (towers : List Vec3)
    (balconyData : List Balcony) (areaSize : ℚ) (towerCount n : Int) (rng : Rng) (i j : Nat)
    (t : Vec3) (b : Balcony) (hj : (j : Int) < n)
    (ht : (generateTowersAndBalconies RAND_MAX towers balconyData areaSize towerCount n
      rng).1.1[i]? = some t)
    (hb : (generateTowersAndBalconies RAND_MAX towers balconyData areaSize towerCount n
      rng).1.2[i * n.toNat + j]? = some b) :
    rng.draws (rng.pos + (2 + n.toNat) * i + 2 + j) % 4 < 4 ∧
    (rng.draws (rng.pos + (2 + n.toNat) * i + 2 + j) % 4 = 0 →
      b.position.x = t.x ∧ b.position.z ≠ t.z ∧
      b.position.z = t.z + (TOWER_DEPTH / 2 + BALCONY_DEPTH / 2) ∧
      b.dimensions = Vec3.mk BALCONY_WIDTH BALCONY_FLOOR_HEIGHT BALCONY_DEPTH ∧
      b.position.z - b.dimensions.z / 2 = t.z + TOWER_DEPTH / 2) ∧
    (rng.draws (rng.pos + (2 + n.toNat) * i + 2 + j) % 4 = 1 →
      b.position.x = t.x ∧ b.position.z ≠ t.z ∧
      b.position.z = t.z - (TOWER_DEPTH / 2 + BALCONY_DEPTH / 2) ∧
      b.dimensions = Vec3.mk BALCONY_WIDTH BALCONY_FLOOR_HEIGHT BALCONY_DEPTH ∧
      b.position.z + b.dimensions.z / 2 = t.z - TOWER_DEPTH / 2) ∧
    (rng.draws (rng.pos + (2 + n.toNat) * i + 2 + j) % 4 = 2 →
      b.position.z = t.z ∧ b.position.x ≠ t.x ∧
      b.position.x = t.x + (TOWER_WIDTH / 2 + BALCONY_DEPTH / 2) ∧
      b.dimensions = Vec3.mk BALCONY_DEPTH BALCONY_FLOOR_HEIGHT BALCONY_WIDTH ∧
      b.position.x - b.dimensions.x / 2 = t.x + TOWER_WIDTH / 2) ∧
    (rng.draws (rng.pos + (2 + n.toNat) * i + 2 + j) % 4 = 3 →
      b.position.z = t.z ∧ b.position.x ≠ t.x ∧
      b.position.x = t.x - (TOWER_WIDTH / 2 + BALCONY_DEPTH / 2) ∧
      b.dimensions = Vec3.mk BALCONY_DEPTH BALCONY_FLOOR_HEIGHT BALCONY_WIDTH ∧
      b.position.x + b.dimensions.x / 2 = t.x - TOWER_WIDTH / 2) := by
  obtain ⟨rfl, rfl⟩ := generated_pair RAND_MAX towers balconyData areaSize towerCount n rng
    i j t b hj ht hb
  have hs : rng.draws (rng.pos + (2 + n.toNat) * i + 2 + j) % 4 < 4 := Nat.mod_lt _ (by decide)
  refine ⟨hs, ?_, ?_, ?_, ?_⟩ <;> intro h <;>
    simp only [balconyAt, generateBalcony, h] <;>
    norm_num [TOWER_DEPTH, TOWER_WIDTH, BALCONY_DEPTH, BALCONY_WIDTH] <;>
    ring

/-- Witness of C6: the first balcony of the first tower in the program
configuration on the sample stream; its side draw is 15851, that is side 3. -/
theorem C6_balcony_attachment_witness :
    (((0 : Nat) : Int) < BALCONIES_PER_TOWER) ∧
    sampleRng.draws (sampleRng.pos + (2 + BALCONIES_PER_TOWER.toNat) * 0 + 2 + 0) % 4 = 3 ∧
    (balconyAt 32767 GROUND_SIZE (GROUND_SIZE / 2) BALCONIES_PER_TOWER sampleRng 0 0).position.x
      = (towerAt 32767 GROUND_SIZE (GROUND_SIZE / 2) BALCONIES_PER_TOWER.toNat sampleRng 0).x
        - (TOWER_WIDTH / 2 + BALCONY_DEPTH / 2) :=
  ⟨by decide, by decide,
    ((C6_balcony_attachment 32767 [] [] GROUND_SIZE APARTMENT_TOWER_COUNT BALCONIES_PER_TOWER
      sampleRng 0 0 _ _ (by decide)
      (generated_towers_getElem? 32767 [] [] GROUND_SIZE APARTMENT_TOWER_COUNT
        BALCONIES_PER_TOWER sampleRng 0 (by decide))
      (generated_balconies_getElem? 32767 [] [] GROUND_SIZE APARTMENT_TOWER_COUNT
        BALCONIES_PER_TOWER sampleRng 0 0 (by decide) (by decide))).2.2.2.2 (by decide)).2.2.1⟩

/-! ## Collision claims -/

/-- C8: with a single tree at `(tx, tz)` as the only obstacle (bushes do not
collide), `checkCollision` answers `true` exactly when the squared horizontal
distance to the tree is strictly below `(PLAYER_RADIUS + TREE_TRUNK_RADIUS)^2`,
whatever the Y of the candidate; it is blocked at the centre of the tree and
free at every horizontal distance at or beyond the sum of the radii. -/
theorem C8_tree_collision (tx ty tz : ℚ) (bushes : List Vec3) (p : Vec3) :
    (checkCollision ⟨[Vec3.mk tx ty tz], bushes, [], [], []⟩ p = true ↔
      (p.x - tx) ^ 2 + (p.z - tz) ^ 2 < (PLAYER_RADIUS + TREE_TRUNK_RADIUS) ^ 2) ∧
    checkCollision ⟨[Vec3.mk tx ty tz], bushes, [], [], []⟩ (Vec3.mk tx p.y tz) = true ∧
    ((PLAYER_RADIUS + TREE_TRUNK_RADIUS) ^ 2 ≤ (p.x - tx) ^ 2 + (p.z - tz) ^ 2 →
      checkCollision ⟨[Vec3.mk tx ty tz], bushes, [], [], []⟩ p = false) := by
  have key : ∀ q : Vec3, (checkCollision ⟨[Vec3.mk tx ty tz], bushes, [], [], []⟩ q = true ↔
      (q.x - tx) ^ 2 + (q.z - tz) ^ 2 < (PLAYER_RADIUS + TREE_TRUNK_RADIUS) ^ 2) := by
    intro q
    simp [checkCollision, treeHit, length2, sq]
  refine ⟨key p, ?_, ?_⟩
  · rw [key]
    norm_num [PLAYER_RADIUS, TREE_TRUNK_RADIUS]
  · intro h
    rw [← Bool.not_eq_true, key]
    exact not_lt.mpr h

theorem rect_closest (px pz minX maxX minZ maxZ qx qz : ℚ)
    (h1 : minX ≤ qx) (h2 : qx ≤ maxX) (h3 : minZ ≤ qz) (h4 : qz ≤ maxZ) :
    (px - clamp px minX maxX) ^ 2 + (pz - clamp pz minZ maxZ) ^ 2
      ≤ (px - qx) ^ 2 + (pz - qz) ^ 2 :=
  add_le_add (clamp_closest px minX maxX qx h1 h2) (clamp_closest pz minZ maxZ qz h3 h4)

theorem houseWorld_check (hx hy hz : ℚ) (bushes : List Vec3) (q : Vec3) :
    checkCollision ⟨[], bushes, [Vec3.mk hx hy hz], [], []⟩ q = true ↔
      (q.x - clamp q.x (hx - HOUSE_BODY_WIDTH / 2) (hx + HOUSE_BODY_WIDTH / 2)) ^ 2
        + (q.z - clamp q.z (hz - HOUSE_BODY_DEPTH / 2) (hz + HOUSE_BODY_DEPTH / 2)) ^ 2
        < PLAYER_RADIUS ^ 2 := by
  simp [checkCollision, houseHit, length2, sq]

theorem towerWorld_check (hx hy hz : ℚ) (bushes : List Vec3) (q : Vec3) :
    checkCollision ⟨[], bushes, [], [Vec3.mk hx hy hz], []⟩ q = true ↔
      (q.x - clamp q.x (hx - TOWER_WIDTH / 2) (hx + TOWER_WIDTH / 2)) ^ 2
        + (q.z - clamp q.z (hz - TOWER_DEPTH / 2) (hz + TOWER_DEPTH / 2)) ^ 2
        < PLAYER_RADIUS ^ 2 := by
  simp [checkCollision, towerHit, length2, sq]

/-- C9: with a single house (footprint 4 by 5), respectively a single tower
(footprint 8 by 8), centred at `(hx, hz)` as the only obstacle, `checkCollision`
answers `true` exactly when the squared distance from `(p.x, p.z)` to the
closest point of the footprint rectangle is strictly below `PLAYER_RADIUS^2`;
the answer does not depend on `p.y`, and every candidate inside or on the
footprint is blocked. -/
theorem C9_box_collision (hx hy hz : ℚ) (bushes : List Vec3) (p : Vec3) :
    (HOUSE_BODY_WIDTH = 4 ∧ HOUSE_BODY_DEPTH = 5 ∧ TOWER_WIDTH = 8 ∧ TOWER_DEPTH = 8) ∧
    (∃ cx cz : ℚ,
      (hx - HOUSE_BODY_WIDTH / 2 ≤ cx ∧ cx ≤ hx + HOUSE_BODY_WIDTH / 2 ∧ hz - HOUSE_BODY_DEPTH / 2 ≤ cz ∧ cz ≤ hz + HOUSE_BODY_DEPTH / 2) ∧
      (∀ qx qz : ℚ, hx - HOUSE_BODY_WIDTH / 2 ≤ qx → qx ≤ hx + HOUSE_BODY_WIDTH / 2 →
        hz - HOUSE_BODY_DEPTH / 2 ≤ qz → qz ≤ hz + HOUSE_BODY_DEPTH / 2 →
        (p.x - cx) ^ 2 + (p.z - cz) ^ 2 ≤ (p.x - qx) ^ 2 + (p.z - qz) ^ 2) ∧
      (checkCollision ⟨[], bushes, [Vec3.mk hx hy hz], [], []⟩ p = true ↔
        (p.x - cx) ^ 2 + (p.z - cz) ^ 2 < PLAYER_RADIUS ^ 2)) ∧
    (∀ y : ℚ, checkCollision ⟨[], bushes, [Vec3.mk hx hy hz], [], []⟩ (Vec3.mk p.x y p.z)
      = checkCollision ⟨[], bushes, [Vec3.mk hx hy hz], [], []⟩ p) ∧
    (hx - HOUSE_BODY_WIDTH / 2 ≤ p.x → p.x ≤ hx + HOUSE_BODY_WIDTH / 2 → hz - HOUSE_BODY_DEPTH / 2 ≤ p.z → p.z ≤ hz + HOUSE_BODY_DEPTH / 2 →
      checkCollision ⟨[], bushes, [Vec3.mk hx hy hz], [], []⟩ p = true) ∧
    (∃ cx cz : ℚ,
      (hx - TOWER_WIDTH / 2 ≤ cx ∧ cx ≤ hx + TOWER_WIDTH / 2 ∧ hz - TOWER_DEPTH / 2 ≤ cz ∧ cz ≤ hz + TOWER_DEPTH / 2) ∧
      (∀ qx qz : ℚ, hx - TOWER_WIDTH / 2 ≤ qx → qx ≤ hx + TOWER_WIDTH / 2 →
        hz - TOWER_DEPTH / 2 ≤ qz → qz ≤ hz + TOWER_DEPTH / 2 →
        (p.x - cx) ^ 2 + (p.z - cz) ^ 2 ≤ (p.x - qx) ^ 2 + (p.z - qz) ^ 2) ∧
      (checkCollision ⟨[], bushes, [], [Vec3.mk hx hy hz], []⟩ p = true ↔
        (p.x - cx) ^ 2 + (p.z - cz) ^ 2 < PLAYER_RADIUS ^ 2)) ∧
    (∀ y : ℚ, checkCollision ⟨[], bushes, [], [Vec3.mk hx hy hz], []⟩ (Vec3.mk p.x y p.z)
      = checkCollision ⟨[], bushes, [], [Vec3.mk hx hy hz], []⟩ p) ∧
    (hx - TOWER_WIDTH / 2 ≤ p.x → p.x ≤ hx + TOWER_WIDTH / 2 → hz - TOWER_DEPTH / 2 ≤ p.z → p.z ≤ hz + TOWER_DEPTH / 2 →
      checkCollision ⟨[], bushes, [], [Vec3.mk hx hy hz], []⟩ p = true) := by
  have hW : hx - HOUSE_BODY_WIDTH / 2 ≤ hx + HOUSE_BODY_WIDTH / 2 := by
    unfold HOUSE_BODY_WIDTH; linarith
  have hD : hz - HOUSE_BODY_DEPTH / 2 ≤ hz + HOUSE_BODY_DEPTH / 2 := by
    unfold HOUSE_BODY_DEPTH; linarith
  have tW : hx - TOWER_WIDTH / 2 ≤ hx + TOWER_WIDTH / 2 := by
    unfold TOWER_WIDTH; linarith
  have tD : hz - TOWER_DEPTH / 2 ≤ hz + TOWER_DEPTH / 2 := by
    unfold TOWER_DEPTH; linarith
  have hR : (0 : ℚ) < PLAYER_RADIUS ^ 2 := by norm_num [PLAYER_RADIUS]
  refine ⟨⟨rfl, rfl, rfl, rfl⟩, ⟨_, _, ⟨(clamp_mem _ _ _ hW).1, (clamp_mem _ _ _ hW).2,
      (clamp_mem _ _ _ hD).1, (clamp_mem _ _ _ hD).2⟩,
      fun qx qz h1 h2 h3 h4 => rect_closest _ _ _ _ _ _ qx qz h1 h2 h3 h4,
      houseWorld_check hx hy hz bushes p⟩, ?_, ?_,
    ⟨_, _, ⟨(clamp_mem _ _ _ tW).1, (clamp_mem _ _ _ tW).2,
      (clamp_mem _ _ _ tD).1, (clamp_mem _ _ _ tD).2⟩,
      fun qx qz h1 h2 h3 h4 => rect_closest _ _ _ _ _ _ qx qz h1 h2 h3 h4,
      towerWorld_check hx hy hz bushes p⟩, ?_, ?_⟩
  · intro y
    rw [Bool.eq_iff_iff, houseWorld_check, houseWorld_check]
  · intro h1 h2 h3 h4
    rw [houseWorld_check, clamp_of_mem _ _ _ h1 h2, clamp_of_mem _ _ _ h3 h4]
    simpa using hR
  · intro y
    rw [Bool.eq_iff_iff, towerWorld_check, towerWorld_check]
  · intro h1 h2 h3 h4
    rw [towerWorld_check, clamp_of_mem _ _ _ h1 h2, clamp_of_mem _ _ _ h3 h4]
    simpa using hR

theorem balconyWorld_check (bushes : List Vec3) (b : Balcony) (q : Vec3) :
    checkCollision ⟨[], bushes, [], [], [b]⟩ q = true ↔
      ((q.x - clamp q.x (b.position.x - b.dimensions.x / 2)
            (b.position.x + b.dimensions.x / 2)) ^ 2
          + (q.z - clamp q.z (b.position.z - b.dimensions.z / 2)
            (b.position.z + b.dimensions.z / 2)) ^ 2 < PLAYER_RADIUS ^ 2) ∧
        q.y > b.position.y - b.dimensions.y / 2 ∧
        q.y - PLAYER_EYE_HEIGHT < b.position.y + b.dimensions.y / 2 + BALCONY_RAILING_HEIGHT := by
  simp [checkCollision, balconyHit, length2, sq]

/-- C10: with a single balcony (floor of non-negative width and depth) as the
only obstacle, `checkCollision` answers `true` exactly when (a) the squared
horizontal distance to the closest point of the floor footprint is strictly
below `PLAYER_RADIUS^2` and (b) `p.y` is strictly above the floor bottom and
`p.y - PLAYER_EYE_HEIGHT` strictly below the floor top plus the railing height;
a head at or below the floor bottom, or feet at or above the railing top, are
never blocked. -/
theorem C10_balcony_collision (bushes : List Vec3) (b : Balcony) (p : Vec3)
    (hdx : 0 ≤ b.dimensions.x) (hdz : 0 ≤ b.dimensions.z) :
    (∃ cx cz : ℚ,
      (b.position.x - b.dimensions.x / 2 ≤ cx ∧ cx ≤ b.position.x + b.dimensions.x / 2 ∧
        b.position.z - b.dimensions.z / 2 ≤ cz ∧ cz ≤ b.position.z + b.dimensions.z / 2) ∧
      (∀ qx qz : ℚ, b.position.x - b.dimensions.x / 2 ≤ qx →
        qx ≤ b.position.x + b.dimensions.x / 2 →
        b.position.z - b.dimensions.z / 2 ≤ qz → qz ≤ b.position.z + b.dimensions.z / 2 →
        (p.x - cx) ^ 2 + (p.z - cz) ^ 2 ≤ (p.x - qx) ^ 2 + (p.z - qz) ^ 2) ∧
      (checkCollision ⟨[], bushes, [], [], [b]⟩ p = true ↔
        (p.x - cx) ^ 2 + (p.z - cz) ^ 2 < PLAYER_RADIUS ^ 2 ∧
        p.y > b.position.y - b.dimensions.y / 2 ∧
        p.y - PLAYER_EYE_HEIGHT
          < b.position.y + b.dimensions.y / 2 + BALCONY_RAILING_HEIGHT)) ∧
    (p.y ≤ b.position.y - b.dimensions.y / 2 →
      checkCollision ⟨[], bushes, [], [], [b]⟩ p = false) ∧
    (b.position.y + b.dimensions.y / 2 + BALCONY_RAILING_HEIGHT ≤ p.y - PLAYER_EYE_HEIGHT →
      checkCollision ⟨[], bushes, [], [], [b]⟩ p = false) := by
  have hX : b.position.x - b.dimensions.x / 2 ≤ b.position.x + b.dimensions.x / 2 := by
    linarith
  have hZ : b.position.z - b.dimensions.z / 2 ≤ b.position.z + b.dimensions.z / 2 := by
    linarith
  refine ⟨⟨_, _, ⟨(clamp_mem _ _ _ hX).1, (clamp_mem _ _ _ hX).2,
      (clamp_mem _ _ _ hZ).1, (clamp_mem _ _ _ hZ).2⟩,
      fun qx qz h1 h2 h3 h4 => rect_closest _ _ _ _ _ _ qx qz h1 h2 h3 h4,
      balconyWorld_check bushes b p⟩, ?_, ?_⟩
  · intro h
    rw [← Bool.not_eq_true, balconyWorld_check]
    rintro ⟨-, h2, -⟩
    exact absurd h2 (not_lt.mpr h)
  · intro h
    rw [← Bool.not_eq_true, balconyWorld_check]
    rintro ⟨-, -, h3⟩
    exact absurd h3 (not_lt.mpr h)

theorem sampleBalcony_dims :
    (0 : ℚ) ≤ sampleBalcony.dimensions.x ∧ (0 : ℚ) ≤ sampleBalcony.dimensions.z := by
  simp only [sampleBalcony, generateBalcony]
  norm_num [BALCONY_WIDTH, BALCONY_DEPTH]

/-- Witness of C10: a player standing on the ground under the sample balcony
(head at `GROUND_LEVEL + PLAYER_EYE_HEIGHT`, below the floor bottom) is free. -/
theorem C10_balcony_collision_witness :
    ((0 : ℚ) ≤ sampleBalcony.dimensions.x ∧ (0 : ℚ) ≤ sampleBalcony.dimensions.z) ∧
    checkCollision ⟨[], [], [], [], [sampleBalcony]⟩
      (Vec3.mk 0 (GROUND_LEVEL + PLAYER_EYE_HEIGHT) (19 / 4)) = false :=
  ⟨sampleBalcony_dims,
    (C10_balcony_collision [] sampleBalcony
      (Vec3.mk 0 (GROUND_LEVEL + PLAYER_EYE_HEIGHT) (19 / 4))
      sampleBalcony_dims.1 sampleBalcony_dims.2).2.1
      (by
        simp only [sampleBalcony, generateBalcony]
        norm_num [GROUND_LEVEL, PLAYER_EYE_HEIGHT, TOWER_HEIGHT, BALCONY_FLOOR_HEIGHT])⟩

/-! ## The parts of a walking step -/

theorem walkVertical_x (space : Bool) (dt : ℚ) (p : Vec3) (v : ℚ) (g : Bool) :
    (walkVertical space dt p v g).1.x = p.x := by
  unfold walkVertical
  dsimp only
  split_ifs <;> rfl

theorem walkVertical_z (space : Bool) (dt : ℚ) (p : Vec3) (v : ℚ) (g : Bool) :
    (walkVertical space dt p v g).1.z = p.z := by
  unfold walkVertical
  dsimp only
  split_ifs <;> rfl

theorem walkHorizontal_y (w : World) (p d : Vec3) : (walkHorizontal w p d).y = p.y := by
  unfold walkHorizontal
  dsimp only
  split_ifs <;> rfl

theorem processInput_walk_x (inversesqrt : ℚ → ℚ) (w : World) (keys : Keys) (dt : ℚ)
    (st : State) :
    (processInput inversesqrt false w keys dt st).cameraPos.x
      = (walkHorizontal w st.cameraPos
          (deltaMove inversesqrt false keys st.cameraFront dt)).x := by
  simp [processInput, walkVertical_x]

theorem processInput_walk_z (inversesqrt : ℚ → ℚ) (w : World) (keys : Keys) (dt : ℚ)
    (st : State) :
    (processInput inversesqrt false w keys dt st).cameraPos.z
      = (walkHorizontal w st.cameraPos
          (deltaMove inversesqrt false keys st.cameraFront dt)).z := by
  simp [processInput, walkVertical_z]

/-- The X attempt of the slide. -/
theorem walkHorizontal_x (w : World) (p d : Vec3) :
    (walkHorizontal w p d).x
      = if checkCollision w (Vec3.mk (p.x + d.x) p.y p.z) = true then p.x else p.x + d.x := by
  unfold walkHorizontal
  dsimp only
  split_ifs <;> simp_all

/-- The Z attempt of the slide, probed at the X the X attempt left. -/
theorem walkHorizontal_z (w : World) (p d : Vec3) :
    (walkHorizontal w p d).z
      = if checkCollision w (Vec3.mk (walkHorizontal w p d).x p.y (p.z + d.z)) = true then p.z
        else p.z + d.z := by
  rw [walkHorizontal_x]
  unfold walkHorizontal
  dsimp only
  split_ifs <;> simp_all

/-! ## Movement claims -/

/-- C11: in walking mode, when the probe at `(x+dx, y, z)` is blocked and the
probe at `(x, y, z+dz)` is free, the horizontal part of `processInput` leaves X
at `x` and moves Z to `z+dz`; the same holds for the X and Z that a whole
walking step of `processInput` returns. -/
theorem C11_slide_blocked_x (w : World) (cameraPos dMove : Vec3)
    (hX : checkCollision w (Vec3.mk (cameraPos.x + dMove.x) cameraPos.y cameraPos.z) = true)
    (hZ : checkCollision w (Vec3.mk cameraPos.x cameraPos.y (cameraPos.z + dMove.z)) = false) :
    (walkHorizontal w cameraPos dMove).x = cameraPos.x ∧
    (walkHorizontal w cameraPos dMove).z = cameraPos.z + dMove.z ∧
    (∀ (inversesqrt : ℚ → ℚ) (keys : Keys) (dt : ℚ) (st : State),
      st.cameraPos = cameraPos →
      deltaMove inversesqrt false keys st.cameraFront dt = dMove →
      (processInput inversesqrt false w keys dt st).cameraPos.x = cameraPos.x ∧
      (processInput inversesqrt false w keys dt st).cameraPos.z = cameraPos.z + dMove.z) := by
  have hx : (walkHorizontal w cameraPos dMove).x = cameraPos.x := by
    rw [walkHorizontal_x, if_pos hX]
  have hz : (walkHorizontal w cameraPos dMove).z = cameraPos.z + dMove.z := by
    rw [walkHorizontal_z, hx, hZ]
    simp
  refine ⟨hx, hz, ?_⟩
  intro inversesqrt keys dt st hp hd
  rw [processInput_walk_x, processInput_walk_z, hp, hd]
  exact ⟨hx, hz⟩

theorem sampleTreeWorldX_check (q : Vec3) :
    checkCollision sampleTreeWorldX q = true ↔
      (q.x - 1) ^ 2 + (q.z - 0) ^ 2 < (PLAYER_RADIUS + TREE_TRUNK_RADIUS) ^ 2 := by
  simp [sampleTreeWorldX, checkCollision, treeHit, length2, sq]

theorem sampleTreeWorld_check (q : Vec3) :
    checkCollision sampleTreeWorld q = true ↔
      (q.x - 1) ^ 2 + (q.z - 1) ^ 2 < (PLAYER_RADIUS + TREE_TRUNK_RADIUS) ^ 2 := by
  simp [sampleTreeWorld, checkCollision, treeHit, length2, sq]

/-- Witness of C11: a tree at `(1, 0)`, the player at the origin, displacement
`(1/2, 1)`: the X attempt ends inside the trunk circle, the Z attempt is free. -/
theorem C11_slide_blocked_x_witness :
    (checkCollision sampleTreeWorldX (Vec3.mk (0 + 1 / 2) 0 0) = true ∧
      checkCollision sampleTreeWorldX (Vec3.mk 0 0 (0 + 1)) = false) ∧
    (walkHorizontal sampleTreeWorldX (Vec3.mk 0 0 0) (Vec3.mk (1 / 2) 0 1)).x = 0 ∧
    (walkHorizontal sampleTreeWorldX (Vec3.mk 0 0 0) (Vec3.mk (1 / 2) 0 1)).z = 0 + 1 := by
  have h1 : checkCollision sampleTreeWorldX (Vec3.mk (0 + 1 / 2) 0 0) = true := by
    rw [sampleTreeWorldX_check]
    norm_num [PLAYER_RADIUS, TREE_TRUNK_RADIUS]
  have h2 : checkCollision sampleTreeWorldX (Vec3.mk 0 0 (0 + 1)) = false := by
    rw [← Bool.not_eq_true, sampleTreeWorldX_check]
    norm_num [PLAYER_RADIUS, TREE_TRUNK_RADIUS]
  exact ⟨⟨h1, h2⟩,
    (C11_slide_blocked_x sampleTreeWorldX (Vec3.mk 0 0 0) (Vec3.mk (1 / 2) 0 1) h1 h2).1,
    (C11_slide_blocked_x sampleTreeWorldX (Vec3.mk 0 0 0) (Vec3.mk (1 / 2) 0 1) h1 h2).2.1⟩

/-- The vertical fields of a walking step, written out. -/
theorem processInput_walk_vertical (inversesqrt : ℚ → ℚ) (w : World) (keys : Keys) (dt : ℚ)
    (st : State) :
    (processInput inversesqrt false w keys dt st).cameraPos.y
      = (if st.cameraPos.y
            + (if (keys.space && st.isOnGround) = true then JUMP_FORCE
                else st.cameraVelocityY - GRAVITY * dt) * dt - PLAYER_EYE_HEIGHT ≤ GROUND_LEVEL
          then GROUND_LEVEL + PLAYER_EYE_HEIGHT
          else st.cameraPos.y
            + (if (keys.space && st.isOnGround) = true then JUMP_FORCE
                else st.cameraVelocityY - GRAVITY * dt) * dt) ∧
    (processInput inversesqrt false w keys dt st).cameraVelocityY
      = (if st.cameraPos.y
            + (if (keys.space && st.isOnGround) = true then JUMP_FORCE
                else st.cameraVelocityY - GRAVITY * dt) * dt - PLAYER_EYE_HEIGHT ≤ GROUND_LEVEL
          then 0
          else (if (keys.space && st.isOnGround) = true then JUMP_FORCE
                else st.cameraVelocityY - GRAVITY * dt)) ∧
    (processInput inversesqrt false w keys dt st).isOnGround
      = decide (st.cameraPos.y
            + (if (keys.space && st.isOnGround) = true then JUMP_FORCE
                else st.cameraVelocityY - GRAVITY * dt) * dt - PLAYER_EYE_HEIGHT
          ≤ GROUND_LEVEL) := by
  simp only [processInput, walkVertical, walkHorizontal_y, Bool.false_eq_true, if_false]
  refine ⟨?_, ?_, ?_⟩ <;> split_ifs <;> simp_all

/-- C12: the vertical part of a walking step of `processInput` computes the
reference `verticalReference`: `v1 = JUMP_FORCE` if jump is pressed and the
player is grounded, else `v - GRAVITY*dt`; `yc = y + v1*dt`; if
`yc - PLAYER_EYE_HEIGHT ≤ GROUND_LEVEL` the new state is
`(GROUND_LEVEL + PLAYER_EYE_HEIGHT, 0, true)`, otherwise `(yc, v1, false)`. -/
theorem C12_vertical_matches_reference (inversesqrt : ℚ → ℚ) (w : World) (keys : Keys)
    (dt : ℚ) (st : State) :
    (∀ (p : Vec3) (v : ℚ) (g space : Bool),
      walkVertical space dt p v g
        = (Vec3.mk p.x (verticalReference p.y v g space dt).1 p.z,
            (verticalReference p.y v g space dt).2.1,
            (verticalReference p.y v g space dt).2.2)) ∧
    (processInput inversesqrt false w keys dt st).cameraPos.y
      = (verticalReference st.cameraPos.y st.cameraVelocityY st.isOnGround keys.space dt).1 ∧
    (processInput inversesqrt false w keys dt st).cameraVelocityY
      = (verticalReference st.cameraPos.y st.cameraVelocityY st.isOnGround keys.space dt).2.1 ∧
    (processInput inversesqrt false w keys dt st).isOnGround
      = (verticalReference st.cameraPos.y st.cameraVelocityY st.isOnGround keys.space dt).2.2 := by
  have h : ∀ (p : Vec3) (v : ℚ) (g space : Bool),
      walkVertical space dt p v g
        = (Vec3.mk p.x (verticalReference p.y v g space dt).1 p.z,
            (verticalReference p.y v g space dt).2.1,
            (verticalReference p.y v g space dt).2.2) := by
    intro p v g space
    unfold walkVertical verticalReference
    cases space <;> cases g <;> simp <;> split_ifs <;> rfl
  refine ⟨h, ?_, ?_, ?_⟩
  · simp [processInput, h, walkHorizontal_y]
  · simp [processInput, h, walkHorizontal_y]
  · simp [processInput, h, walkHorizontal_y]

/-- C13: in walking mode with `dt > 0`, a grounded player standing at ground
level with the jump input active ends the step airborne, with vertical velocity
exactly `JUMP_FORCE` and camera Y `GROUND_LEVEL + PLAYER_EYE_HEIGHT +
JUMP_FORCE*dt`; for a player that is not grounded the step gives the same state
whether the jump input is active or not. -/
theorem C13_jump (inversesqrt : ℚ → ℚ) (w : World) (keys : Keys) (dt : ℚ) (st : State)
    (hdt : 0 < dt) :
    (keys.space = true → st.isOnGround = true →
      st.cameraPos.y = GROUND_LEVEL + PLAYER_EYE_HEIGHT →
      (processInput inversesqrt false w keys dt st).isOnGround = false ∧
      (processInput inversesqrt false w keys dt st).cameraVelocityY = JUMP_FORCE ∧
      (processInput inversesqrt false w keys dt st).cameraPos.y
        = GROUND_LEVEL + PLAYER_EYE_HEIGHT + JUMP_FORCE * dt) ∧
    (st.isOnGround = false →
      processInput inversesqrt false w { keys with space := true } dt st
        = processInput inversesqrt false w { keys with space := false } dt st) := by
  constructor
  · intro hs hg hy
    have hair : ¬ (GROUND_LEVEL + PLAYER_EYE_HEIGHT + JUMP_FORCE * dt - PLAYER_EYE_HEIGHT
        ≤ GROUND_LEVEL) := by
      have : 0 < JUMP_FORCE * dt := mul_pos (by norm_num [JUMP_FORCE]) hdt
      intro h
      linarith
    obtain ⟨e1, e2, e3⟩ := processInput_walk_vertical inversesqrt w keys dt st
    rw [e1, e2, e3]
    simp only [hs, hg, hy, Bool.and_self, if_true, if_neg hair, decide_eq_false_iff_not]
    exact ⟨hair, trivial, trivial⟩
  · intro hg
    simp [processInput, deltaMove, walkVertical, hg]

/-- Witness of C13: the initial state (grounded, standing at ground level) in
an empty world, jump pressed for a frame of 1/60 s. -/
theorem C13_jump_witness :
    (0 : ℚ) < 1 / 60 ∧
    (processInput (fun _ => 1) false emptyWorld { noKeys with space := true } (1 / 60)
      initialState).isOnGround = false ∧
    (processInput (fun _ => 1) false emptyWorld { noKeys with space := true } (1 / 60)
      initialState).cameraVelocityY = JUMP_FORCE ∧
    (processInput (fun _ => 1) false emptyWorld { noKeys with space := true } (1 / 60)
      initialState).cameraPos.y = GROUND_LEVEL + PLAYER_EYE_HEIGHT + JUMP_FORCE * (1 / 60) :=
  ⟨by norm_num,
    (C13_jump (fun _ => 1) emptyWorld { noKeys with space := true } (1 / 60) initialState
      (by norm_num)).1 rfl rfl rfl⟩

/-! ## The invariant of the player state -/

theorem mouse_callback_physics (cos sin radians inversesqrt : ℚ → ℚ) (x y : ℚ) (st : State) :
    (mouse_callback cos sin radians inversesqrt x y st).cameraPos = st.cameraPos ∧
    (mouse_callback cos sin radians inversesqrt x y st).cameraVelocityY = st.cameraVelocityY ∧
    (mouse_callback cos sin radians inversesqrt x y st).isOnGround = st.isOnGround :=
  ⟨rfl, rfl, rfl⟩

theorem processInput_fly_fields (inversesqrt : ℚ → ℚ) (w : World) (keys : Keys) (dt : ℚ)
    (st : State) :
    (processInput inversesqrt true w keys dt st).cameraVelocityY = 0 ∧
    (processInput inversesqrt true w keys dt st).isOnGround = false := by
  simp [processInput]

/-- One event keeps: flying implies zero vertical velocity, and grounded implies
zero vertical velocity with the feet at ground level. -/
theorem applyEvent_keeps (cos sin radians inversesqrt : ℚ → ℚ) (fly : Bool) (w : World)
    (st : State) (e : Event)
    (h1 : fly = true → st.cameraVelocityY = 0)
    (h2 : st.isOnGround = true →
      st.cameraVelocityY = 0 ∧ st.cameraPos.y = GROUND_LEVEL + PLAYER_EYE_HEIGHT) :
    (fly = true →
      (applyEvent cos sin radians inversesqrt fly w st e).cameraVelocityY = 0) ∧
    ((applyEvent cos sin radians inversesqrt fly w st e).isOnGround = true →
      (applyEvent cos sin radians inversesqrt fly w st e).cameraVelocityY = 0 ∧
      (applyEvent cos sin radians inversesqrt fly w st e).cameraPos.y
        = GROUND_LEVEL + PLAYER_EYE_HEIGHT) := by
  cases e with
  | mouse x y => exact ⟨h1, h2⟩
  | frame keys dt =>
    cases fly with
    | true =>
      have hf := processInput_fly_fields inversesqrt w keys dt st
      refine ⟨fun _ => hf.1, fun hg => ?_⟩
      rw [show applyEvent cos sin radians inversesqrt true w st (Event.frame keys dt)
        = processInput inversesqrt true w keys dt st from rfl, hf.2] at hg
      exact absurd hg (by decide)
    | false =>
      refine ⟨fun h => absurd h (by decide), ?_⟩
      show (processInput inversesqrt false w keys dt st).isOnGround = true →
        (processInput inversesqrt false w keys dt st).cameraVelocityY = 0 ∧
        (processInput inversesqrt false w keys dt st).cameraPos.y
          = GROUND_LEVEL + PLAYER_EYE_HEIGHT
      obtain ⟨e1, e2, e3⟩ := processInput_walk_vertical inversesqrt w keys dt st
      rw [e1, e2, e3]
      intro hg
      have hle := of_decide_eq_true hg
      rw [if_pos hle, if_pos hle]
      exact ⟨rfl, rfl⟩

theorem run_keeps (cos sin radians inversesqrt : ℚ → ℚ) (fly : Bool) (w : World) :
    ∀ (events : List Event) (st : State),
      (fly = true → st.cameraVelocityY = 0) →
      (st.isOnGround = true →
        st.cameraVelocityY = 0 ∧ st.cameraPos.y = GROUND_LEVEL + PLAYER_EYE_HEIGHT) →
      (fly = true → (run cos sin radians inversesqrt fly w st events).cameraVelocityY = 0) ∧
      ((run cos sin radians inversesqrt fly w st events).isOnGround = true →
        (run cos sin radians inversesqrt fly w st events).cameraVelocityY = 0 ∧
        (run cos sin radians inversesqrt fly w st events).cameraPos.y
          = GROUND_LEVEL + PLAYER_EYE_HEIGHT) := by
  intro events
  induction events with
  | nil => intro st h1 h2; exact ⟨h1, h2⟩
  | cons e es ih =>
    intro st h1 h2
    have hk := applyEvent_keeps cos sin radians inversesqrt fly w st e h1 h2
    exact ih _ hk.1 hk.2

theorem run_fly_airborne (cos sin radians inversesqrt : ℚ → ℚ) (w : World) :
    ∀ (events : List Event) (st : State),
      (st.isOnGround = false ∨ ∃ keys dt, Event.frame keys dt ∈ events) →
      (run cos sin radians inversesqrt true w st events).isOnGround = false := by
  intro events
  induction events with
  | nil =>
    intro st h
    rcases h with h | ⟨_, _, h⟩
    · exact h
    · simp at h
  | cons e es ih =>
    intro st h
    show (run cos sin radians inversesqrt true w
      (applyEvent cos sin radians inversesqrt true w st e) es).isOnGround = false
    cases e with
    | mouse x y =>
      apply ih
      rcases h with h | ⟨keys, dt, h⟩
      · exact Or.inl h
      · right
        rcases List.mem_cons.mp h with h | h
        · cases h
        · exact ⟨keys, dt, h⟩
    | frame keys dt =>
      apply ih
      exact Or.inl (processInput_fly_fields inversesqrt w keys dt st).2

/-- C14, as the code has it: in every state reached from the initial state by
any sequence of `processInput` frames and cursor samples, flying implies that
the vertical velocity is 0, and that grounded is false as soon as one
`processInput` frame has run; grounded implies that the vertical velocity is 0
and that the camera is at `GROUND_LEVEL + PLAYER_EYE_HEIGHT`. -/
theorem C14_state_invariant (cos sin radians inversesqrt : ℚ → ℚ) (fly : Bool) (w : World)
    (events : List Event) :
    (fly = true →
      (run cos sin radians inversesqrt fly w initialState events).cameraVelocityY = 0) ∧
    (fly = true → (∃ keys dt, Event.frame keys dt ∈ events) →
      (run cos sin radians inversesqrt fly w initialState events).isOnGround = false) ∧
    ((run cos sin radians inversesqrt fly w initialState events).isOnGround = true →
      (run cos sin radians inversesqrt fly w initialState events).cameraVelocityY = 0 ∧
      (run cos sin radians inversesqrt fly w initialState events).cameraPos.y
        = GROUND_LEVEL + PLAYER_EYE_HEIGHT) := by
  have hk := run_keeps cos sin radians inversesqrt fly w events initialState
    (fun _ => rfl) (fun _ => ⟨rfl, rfl⟩)
  refine ⟨hk.1, ?_, hk.2⟩
  intro hf hex
  subst hf
  exact run_fly_airborne cos sin radians inversesqrt w events initialState (Or.inr hex)

/-- C14 fails as stated: in flying mode the initial state (no `processInput`
frame yet) has `isOnGround = true`. -/
theorem C14_counterexample :
    ¬ ((run (fun _ => 1) (fun _ => 0) (fun r => r) (fun _ => 1) true emptyWorld initialState
          []).cameraVelocityY = 0 ∧
       (run (fun _ => 1) (fun _ => 0) (fun r => r) (fun _ => 1) true emptyWorld initialState
          []).isOnGround = false) := by
  rintro ⟨-, h⟩
  exact absurd h (by decide)

/-! ## Falling to the ground -/

theorem frames_succ_outer (inversesqrt : ℚ → ℚ) (fly : Bool) (w : World) (keys : Keys)
    (dt : ℚ) :
    ∀ (n : Nat) (st : State),
      frames inversesqrt fly w keys dt (n + 1) st
        = processInput inversesqrt fly w keys dt (frames inversesqrt fly w keys dt n st) := by
  intro n
  induction n with
  | zero => intro st; rfl
  | succ n ih =>
    intro st
    show frames inversesqrt fly w keys dt (n + 1) (processInput inversesqrt fly w keys dt st) = _
    rw [ih]
    rfl

/-- The vertical fields after a walking frame without any key pressed. -/
theorem processInput_idle_vertical (inversesqrt : ℚ → ℚ) (w : World) (dt : ℚ) (st : State) :
    (processInput inversesqrt false w noKeys dt st).cameraPos.y
      = (if st.cameraPos.y + (st.cameraVelocityY - GRAVITY * dt) * dt - PLAYER_EYE_HEIGHT
            ≤ GROUND_LEVEL
          then GROUND_LEVEL + PLAYER_EYE_HEIGHT
          else st.cameraPos.y + (st.cameraVelocityY - GRAVITY * dt) * dt) ∧
    (processInput inversesqrt false w noKeys dt st).cameraVelocityY
      = (if st.cameraPos.y + (st.cameraVelocityY - GRAVITY * dt) * dt - PLAYER_EYE_HEIGHT
            ≤ GROUND_LEVEL
          then 0 else st.cameraVelocityY - GRAVITY * dt) ∧
    (processInput inversesqrt false w noKeys dt st).isOnGround
      = decide (st.cameraPos.y + (st.cameraVelocityY - GRAVITY * dt) * dt - PLAYER_EYE_HEIGHT
          ≤ GROUND_LEVEL) := by
  have h := processInput_walk_vertical inversesqrt w noKeys dt st
  simpa [noKeys] using h

/-- A player resting on the ground stays there over an idle walking frame. -/
theorem idle_grounded_stable (inversesqrt : ℚ → ℚ) (w : World) (dt : ℚ) (st : State)
    (hdt : 0 ≤ dt)
    (h : st.cameraPos.y = GROUND_LEVEL + PLAYER_EYE_HEIGHT ∧ st.cameraVelocityY = 0 ∧
      st.isOnGround = true) :
    (processInput inversesqrt false w noKeys dt st).cameraPos.y
        = GROUND_LEVEL + PLAYER_EYE_HEIGHT ∧
      (processInput inversesqrt false w noKeys dt st).cameraVelocityY = 0 ∧
      (processInput inversesqrt false w noKeys dt st).isOnGround = true := by
  obtain ⟨hy, hv, _⟩ := h
  obtain ⟨e1, e2, e3⟩ := processInput_idle_vertical inversesqrt w dt st
  have hle : st.cameraPos.y + (st.cameraVelocityY - GRAVITY * dt) * dt - PLAYER_EYE_HEIGHT
      ≤ GROUND_LEVEL := by
    rw [hy, hv]
    have : 0 ≤ GRAVITY * dt * dt := mul_nonneg (mul_nonneg (by norm_num [GRAVITY]) hdt) hdt
    linarith
  rw [e1, e2, e3, if_pos hle, if_pos hle]
  exact ⟨rfl, rfl, decide_eq_true hle⟩

theorem idle_grounded_forever (inversesqrt : ℚ → ℚ) (w : World) (dt : ℚ) (hdt : 0 ≤ dt) :
    ∀ (n : Nat) (st : State),
      (st.cameraPos.y = GROUND_LEVEL + PLAYER_EYE_HEIGHT ∧ st.cameraVelocityY = 0 ∧
        st.isOnGround = true) →
      ((frames inversesqrt false w noKeys dt n st).cameraPos.y
          = GROUND_LEVEL + PLAYER_EYE_HEIGHT ∧
        (frames inversesqrt false w noKeys dt n st).cameraVelocityY = 0 ∧
        (frames inversesqrt false w noKeys dt n st).isOnGround = true) := by
  intro n
  induction n with
  | zero => intro st h; exact h
  | succ n ih =>
    intro st h
    exact ih _ (idle_grounded_stable inversesqrt w dt st hdt h)

theorem frames_add (inversesqrt : ℚ → ℚ) (fly : Bool) (w : World) (keys : Keys) (dt : ℚ) :
    ∀ (m n : Nat) (st : State),
      frames inversesqrt fly w keys dt (m + n) st
        = frames inversesqrt fly w keys dt n (frames inversesqrt fly w keys dt m st) := by
  intro m
  induction m with
  | zero => intro n st; rw [Nat.zero_add]; rfl
  | succ m ih =>
    intro n st
    rw [show m + 1 + n = (m + n) + 1 by omega]
    show frames inversesqrt fly w keys dt (m + n) (processInput inversesqrt fly w keys dt st) = _
    rw [ih]
    rfl

/-- Until it lands, an idle walking player is in free fall: after `k` frames the
height and the velocity are given by the closed forms. -/
theorem idle_fall_or_landed (inversesqrt : ℚ → ℚ) (w : World) (dt : ℚ) (st : State) :
    ∀ k : Nat,
      (∃ m : Nat, m ≤ k ∧
        (frames inversesqrt false w noKeys dt m st).cameraPos.y
            = GROUND_LEVEL + PLAYER_EYE_HEIGHT ∧
        (frames inversesqrt false w noKeys dt m st).cameraVelocityY = 0 ∧
        (frames inversesqrt false w noKeys dt m st).isOnGround = true) ∨
      ((frames inversesqrt false w noKeys dt k st).cameraPos.y
          = st.cameraPos.y + (k : ℚ) * st.cameraVelocityY * dt
            - GRAVITY * dt * dt * ((k : ℚ) * ((k : ℚ) + 1) / 2) ∧
        (frames inversesqrt false w noKeys dt k st).cameraVelocityY
          = st.cameraVelocityY - (k : ℚ) * GRAVITY * dt ∧
        (1 ≤ k → GROUND_LEVEL
          < st.cameraPos.y + (k : ℚ) * st.cameraVelocityY * dt
            - GRAVITY * dt * dt * ((k : ℚ) * ((k : ℚ) + 1) / 2) - PLAYER_EYE_HEIGHT)) := by
  intro k
  induction k with
  | zero =>
    right
    refine ⟨?_, ?_, ?_⟩
    · show st.cameraPos.y = _
      simp
    · show st.cameraVelocityY = _
      simp
    · intro h; omega
  | succ k ih =>
    rcases ih with ⟨m, hm, hG⟩ | ⟨hy, hv, _⟩
    · exact Or.inl ⟨m, Nat.le_succ_of_le hm, hG⟩
    · rw [frames_succ_outer]
      obtain ⟨e1, e2, e3⟩ := processInput_idle_vertical inversesqrt w dt
        (frames inversesqrt false w noKeys dt k st)
      have hY : (frames inversesqrt false w noKeys dt k st).cameraPos.y
          + ((frames inversesqrt false w noKeys dt k st).cameraVelocityY - GRAVITY * dt) * dt
          = st.cameraPos.y + ((k + 1 : Nat) : ℚ) * st.cameraVelocityY * dt
            - GRAVITY * dt * dt * (((k + 1 : Nat) : ℚ) * (((k + 1 : Nat) : ℚ) + 1) / 2) := by
        rw [hy, hv]
        push_cast
        ring
      have hV : (frames inversesqrt false w noKeys dt k st).cameraVelocityY - GRAVITY * dt
          = st.cameraVelocityY - ((k + 1 : Nat) : ℚ) * GRAVITY * dt := by
        rw [hv]
        push_cast
        ring
      by_cases hle : (frames inversesqrt false w noKeys dt k st).cameraPos.y
          + ((frames inversesqrt false w noKeys dt k st).cameraVelocityY - GRAVITY * dt) * dt
          - PLAYER_EYE_HEIGHT ≤ GROUND_LEVEL
      · left
        refine ⟨k + 1, le_refl _, ?_⟩
        rw [frames_succ_outer, e1, e2, e3, if_pos hle, if_pos hle]
        exact ⟨rfl, rfl, decide_eq_true hle⟩
      · right
        rw [e1, e2, if_neg hle, if_neg hle]
        refine ⟨hY, hV, fun _ => ?_⟩
        rw [← hY]
        exact not_le.mp hle

/-- Some frame count at which the free-fall height is at or below the ground. -/
theorem idle_fall_reaches_ground (y0 v0 dt : ℚ) (hdt : 0 < dt) :
    ∃ N : Nat, 1 ≤ N ∧
      y0 + (N : ℚ) * v0 * dt - GRAVITY * dt * dt * ((N : ℚ) * ((N : ℚ) + 1) / 2)
        - PLAYER_EYE_HEIGHT ≤ GROUND_LEVEL := by
  have hG : (0 : ℚ) < GRAVITY := by norm_num [GRAVITY]
  have ha : (0 : ℚ) < GRAVITY * dt * dt / 2 := by positivity
  obtain ⟨N, hN⟩ := exists_nat_ge
    ((|v0 * dt| + |y0 - PLAYER_EYE_HEIGHT - GROUND_LEVEL| + 1) / (GRAVITY * dt * dt / 2) + 1)
  have hq : (0 : ℚ) ≤ (|v0 * dt| + |y0 - PLAYER_EYE_HEIGHT - GROUND_LEVEL| + 1)
      / (GRAVITY * dt * dt / 2) := by positivity
  have hN1 : (1 : ℚ) ≤ (N : ℚ) := by linarith
  have hNa : |v0 * dt| + |y0 - PLAYER_EYE_HEIGHT - GROUND_LEVEL| + 1
      ≤ (GRAVITY * dt * dt / 2) * (N : ℚ) := by
    have : (|v0 * dt| + |y0 - PLAYER_EYE_HEIGHT - GROUND_LEVEL| + 1) / (GRAVITY * dt * dt / 2)
        ≤ (N : ℚ) := by linarith
    rw [div_le_iff₀ ha] at this
    linarith
  refine ⟨N, by exact_mod_cast hN1, ?_⟩
  have h1 : (N : ℚ) * (|v0 * dt| + |y0 - PLAYER_EYE_HEIGHT - GROUND_LEVEL| + 1)
      ≤ (N : ℚ) * ((GRAVITY * dt * dt / 2) * (N : ℚ)) :=
    mul_le_mul_of_nonneg_left hNa (by linarith)
  have h2 : |y0 - PLAYER_EYE_HEIGHT - GROUND_LEVEL|
      ≤ (N : ℚ) * |y0 - PLAYER_EYE_HEIGHT - GROUND_LEVEL| :=
    le_mul_of_one_le_left (abs_nonneg _) hN1
  have h3 : (N : ℚ) * (v0 * dt) ≤ (N : ℚ) * |v0 * dt| :=
    mul_le_mul_of_nonneg_left (le_abs_self _) (by linarith)
  have h4 : y0 - PLAYER_EYE_HEIGHT - GROUND_LEVEL ≤ |y0 - PLAYER_EYE_HEIGHT - GROUND_LEVEL| :=
    le_abs_self _
  have h5 : (0 : ℚ) ≤ (GRAVITY * dt * dt / 2) * (N : ℚ) := by positivity
  nlinarith

/-! ## Flying -/

/-- C16: in flying mode the step does not read the collision world: two worlds
give the same new state, and the new position is the old one plus `deltaMove`
(`moveDir*speed*dt`) plus the up/down key term, whatever `checkCollision` would
answer there. -/
theorem C16_fly_ignores_world (inversesqrt : ℚ → ℚ) (w1 w2 : World) (keys : Keys) (dt : ℚ)
    (st : State) :
    processInput inversesqrt true w1 keys dt st = processInput inversesqrt true w2 keys dt st ∧
    (processInput inversesqrt true w1 keys dt st).cameraPos
      = Vec3.mk
          (st.cameraPos.x + (deltaMove inversesqrt true keys st.cameraFront dt).x)
          (st.cameraPos.y + (deltaMove inversesqrt true keys st.cameraFront dt).y
            + (if keys.space = true then FLY_VERTICAL_SPEED * dt else 0)
            - (if keys.leftControl = true ∨ keys.rightControl = true
                then FLY_VERTICAL_SPEED * dt else 0))
          (st.cameraPos.z + (deltaMove inversesqrt true keys st.cameraFront dt).z) := by
  refine ⟨rfl, ?_⟩
  simp only [processInput, flyMove, Vec3.add, if_true, Bool.or_eq_true]
  split_ifs <;> simp

/-- A flying step that ends inside the inflated footprint of a tower: from the
initial position `(0, 5/4, 3)`, looking along -Z, sprinting forward for 1/10 s
moves the camera to `z = 21/10`, where `checkCollision` answers `true`. -/
theorem C16_fly_ignores_world_witness :
    checkCollision sampleTowerWorld (Vec3.mk 0 (GROUND_LEVEL + PLAYER_EYE_HEIGHT) (21 / 10))
      = true ∧
    (processInput (fun _ => 1) true sampleTowerWorld sprintForward (1 / 10)
      initialState).cameraPos = Vec3.mk 0 (GROUND_LEVEL + PLAYER_EYE_HEIGHT) (21 / 10) := by
  refine ⟨?_, ?_⟩
  · rw [sampleTowerWorld, towerWorld_check]
    norm_num [clamp, TOWER_WIDTH, TOWER_DEPTH, PLAYER_RADIUS]
  · rw [(C16_fly_ignores_world (fun _ => 1) sampleTowerWorld emptyWorld sprintForward (1 / 10)
      initialState).2]
    norm_num [deltaMove, sprintForward, noKeys, initialState, normalize, cross, dot,
      Vec3.add, Vec3.sub, Vec3.scale, Vec3.length2, PLAYER_BASE_SPEED, SPRINT_MULTIPLIER]

/-! ## Mouse look -/

/-- The pitch `mouse_callback` leaves, written out: the scaled offset is added,
then the two clamping tests run in source order. -/
theorem mouse_callback_pitch (cos sin radians inversesqrt : ℚ → ℚ) (x y : ℚ) (st : State) :
    (mouse_callback cos sin radians inversesqrt x y st).pitch
      = (if (if st.pitch + ((if st.firstMouse = true then y else st.lastY) - y) * (1 / 10) > 89
              then 89
              else st.pitch + ((if st.firstMouse = true then y else st.lastY) - y) * (1 / 10))
            < -89
          then -89
          else (if st.pitch + ((if st.firstMouse = true then y else st.lastY) - y) * (1 / 10) > 89
              then 89
              else st.pitch + ((if st.firstMouse = true then y else st.lastY) - y) * (1 / 10))) :=
  rfl

theorem mouse_callback_pitch_range (cos sin radians inversesqrt : ℚ → ℚ) (x y : ℚ)
    (st : State) :
    -89 ≤ (mouse_callback cos sin radians inversesqrt x y st).pitch ∧
      (mouse_callback cos sin radians inversesqrt x y st).pitch ≤ 89 := by
  rw [mouse_callback_pitch]
  split_ifs <;> constructor <;> linarith

theorem processInput_pitch (inversesqrt : ℚ → ℚ) (fly : Bool) (w : World) (keys : Keys)
    (dt : ℚ) (st : State) :
    (processInput inversesqrt fly w keys dt st).pitch = st.pitch := by
  cases fly <;> rfl

theorem run_pitch_range (cos sin radians inversesqrt : ℚ → ℚ) (fly : Bool) (w : World) :
    ∀ (events : List Event) (st : State),
      ((-89 ≤ st.pitch ∧ st.pitch ≤ 89) ∨ ∃ x y, Event.mouse x y ∈ events) →
      -89 ≤ (run cos sin radians inversesqrt fly w st events).pitch ∧
        (run cos sin radians inversesqrt fly w st events).pitch ≤ 89 := by
  intro events
  induction events with
  | nil =>
    intro st h
    rcases h with h | ⟨_, _, h⟩
    · exact h
    · simp at h
  | cons e es ih =>
    intro st h
    show -89 ≤ (run cos sin radians inversesqrt fly w
        (applyEvent cos sin radians inversesqrt fly w st e) es).pitch ∧
      (run cos sin radians inversesqrt fly w
        (applyEvent cos sin radians inversesqrt fly w st e) es).pitch ≤ 89
    cases e with
    | mouse x y =>
      exact ih _ (Or.inl (mouse_callback_pitch_range cos sin radians inversesqrt x y st))
    | frame keys dt =>
      apply ih
      rcases h with h | ⟨x, y, h⟩
      · left
        show -89 ≤ (processInput inversesqrt fly w keys dt st).pitch ∧
          (processInput inversesqrt fly w keys dt st).pitch ≤ 89
        rw [processInput_pitch]
        exact h
      · right
        rcases List.mem_cons.mp h with h | h
        · cases h
        · exact ⟨x, y, h⟩

/-- C17: whatever the prior orientation state (pitch inside `[-89, 89]` or
not) and whatever the cursor sample, after `mouse_callback` the pitch lies in
`[-89, 89]`; a sample whose scaled offset would take the pitch above 89 leaves
it at exactly 89, and below -89 at exactly -89; after any sequence of events
that contains a cursor sample, or that starts from a pitch in range, the pitch
lies in `[-89, 89]`. -/
theorem C17_pitch_clamped (cos sin radians inversesqrt : ℚ → ℚ) (fly : Bool) (w : World)
    (x y : ℚ) (st : State) (events : List Event) :
    (-89 ≤ (mouse_callback cos sin radians inversesqrt x y st).pitch ∧
      (mouse_callback cos sin radians inversesqrt x y st).pitch ≤ 89) ∧
    (89 < st.pitch + ((if st.firstMouse = true then y else st.lastY) - y) * (1 / 10) →
      (mouse_callback cos sin radians inversesqrt x y st).pitch = 89) ∧
    (st.pitch + ((if st.firstMouse = true then y else st.lastY) - y) * (1 / 10) < -89 →
      (mouse_callback cos sin radians inversesqrt x y st).pitch = -89) ∧
    ((∃ x y, Event.mouse x y ∈ events) →
      -89 ≤ (run cos sin radians inversesqrt fly w st events).pitch ∧
        (run cos sin radians inversesqrt fly w st events).pitch ≤ 89) ∧
    (-89 ≤ st.pitch ∧ st.pitch ≤ 89 →
      -89 ≤ (run cos sin radians inversesqrt fly w st events).pitch ∧
        (run cos sin radians inversesqrt fly w st events).pitch ≤ 89) := by
  refine ⟨mouse_callback_pitch_range cos sin radians inversesqrt x y st, ?_, ?_,
    fun h => run_pitch_range cos sin radians inversesqrt fly w events st (Or.inr h),
    fun h => run_pitch_range cos sin radians inversesqrt fly w events st (Or.inl h)⟩
  · intro h
    rw [mouse_callback_pitch, if_pos h, if_neg (by norm_num)]
  · intro h
    have hn : ¬ (st.pitch + ((if st.firstMouse = true then y else st.lastY) - y) * (1 / 10)
        > 89) := by
      intro h2
      linarith
    rw [mouse_callback_pitch]
    simp only [if_neg hn, if_pos h]

/-- C18: when `firstMouse` is set, `mouse_callback` applies no delta: yaw is
unchanged, pitch is unchanged when it was within `[-89, 89]`, `lastX`/`lastY`
become the sample and `firstMouse` is cleared; when `firstMouse` is clear, yaw
grows by `0.1*(xpos-lastX)`, pitch by `0.1*(lastY-ypos)` before clamping,
`lastX`/`lastY` become the sample and `firstMouse` stays clear. -/
theorem C18_first_sample_is_baseline (cos sin radians inversesqrt : ℚ → ℚ) (x y : ℚ)
    (st : State) :
    (st.firstMouse = true →
      (mouse_callback cos sin radians inversesqrt x y st).yaw = st.yaw ∧
      (-89 ≤ st.pitch → st.pitch ≤ 89 →
        (mouse_callback cos sin radians inversesqrt x y st).pitch = st.pitch) ∧
      (mouse_callback cos sin radians inversesqrt x y st).lastX = x ∧
      (mouse_callback cos sin radians inversesqrt x y st).lastY = y ∧
      (mouse_callback cos sin radians inversesqrt x y st).firstMouse = false) ∧
    (st.firstMouse = false →
      (mouse_callback cos sin radians inversesqrt x y st).yaw
        = st.yaw + (1 / 10) * (x - st.lastX) ∧
      (mouse_callback cos sin radians inversesqrt x y st).pitch
        = (if 89 < st.pitch + (1 / 10) * (st.lastY - y) then 89
          else if st.pitch + (1 / 10) * (st.lastY - y) < -89 then -89
          else st.pitch + (1 / 10) * (st.lastY - y)) ∧
      (mouse_callback cos sin radians inversesqrt x y st).lastX = x ∧
      (mouse_callback cos sin radians inversesqrt x y st).lastY = y ∧
      (mouse_callback cos sin radians inversesqrt x y st).firstMouse = false) := by
  constructor
  · intro hf
    refine ⟨?_, ?_, rfl, rfl, ?_⟩
    · simp [mouse_callback, hf]
    · intro h1 h2
      rw [mouse_callback_pitch]
      simp only [hf, if_true, sub_self, zero_mul, add_zero]
      rw [if_neg (not_lt.mpr h2), if_neg (not_lt.mpr h1)]
    · simp [mouse_callback, hf]
  · intro hf
    refine ⟨?_, ?_, rfl, rfl, ?_⟩
    · simp [mouse_callback, hf]
      ring
    · rw [mouse_callback_pitch]
      simp only [hf, Bool.false_eq_true, if_false]
      have e : st.pitch + (st.lastY - y) * (1 / 10) = st.pitch + (1 / 10) * (st.lastY - y) := by
        ring
      rw [e]
      split_ifs <;> first | rfl | linarith
    · simp [mouse_callback, hf]

/-! ## The shape of the blocked set around a box -/

/-- Distance from `x` to the interval `[c - h, c + h]`, squared. -/
theorem clamp_dist_sq (x c h : ℚ) (hh : 0 ≤ h) :
    (x - clamp x (c - h) (c + h)) ^ 2 = (max (|x - c| - h) 0) ^ 2 := by
  unfold clamp
  rcases lt_or_le x (c - h) with h1 | h1
  · rw [max_eq_right (le_of_lt h1), min_eq_left (by linarith)]
    have habs : |x - c| = c - x := by rw [abs_of_neg (by linarith)]; ring
    rw [habs, max_eq_left (by linarith)]
    ring
  · rw [max_eq_left h1]
    rcases le_or_lt x (c + h) with h2 | h2
    · rw [min_eq_left h2]
      have habs : |x - c| ≤ h := abs_le.mpr ⟨by linarith, by linarith⟩
      rw [max_eq_right (by linarith)]
      ring
    · rw [min_eq_right (le_of_lt h2)]
      have habs : |x - c| = x - c := abs_of_pos (by linarith)
      rw [habs, max_eq_left (by linarith)]
      ring

/-- The closest-point test against the box `[cx ± h1] × [cz ± h2]` with radius
`r`: the blocked set lies in the inflated box, equals it away from the corners,
and is a quarter disc at each corner. -/
theorem rounded_box (x z cx cz h1 h2 r : ℚ) (hh1 : 0 ≤ h1) (hh2 : 0 ≤ h2) (hr : 0 < r) :
    ((x - clamp x (cx - h1) (cx + h1)) ^ 2 + (z - clamp z (cz - h2) (cz + h2)) ^ 2 < r ^ 2 →
        |x - cx| < h1 + r ∧ |z - cz| < h2 + r) ∧
    ((|x - cx| ≤ h1 ∨ |z - cz| ≤ h2) →
      ((x - clamp x (cx - h1) (cx + h1)) ^ 2 + (z - clamp z (cz - h2) (cz + h2)) ^ 2 < r ^ 2 ↔
        |x - cx| < h1 + r ∧ |z - cz| < h2 + r)) ∧
    (h1 < |x - cx| → h2 < |z - cz| →
      ((x - clamp x (cx - h1) (cx + h1)) ^ 2 + (z - clamp z (cz - h2) (cz + h2)) ^ 2 < r ^ 2 ↔
        (|x - cx| - h1) ^ 2 + (|z - cz| - h2) ^ 2 < r ^ 2)) := by
  rw [clamp_dist_sq x cx h1 hh1, clamp_dist_sq z cz h2 hh2]
  have ha0 : 0 ≤ max (|x - cx| - h1) 0 := le_max_right _ _
  have hb0 : 0 ≤ max (|z - cz| - h2) 0 := le_max_right _ _
  have ha1 : |x - cx| - h1 ≤ max (|x - cx| - h1) 0 := le_max_left _ _
  have hb1 : |z - cz| - h2 ≤ max (|z - cz| - h2) 0 := le_max_left _ _
  have hfwd : (max (|x - cx| - h1) 0) ^ 2 + (max (|z - cz| - h2) 0) ^ 2 < r ^ 2 →
      |x - cx| < h1 + r ∧ |z - cz| < h2 + r := by
    intro h
    have hA : max (|x - cx| - h1) 0 < r := by
      by_contra hc
      push_neg at hc
      nlinarith
    have hB : max (|z - cz| - h2) 0 < r := by
      by_contra hc
      push_neg at hc
      nlinarith
    constructor <;> linarith
  refine ⟨hfwd, ?_, ?_⟩
  · intro hin
    refine ⟨hfwd, ?_⟩
    rintro ⟨hx, hz⟩
    have hA : max (|x - cx| - h1) 0 < r := max_lt (by linarith) hr
    have hB : max (|z - cz| - h2) 0 < r := max_lt (by linarith) hr
    rcases hin with hin | hin
    · rw [max_eq_right (by linarith : |x - cx| - h1 ≤ 0)]
      nlinarith
    · rw [max_eq_right (by linarith : |z - cz| - h2 ≤ 0)]
      nlinarith
  · intro hx hz
    rw [max_eq_left (by linarith : (0 : ℚ) ≤ |x - cx| - h1),
      max_eq_left (by linarith : (0 : ℚ) ≤ |z - cz| - h2)]

/-- C19, as the code has it: for a single house, respectively tower, centred at
`(hx, hz)` with footprint `W x D`, every blocked centre lies in the footprint
box inflated by `PLAYER_RADIUS`; the blocked set equals the inflated box
wherever `p.x` or `p.z` lies within the extent of the footprint on its axis; and
beyond a corner of the footprint the blocked set is the disc of radius
`PLAYER_RADIUS` around that corner (the inflated box has rounded corners). -/
theorem C19_inflated_box_rounded (hx hy hz : ℚ) (bushes : List Vec3) (p : Vec3) :
    ((checkCollision ⟨[], bushes, [Vec3.mk hx hy hz], [], []⟩ p = true →
        |p.x - hx| < HOUSE_BODY_WIDTH / 2 + PLAYER_RADIUS ∧ |p.z - hz| < HOUSE_BODY_DEPTH / 2 + PLAYER_RADIUS) ∧
      ((|p.x - hx| ≤ HOUSE_BODY_WIDTH / 2 ∨ |p.z - hz| ≤ HOUSE_BODY_DEPTH / 2) →
        (checkCollision ⟨[], bushes, [Vec3.mk hx hy hz], [], []⟩ p = true ↔
          |p.x - hx| < HOUSE_BODY_WIDTH / 2 + PLAYER_RADIUS ∧ |p.z - hz| < HOUSE_BODY_DEPTH / 2 + PLAYER_RADIUS)) ∧
      (HOUSE_BODY_WIDTH / 2 < |p.x - hx| → HOUSE_BODY_DEPTH / 2 < |p.z - hz| →
        (checkCollision ⟨[], bushes, [Vec3.mk hx hy hz], [], []⟩ p = true ↔
          (|p.x - hx| - HOUSE_BODY_WIDTH / 2) ^ 2 + (|p.z - hz| - HOUSE_BODY_DEPTH / 2) ^ 2 < PLAYER_RADIUS ^ 2))) ∧
    ((checkCollision ⟨[], bushes, [], [Vec3.mk hx hy hz], []⟩ p = true →
        |p.x - hx| < TOWER_WIDTH / 2 + PLAYER_RADIUS ∧ |p.z - hz| < TOWER_DEPTH / 2 + PLAYER_RADIUS) ∧
      ((|p.x - hx| ≤ TOWER_WIDTH / 2 ∨ |p.z - hz| ≤ TOWER_DEPTH / 2) →
        (checkCollision ⟨[], bushes, [], [Vec3.mk hx hy hz], []⟩ p = true ↔
          |p.x - hx| < TOWER_WIDTH / 2 + PLAYER_RADIUS ∧ |p.z - hz| < TOWER_DEPTH / 2 + PLAYER_RADIUS)) ∧
      (TOWER_WIDTH / 2 < |p.x - hx| → TOWER_DEPTH / 2 < |p.z - hz| →
        (checkCollision ⟨[], bushes, [], [Vec3.mk hx hy hz], []⟩ p = true ↔
          (|p.x - hx| - TOWER_WIDTH / 2) ^ 2 + (|p.z - hz| - TOWER_DEPTH / 2) ^ 2 < PLAYER_RADIUS ^ 2))) := by
  have hR : (0 : ℚ) < PLAYER_RADIUS := by norm_num [PLAYER_RADIUS]
  constructor
  · rw [houseWorld_check]
    exact rounded_box p.x p.z hx hz (HOUSE_BODY_WIDTH / 2) (HOUSE_BODY_DEPTH / 2) PLAYER_RADIUS
      (by norm_num [HOUSE_BODY_WIDTH]) (by norm_num [HOUSE_BODY_DEPTH]) hR
  · rw [towerWorld_check]
    exact rounded_box p.x p.z hx hz (TOWER_WIDTH / 2) (TOWER_DEPTH / 2) PLAYER_RADIUS
      (by norm_num [TOWER_WIDTH]) (by norm_num [TOWER_DEPTH]) hR

/-- C19 fails as stated: with a house at the origin, the candidate
`(9/4, 11/4)` lies inside the inflated box (`9/4 < 2 + 3/10`, `11/4 < 5/2 +
3/10`) but beyond the corner `(2, 5/2)` at squared distance `1/8`, above
`PLAYER_RADIUS^2 = 9/100`, and is not blocked. -/
theorem C19_counterexample :
    ¬ (checkCollision ⟨[], [], [Vec3.mk 0 0 0], [], []⟩ (Vec3.mk (9 / 4) 0 (11 / 4)) = true ↔
        |(9 / 4 : ℚ) - 0| < HOUSE_BODY_WIDTH / 2 + PLAYER_RADIUS ∧
        |(11 / 4 : ℚ) - 0| < HOUSE_BODY_DEPTH / 2 + PLAYER_RADIUS) := by
  intro h
  have hbox : |(9 / 4 : ℚ) - 0| < HOUSE_BODY_WIDTH / 2 + PLAYER_RADIUS ∧
      |(11 / 4 : ℚ) - 0| < HOUSE_BODY_DEPTH / 2 + PLAYER_RADIUS := by
    norm_num [HOUSE_BODY_WIDTH, HOUSE_BODY_DEPTH, PLAYER_RADIUS, abs_lt]
  have hblocked := h.mpr hbox
  rw [houseWorld_check] at hblocked
  norm_num [clamp, HOUSE_BODY_WIDTH, HOUSE_BODY_DEPTH, PLAYER_RADIUS] at hblocked

/-- C20: in walking mode the new X is `x+dx` if the probe at `(x+dx, y, z)` is
free, else `x`; the new Z is `z+dz` if the probe at `(newX, y, z+dz)` is free,
else `z`: the Z attempt is probed at the X the X attempt left (for the
horizontal part, and for the X and Z a whole walking step returns). So when the
X move is committed, a Z move that is free from the original X but blocked at
`x+dx` is rejected. -/
theorem C20_z_probe_uses_new_x (inversesqrt : ℚ → ℚ) (w : World) (keys : Keys) (dt : ℚ)
    (st : State) (cameraPos dMove : Vec3) :
    (walkHorizontal w cameraPos dMove).x
      = (if checkCollision w (Vec3.mk (cameraPos.x + dMove.x) cameraPos.y cameraPos.z) = true
          then cameraPos.x else cameraPos.x + dMove.x) ∧
    (walkHorizontal w cameraPos dMove).z
      = (if checkCollision w
            (Vec3.mk (walkHorizontal w cameraPos dMove).x cameraPos.y
              (cameraPos.z + dMove.z)) = true
          then cameraPos.z else cameraPos.z + dMove.z) ∧
    (processInput inversesqrt false w keys dt st).cameraPos.x
      = (if checkCollision w
            (Vec3.mk (st.cameraPos.x + (deltaMove inversesqrt false keys st.cameraFront dt).x)
              st.cameraPos.y st.cameraPos.z) = true
          then st.cameraPos.x
          else st.cameraPos.x + (deltaMove inversesqrt false keys st.cameraFront dt).x) ∧
    (processInput inversesqrt false w keys dt st).cameraPos.z
      = (if checkCollision w
            (Vec3.mk (processInput inversesqrt false w keys dt st).cameraPos.x st.cameraPos.y
              (st.cameraPos.z + (deltaMove inversesqrt false keys st.cameraFront dt).z)) = true
          then st.cameraPos.z
          else st.cameraPos.z + (deltaMove inversesqrt false keys st.cameraFront dt).z) ∧
    (checkCollision w (Vec3.mk (cameraPos.x + dMove.x) cameraPos.y cameraPos.z) = false →
      checkCollision w (Vec3.mk cameraPos.x cameraPos.y (cameraPos.z + dMove.z)) = false →
      checkCollision w (Vec3.mk (cameraPos.x + dMove.x) cameraPos.y (cameraPos.z + dMove.z))
        = true →
      (walkHorizontal w cameraPos dMove).x = cameraPos.x + dMove.x ∧
      (walkHorizontal w cameraPos dMove).z = cameraPos.z) := by
  refine ⟨walkHorizontal_x w cameraPos dMove, walkHorizontal_z w cameraPos dMove, ?_, ?_, ?_⟩
  · rw [processInput_walk_x, walkHorizontal_x]
  · rw [processInput_walk_z, processInput_walk_x, walkHorizontal_z]
  · intro h1 _ h3
    have hx : (walkHorizontal w cameraPos dMove).x = cameraPos.x + dMove.x := by
      rw [walkHorizontal_x, h1]
      simp
    refine ⟨hx, ?_⟩
    rw [walkHorizontal_z, hx, if_pos h3]

/-- Instance of C20: a tree at `(1, 1)`, the player at the origin, displacement
`(1, 1)`. The X move to `(1, 0)` is free and committed; the Z move would be free
from the original X (at `(0, 1)`) but is blocked at the new X (at `(1, 1)`, the
centre of the tree) and is rejected. -/
theorem C20_z_probe_uses_new_x_witness :
    (checkCollision sampleTreeWorld (Vec3.mk (0 + 1) 0 0) = false ∧
      checkCollision sampleTreeWorld (Vec3.mk 0 0 (0 + 1)) = false ∧
      checkCollision sampleTreeWorld (Vec3.mk (0 + 1) 0 (0 + 1)) = true) ∧
    (walkHorizontal sampleTreeWorld (Vec3.mk 0 0 0) (Vec3.mk 1 0 1)).x = 0 + 1 ∧
    (walkHorizontal sampleTreeWorld (Vec3.mk 0 0 0) (Vec3.mk 1 0 1)).z = 0 := by
  have h1 : checkCollision sampleTreeWorld (Vec3.mk (0 + 1) 0 0) = false := by
    rw [← Bool.not_eq_true, sampleTreeWorld_check]
    norm_num [PLAYER_RADIUS, TREE_TRUNK_RADIUS]
  have h2 : checkCollision sampleTreeWorld (Vec3.mk 0 0 (0 + 1)) = false := by
    rw [← Bool.not_eq_true, sampleTreeWorld_check]
    norm_num [PLAYER_RADIUS, TREE_TRUNK_RADIUS]
  have h3 : checkCollision sampleTreeWorld (Vec3.mk (0 + 1) 0 (0 + 1)) = true := by
    rw [sampleTreeWorld_check]
    norm_num [PLAYER_RADIUS, TREE_TRUNK_RADIUS]
  exact ⟨⟨h1, h2, h3⟩,
    (C20_z_probe_uses_new_x (fun _ => 1) sampleTreeWorld noKeys 0 initialState (Vec3.mk 0 0 0)
      (Vec3.mk 1 0 1)).2.2.2.2 h1 h2 h3⟩

/-! ## Balconies and the player on the ground -/

theorem generateBalcony_dimensions_y (towerX towerZ : ℚ) (towerBasePos : Vec3)
    (balconiesPerTower j : Int) (side : Nat) :
    (generateBalcony towerX towerZ towerBasePos balconiesPerTower j side).dimensions.y
      = BALCONY_FLOOR_HEIGHT := by
  unfold generateBalcony
  split_ifs <;> rfl

/-- Every generated balcony is balcony `j` of some tower `i`. -/
theorem mem_generated_balconies (RAND_MAX : Nat) (towers : List Vec3)
    (balconyData : List Balcony) (areaSize : ℚ) (towerCount n : Int) (rng : Rng) (b : Balcony)
    (hb : b ∈ (generateTowersAndBalconies RAND_MAX towers balconyData areaSize towerCount n
      rng).1.2) :
    ∃ i j : Nat, i < towerCount.toNat ∧ j < n.toNat ∧
      b = balconyAt RAND_MAX areaSize (areaSize / 2) n rng i j := by
  rw [generateTowersAndBalconies_eq] at hb
  obtain ⟨l, hl, hbl⟩ := List.mem_flatten.mp hb
  obtain ⟨i, hi, rfl⟩ := List.mem_map.mp hl
  obtain ⟨j, hj, rfl⟩ := List.mem_map.mp hbl
  exact ⟨i, j, List.mem_range.mp hi, List.mem_range.mp hj, rfl⟩

theorem checkCollision_eq_solid_or_balcony (w : World) (q : Vec3) :
    checkCollision w q = (solidHit w q || w.balconyData.any (balconyHit q)) := by
  unfold checkCollision solidHit
  split_ifs <;> simp_all

/-- C21: in a world whose towers and balconies come from
`generateTowersAndBalconies` with `BALCONIES_PER_TOWER = 3` balconies per tower
(any trees, bushes and houses), for a candidate at ground standing height every
balcony has its floor bottom at or above `GROUND_LEVEL + TOWER_HEIGHT/4 -
BALCONY_FLOOR_HEIGHT/2`, which is above the head of the player, so no balcony
test succeeds and `checkCollision` answers what the tree, house and tower tests
answer. -/
theorem C21_ground_player_clears_balconies (RAND_MAX : Nat) (towers : List Vec3)
    (balconyData : List Balcony) (areaSize : ℚ) (towerCount : Int) (rng : Rng)
    (trees bushes houses : List Vec3) (p : Vec3)
    (hy : p.y = GROUND_LEVEL + PLAYER_EYE_HEIGHT) :
    (∀ b ∈ (generateTowersAndBalconies RAND_MAX towers balconyData areaSize towerCount
          BALCONIES_PER_TOWER rng).1.2,
      GROUND_LEVEL + TOWER_HEIGHT / 4 - BALCONY_FLOOR_HEIGHT / 2
          ≤ b.position.y - b.dimensions.y / 2 ∧
        p.y < b.position.y - b.dimensions.y / 2 ∧
        balconyHit p b = false) ∧
    checkCollision ⟨trees, bushes, houses,
        (generateTowersAndBalconies RAND_MAX towers balconyData areaSize towerCount
          BALCONIES_PER_TOWER rng).1.1,
        (generateTowersAndBalconies RAND_MAX towers balconyData areaSize towerCount
          BALCONIES_PER_TOWER rng).1.2⟩ p
      = solidHit ⟨trees, bushes, houses,
        (generateTowersAndBalconies RAND_MAX towers balconyData areaSize towerCount
          BALCONIES_PER_TOWER rng).1.1,
        (generateTowersAndBalconies RAND_MAX towers balconyData areaSize towerCount
          BALCONIES_PER_TOWER rng).1.2⟩ p ∧
    (checkCollision ⟨trees, bushes, houses,
        (generateTowersAndBalconies RAND_MAX towers balconyData areaSize towerCount
          BALCONIES_PER_TOWER rng).1.1,
        (generateTowersAndBalconies RAND_MAX towers balconyData areaSize towerCount
          BALCONIES_PER_TOWER rng).1.2⟩ p = true →
      trees.any (treeHit p) = true ∨ houses.any (houseHit p) = true ∨
        (generateTowersAndBalconies RAND_MAX towers balconyData areaSize towerCount
          BALCONIES_PER_TOWER rng).1.1.any (towerHit p) = true) := by
  have hbal : ∀ b ∈ (generateTowersAndBalconies RAND_MAX towers balconyData areaSize towerCount
        BALCONIES_PER_TOWER rng).1.2,
      GROUND_LEVEL + TOWER_HEIGHT / 4 - BALCONY_FLOOR_HEIGHT / 2
          ≤ b.position.y - b.dimensions.y / 2 ∧
        p.y < b.position.y - b.dimensions.y / 2 ∧
        balconyHit p b = false := by
    intro b hb
    obtain ⟨i, j, _, _, rfl⟩ := mem_generated_balconies RAND_MAX towers balconyData areaSize
      towerCount BALCONIES_PER_TOWER rng b hb
    have hpy : (balconyAt RAND_MAX areaSize (areaSize / 2) BALCONIES_PER_TOWER rng i j).position.y
        = GROUND_LEVEL + TOWER_HEIGHT * (((j : ℚ) + 1) / 4) := by
      rw [balconyAt, generateBalcony_position_y]
      norm_num [BALCONIES_PER_TOWER, towerAt]
    have hdy : (balconyAt RAND_MAX areaSize (areaSize / 2) BALCONIES_PER_TOWER rng i j).dimensions.y
        = BALCONY_FLOOR_HEIGHT := by
      rw [balconyAt, generateBalcony_dimensions_y]
    have hj0 : (0 : ℚ) ≤ (j : ℚ) := Nat.cast_nonneg j
    have hlow : GROUND_LEVEL + TOWER_HEIGHT / 4 - BALCONY_FLOOR_HEIGHT / 2
        ≤ (balconyAt RAND_MAX areaSize (areaSize / 2) BALCONIES_PER_TOWER rng i j).position.y
          - (balconyAt RAND_MAX areaSize (areaSize / 2) BALCONIES_PER_TOWER rng i
            j).dimensions.y / 2 := by
      rw [hpy, hdy]
      have : (0 : ℚ) ≤ TOWER_HEIGHT := by norm_num [TOWER_HEIGHT]
      nlinarith
    have hhead : p.y < (balconyAt RAND_MAX areaSize (areaSize / 2) BALCONIES_PER_TOWER rng i
          j).position.y
        - (balconyAt RAND_MAX areaSize (areaSize / 2) BALCONIES_PER_TOWER rng i
            j).dimensions.y / 2 := by
      refine lt_of_lt_of_le ?_ hlow
      rw [hy]
      unfold PLAYER_EYE_HEIGHT TOWER_HEIGHT BALCONY_FLOOR_HEIGHT
      linarith
    refine ⟨hlow, hhead, ?_⟩
    unfold balconyHit
    dsimp only
    split_ifs
    · rw [decide_eq_false_iff_not]
      rintro ⟨h1, -⟩
      exact absurd h1 (not_lt.mpr (le_of_lt hhead))
    · rfl
  have hany : (generateTowersAndBalconies RAND_MAX towers balconyData areaSize towerCount
      BALCONIES_PER_TOWER rng).1.2.any (balconyHit p) = false := by
    rw [List.any_eq_false]
    intro b hb
    rw [(hbal b hb).2.2]
    decide
  have heq := checkCollision_eq_solid_or_balcony ⟨trees, bushes, houses,
      (generateTowersAndBalconies RAND_MAX towers balconyData areaSize towerCount
        BALCONIES_PER_TOWER rng).1.1,
      (generateTowersAndBalconies RAND_MAX towers balconyData areaSize towerCount
        BALCONIES_PER_TOWER rng).1.2⟩ p
  simp only [hany, Bool.or_false] at heq
  refine ⟨hbal, heq, ?_⟩
  intro h
  rw [heq] at h
  unfold solidHit at h
  dsimp only at h
  split_ifs at h with h1 h2 h3
  · exact Or.inl h1
  · exact Or.inr (Or.inl h2)
  · exact Or.inr (Or.inr h3)

/-- Witness of C21: the program configuration (25 towers, 3 balconies each, on
the sample stream, no other object) and the initial camera position. -/
theorem C21_ground_player_clears_balconies_witness :
    (Vec3.mk 0 (GROUND_LEVEL + PLAYER_EYE_HEIGHT) 3).y = GROUND_LEVEL + PLAYER_EYE_HEIGHT ∧
    checkCollision ⟨[], [], [],
        (generateTowersAndBalconies 32767 [] [] GROUND_SIZE APARTMENT_TOWER_COUNT
          BALCONIES_PER_TOWER sampleRng).1.1,
        (generateTowersAndBalconies 32767 [] [] GROUND_SIZE APARTMENT_TOWER_COUNT
          BALCONIES_PER_TOWER sampleRng).1.2⟩ (Vec3.mk 0 (GROUND_LEVEL + PLAYER_EYE_HEIGHT) 3)
      = solidHit ⟨[], [], [],
        (generateTowersAndBalconies 32767 [] [] GROUND_SIZE APARTMENT_TOWER_COUNT
          BALCONIES_PER_TOWER sampleRng).1.1,
        (generateTowersAndBalconies 32767 [] [] GROUND_SIZE APARTMENT_TOWER_COUNT
          BALCONIES_PER_TOWER sampleRng).1.2⟩ (Vec3.mk 0 (GROUND_LEVEL + PLAYER_EYE_HEIGHT) 3) :=
  ⟨rfl,
    (C21_ground_player_clears_balconies 32767 [] [] GROUND_SIZE APARTMENT_TOWER_COUNT sampleRng
      [] [] [] (Vec3.mk 0 (GROUND_LEVEL + PLAYER_EYE_HEIGHT) 3) rfl).2.1⟩

/-! ## The vertical displacement of a flying step -/

/-- The Y component of `deltaMove` in flying mode vanishes when forward and
back are both pressed or both released, and when the look direction is
horizontal: the strafe direction `right` is always horizontal. -/
theorem deltaMove_fly_y_zero (inversesqrt : ℚ → ℚ) (keys : Keys) (cameraFront : Vec3) (dt : ℚ)
    (h : keys.w = keys.s ∨ cameraFront.y = 0) :
    (deltaMove inversesqrt true keys cameraFront dt).y = 0 := by
  obtain ⟨escape, leftShift, kw, ks, ka, kd, space, lc, rc, f11⟩ := keys
  simp only at h
  unfold deltaMove
  simp only [if_true]
  rcases h with h | h
  · subst h
    cases kw <;> cases ka <;> cases kd <;>
      simp [Vec3.add, Vec3.sub, Vec3.scale, normalize, cross] <;>
      split_ifs <;> simp
  · cases kw <;> cases ks <;> cases ka <;> cases kd <;>
      simp [Vec3.add, Vec3.sub, Vec3.scale, normalize, cross, h] <;>
      split_ifs <;> simp

/-- C22, as the code has it: in flying mode the change in camera Y of a step is
the Y component of the look-aligned displacement `deltaMove` plus
`FLY_VERTICAL_SPEED*dt` for up minus `FLY_VERTICAL_SPEED*dt` for down; the
`deltaMove` term vanishes, and the change is the key term alone, when forward
and back are both pressed or both released or the look direction is horizontal;
pressing both up and down cancels the key term. -/
theorem C22_fly_vertical_displacement (inversesqrt : ℚ → ℚ) (w : World) (keys : Keys) (dt : ℚ)
    (st : State) :
    (processInput inversesqrt true w keys dt st).cameraPos.y - st.cameraPos.y
      = (deltaMove inversesqrt true keys st.cameraFront dt).y
        + FLY_VERTICAL_SPEED * dt * (if keys.space = true then 1 else 0)
        - FLY_VERTICAL_SPEED * dt
          * (if keys.leftControl = true ∨ keys.rightControl = true then 1 else 0) ∧
    ((keys.w = keys.s ∨ st.cameraFront.y = 0) →
      (processInput inversesqrt true w keys dt st).cameraPos.y - st.cameraPos.y
        = FLY_VERTICAL_SPEED * dt * (if keys.space = true then 1 else 0)
          - FLY_VERTICAL_SPEED * dt
            * (if keys.leftControl = true ∨ keys.rightControl = true then 1 else 0)) ∧
    (keys.space = true → (keys.leftControl = true ∨ keys.rightControl = true) →
      (processInput inversesqrt true w keys dt st).cameraPos.y - st.cameraPos.y
        = (deltaMove inversesqrt true keys st.cameraFront dt).y) := by
  have main : (processInput inversesqrt true w keys dt st).cameraPos.y - st.cameraPos.y
      = (deltaMove inversesqrt true keys st.cameraFront dt).y
        + FLY_VERTICAL_SPEED * dt * (if keys.space = true then 1 else 0)
        - FLY_VERTICAL_SPEED * dt
          * (if keys.leftControl = true ∨ keys.rightControl = true then 1 else 0) := by
    simp only [processInput, flyMove, Vec3.add, if_true, Bool.or_eq_true]
    split_ifs <;> simp <;> ring
  refine ⟨main, ?_, ?_⟩
  · intro h
    rw [main, deltaMove_fly_y_zero inversesqrt keys st.cameraFront dt h]
    ring
  · intro hs hc
    rw [main, if_pos hs, if_pos hc]
    ring

/-- C22 fails as stated: flying with only forward pressed for 1/10 s while
looking up along `(0, 3/5, -4/5)` raises the camera by `3/5 * 5 * 1/10 = 3/10`,
although neither up nor down is pressed. -/
theorem C22_counterexample :
    ¬ ((processInput sampleInversesqrt true emptyWorld forwardOnly (1 / 10)
          pitchedState).cameraPos.y - pitchedState.cameraPos.y
        = FLY_VERTICAL_SPEED * (1 / 10) * (if forwardOnly.space = true then 1 else 0)
          - FLY_VERTICAL_SPEED * (1 / 10)
            * (if forwardOnly.leftControl = true ∨ forwardOnly.rightControl = true
                then 1 else 0)) := by
  have h : (processInput sampleInversesqrt true emptyWorld forwardOnly (1 / 10)
      pitchedState).cameraPos.y - pitchedState.cameraPos.y = 3 / 10 := by
    norm_num [processInput, flyMove, deltaMove, forwardOnly, noKeys, pitchedState, initialState,
      sampleInversesqrt, normalize, cross, dot, Vec3.add, Vec3.sub, Vec3.scale, Vec3.length2,
      PLAYER_BASE_SPEED]
  rw [h]
  norm_num [forwardOnly, noKeys, FLY_VERTICAL_SPEED]

/-! ## Walking keeps clear of the solid obstacles -/

/-- The tree, house and tower tests read only the X and Z of the candidate. -/
theorem solidHit_congr (w : World) (p q : Vec3) (hx : p.x = q.x) (hz : p.z = q.z) :
    solidHit w p = solidHit w q := by
  have ht : treeHit p = treeHit q := by
    funext t
    simp only [treeHit, hx, hz]
  have hh : houseHit p = houseHit q := by
    funext t
    simp only [houseHit, hx, hz]
  have hw : towerHit p = towerHit q := by
    funext t
    simp only [towerHit, hx, hz]
  simp only [solidHit, ht, hh, hw]

/-- A candidate that `checkCollision` lets through is clear of every tree,
house and tower. -/
theorem solidHit_of_check_false (w : World) (q : Vec3) (h : checkCollision w q = false) :
    solidHit w q = false := by
  rw [checkCollision_eq_solid_or_balcony, Bool.or_eq_false_iff] at h
  exact h.1

theorem walkHorizontal_clear (w : World) (p d : Vec3) (h : solidHit w p = false) :
    solidHit w (walkHorizontal w p d) = false := by
  have hp : solidHit w (Vec3.mk p.x p.y p.z) = false := h
  unfold walkHorizontal
  dsimp only
  by_cases hX : checkCollision w (Vec3.mk (p.x + d.x) p.y p.z) = true
  · simp only [hX, Bool.not_true, Bool.false_eq_true, if_false]
    by_cases hZ : checkCollision w (Vec3.mk p.x p.y (p.z + d.z)) = true
    · simp only [hZ, Bool.not_true, Bool.false_eq_true, if_false]
      exact h
    · have hZ2 := Bool.not_eq_true _ ▸ hZ
      simp only [hZ2, Bool.not_false, if_true]
      exact solidHit_of_check_false w _ hZ2
  · have hX2 : checkCollision w (Vec3.mk (p.x + d.x) p.y p.z) = false := by
      simpa using hX
    simp only [hX2, Bool.not_false, if_true]
    by_cases hZ : checkCollision w (Vec3.mk (p.x + d.x) p.y (p.z + d.z)) = true
    · simp only [hZ, Bool.not_true, Bool.false_eq_true, if_false]
      exact solidHit_of_check_false w _ hX2
    · have hZ2 : checkCollision w (Vec3.mk (p.x + d.x) p.y (p.z + d.z)) = false := by
        simpa using hZ
      simp only [hZ2, Bool.not_false, if_true]
      exact solidHit_of_check_false w _ hZ2

/-- C23: if no tree, house or tower test of `checkCollision` reports a hit at
the position of the player before a walking step of `processInput`, none does
at the position after the step (vertical update included), whatever the world,
the keys and `dt`. -/
theorem C23_walk_stays_clear (inversesqrt : ℚ → ℚ) (w : World) (keys : Keys) (dt : ℚ)
    (st : State) (h : solidHit w st.cameraPos = false) :
    solidHit w (processInput inversesqrt false w keys dt st).cameraPos = false := by
  rw [solidHit_congr w (processInput inversesqrt false w keys dt st).cameraPos
    (walkHorizontal w st.cameraPos (deltaMove inversesqrt false keys st.cameraFront dt))
    (processInput_walk_x inversesqrt w keys dt st) (processInput_walk_z inversesqrt w keys dt st)]
  exact walkHorizontal_clear w st.cameraPos _ h

theorem sampleTreeWorldX_solid (q : Vec3) :
    solidHit sampleTreeWorldX q = true ↔
      (q.x - 1) ^ 2 + (q.z - 0) ^ 2 < (PLAYER_RADIUS + TREE_TRUNK_RADIUS) ^ 2 := by
  simp [sampleTreeWorldX, solidHit, treeHit, length2, sq]

/-- Witness of C23: the initial state in the world with one tree at `(1, 0)`,
walking forward with sprint for 1/10 s. -/
theorem C23_walk_stays_clear_witness :
    solidHit sampleTreeWorldX initialState.cameraPos = false ∧
    solidHit sampleTreeWorldX
      (processInput (fun _ => 1) false sampleTreeWorldX sprintForward (1 / 10)
        initialState).cameraPos = false := by
  have h : solidHit sampleTreeWorldX initialState.cameraPos = false := by
    rw [← Bool.not_eq_true, sampleTreeWorldX_solid]
    norm_num [initialState, PLAYER_RADIUS, TREE_TRUNK_RADIUS]
  exact ⟨h, C23_walk_stays_clear (fun _ => 1) sampleTreeWorldX sprintForward (1 / 10)
    initialState h⟩

/-! ## Binary32 rounding: evaluation -/

/-- How `round32` is evaluated: name the binade `e` and the integer part `n`
of the scaled value. -/
theorem round32_eval (q : ℚ) (e n : ℤ) (hq : q ≠ 0) (h1 : (2 : ℚ) ^ e ≤ |q|)
    (h2 : |q| < (2 : ℚ) ^ (e + 1)) (hn1 : (n : ℚ) ≤ q / (2 : ℚ) ^ (e - 23))
    (hn2 : q / (2 : ℚ) ^ (e - 23) < (n : ℚ) + 1) :
    round32 q
      = ((if q / (2 : ℚ) ^ (e - 23) - (n : ℚ) < 1 / 2 then n
          else if 1 / 2 < q / (2 : ℚ) ^ (e - 23) - (n : ℚ) then n + 1
          else if n % 2 = 0 then n else n + 1 : ℤ) : ℚ) * (2 : ℚ) ^ (e - 23) := by
  have hpos : (0 : ℚ) < |q| := abs_pos.mpr hq
  have hlog : Int.log 2 |q| = e := by
    apply le_antisymm
    · have hlt := (Int.lt_zpow_iff_log_lt (R := ℚ) (b := 2) (by norm_num) hpos (x := e + 1)).mp
        (by exact_mod_cast h2)
      omega
    · exact (Int.zpow_le_iff_le_log (R := ℚ) (b := 2) (by norm_num) hpos).mp
        (by exact_mod_cast h1)
  have hfloor : ⌊q / (2 : ℚ) ^ (e - 23)⌋ = n := Int.floor_eq_iff.mpr ⟨hn1, hn2⟩
  unfold round32
  rw [if_neg hq]
  simp only [hlog, hfloor]

/-- The literal `0.45f`. -/
theorem round32_045 : round32 (45 / 100) = 7549747 / 16777216 := by
  rw [round32_eval _ (-2) (15099494) (by norm_num) (by norm_num [abs_of_pos, abs_of_neg])
    (by norm_num [abs_of_pos, abs_of_neg]) (by norm_num) (by norm_num)]
  norm_num

/-- The literal `1.7f`. -/
theorem round32_17 : round32 (17 / 10) = 7130317 / 4194304 := by
  rw [round32_eval _ (0) (14260633) (by norm_num) (by norm_num [abs_of_pos, abs_of_neg])
    (by norm_num [abs_of_pos, abs_of_neg]) (by norm_num) (by norm_num)]
  norm_num

/-- The literal `9.81f`. -/
theorem round32_981 : round32 (981 / 100) = 10286531 / 1048576 := by
  rw [round32_eval _ (3) (10286530) (by norm_num) (by norm_num [abs_of_pos, abs_of_neg])
    (by norm_num [abs_of_pos, abs_of_neg]) (by norm_num) (by norm_num)]
  norm_num

/-- The literal `2.0f`. -/
theorem round32_two : round32 (2) = 2 := by
  rw [round32_eval _ (1) (8388608) (by norm_num) (by norm_num [abs_of_pos, abs_of_neg])
    (by norm_num [abs_of_pos, abs_of_neg]) (by norm_num) (by norm_num)]
  norm_num

/-- The product `9.81f * 2.0f`, exact. -/
theorem round32_gravity : round32 (10286531 / 1048576 * 2) = 10286531 / 524288 := by
  rw [round32_eval _ (4) (10286531) (by norm_num) (by norm_num [abs_of_pos, abs_of_neg])
    (by norm_num [abs_of_pos, abs_of_neg]) (by norm_num) (by norm_num)]
  norm_num

/-- The literal `0.2f`. -/
theorem round32_02 : round32 (2 / 10) = 13421773 / 67108864 := by
  rw [round32_eval _ (-3) (13421772) (by norm_num) (by norm_num [abs_of_pos, abs_of_neg])
    (by norm_num [abs_of_pos, abs_of_neg]) (by norm_num) (by norm_num)]
  norm_num

/-- The literal `0.8f`. -/
theorem round32_08 : round32 (8 / 10) = 13421773 / 16777216 := by
  rw [round32_eval _ (-1) (13421772) (by norm_num) (by norm_num [abs_of_pos, abs_of_neg])
    (by norm_num [abs_of_pos, abs_of_neg]) (by norm_num) (by norm_num)]
  norm_num

/-- The literal `0.1f`. -/
theorem round32_01 : round32 (1 / 10) = 13421773 / 134217728 := by
  rw [round32_eval _ (-4) (13421772) (by norm_num) (by norm_num [abs_of_pos, abs_of_neg])
    (by norm_num [abs_of_pos, abs_of_neg]) (by norm_num) (by norm_num)]
  norm_num

/-- The literal `2.5f`. -/
theorem round32_25 : round32 (25 / 10) = 5 / 2 := by
  rw [round32_eval _ (1) (10485760) (by norm_num) (by norm_num [abs_of_pos, abs_of_neg])
    (by norm_num [abs_of_pos, abs_of_neg]) (by norm_num) (by norm_num)]
  norm_num

/-- The literal `1.5f`. -/
theorem round32_15 : round32 (15 / 10) = 3 / 2 := by
  rw [round32_eval _ (0) (12582912) (by norm_num) (by norm_num [abs_of_pos, abs_of_neg])
    (by norm_num [abs_of_pos, abs_of_neg]) (by norm_num) (by norm_num)]
  norm_num

/-- `BALCONY_WIDTH / 2.0f`, exact. -/
theorem round32_half_width : round32 (5 / 2 / 2) = 5 / 4 := by
  rw [round32_eval _ (0) (10485760) (by norm_num) (by norm_num [abs_of_pos, abs_of_neg])
    (by norm_num [abs_of_pos, abs_of_neg]) (by norm_num) (by norm_num)]
  norm_num

/-- `BALCONY_DEPTH / 2.0f`, exact. -/
theorem round32_half_depth : round32 (3 / 2 / 2) = 3 / 4 := by
  rw [round32_eval _ (-1) (12582912) (by norm_num) (by norm_num [abs_of_pos, abs_of_neg])
    (by norm_num [abs_of_pos, abs_of_neg]) (by norm_num) (by norm_num)]
  norm_num

/-- `BALCONY_RAILING_THICKNESS / 2.0f`, exact. -/
theorem round32_half_thickness : round32 (13421773 / 134217728 / 2) = 13421773 / 268435456 := by
  rw [round32_eval _ (-5) (13421773) (by norm_num) (by norm_num [abs_of_pos, abs_of_neg])
    (by norm_num [abs_of_pos, abs_of_neg]) (by norm_num) (by norm_num)]
  norm_num

/-- `BALCONY_FLOOR_HEIGHT / 2.0f`, exact. -/
theorem round32_half_floor : round32 (13421773 / 67108864 / 2) = 13421773 / 134217728 := by
  rw [round32_eval _ (-4) (13421773) (by norm_num) (by norm_num [abs_of_pos, abs_of_neg])
    (by norm_num [abs_of_pos, abs_of_neg]) (by norm_num) (by norm_num)]
  norm_num

/-- `BALCONY_RAILING_HEIGHT / 2.0f`, exact. -/
theorem round32_half_railing : round32 (13421773 / 16777216 / 2) = 13421773 / 33554432 := by
  rw [round32_eval _ (-2) (13421773) (by norm_num) (by norm_num [abs_of_pos, abs_of_neg])
    (by norm_num [abs_of_pos, abs_of_neg]) (by norm_num) (by norm_num)]
  norm_num

/-- `railingOffsetX`: the exact difference `322122547/268435456` is rounded up. -/
theorem round32_offsetX : round32 (5 / 4 - 13421773 / 268435456) = 5033165 / 4194304 := by
  rw [round32_eval _ (0) (10066329) (by norm_num) (by norm_num [abs_of_pos, abs_of_neg])
    (by norm_num [abs_of_pos, abs_of_neg]) (by norm_num) (by norm_num)]
  norm_num

/-- `railingOffsetZ`: the exact difference `187904819/268435456` is rounded down. -/
theorem round32_offsetZ : round32 (3 / 4 - 13421773 / 268435456) = 11744051 / 16777216 := by
  rw [round32_eval _ (-1) (11744051) (by norm_num) (by norm_num [abs_of_pos, abs_of_neg])
    (by norm_num [abs_of_pos, abs_of_neg]) (by norm_num) (by norm_num)]
  norm_num

/-- `railingOffsetY`: the exact sum `67108865/134217728` is rounded down to `1/2`. -/
theorem round32_offsetY : round32 (13421773 / 134217728 + 13421773 / 33554432) = 1 / 2 := by
  rw [round32_eval _ (-1) (8388608) (by norm_num) (by norm_num [abs_of_pos, abs_of_neg])
    (by norm_num [abs_of_pos, abs_of_neg]) (by norm_num) (by norm_num)]
  norm_num

/-- The snap height `GROUND_LEVEL + PLAYER_EYE_HEIGHT`: the exact sum `20971521/16777216` lies halfway between two binary32 values and goes to the even one, `5/4`. -/
theorem round32_snap : round32 (-(7549747 / 16777216) + 7130317 / 4194304) = 5 / 4 := by
  rw [round32_eval _ (0) (10485760) (by norm_num) (by norm_num [abs_of_pos, abs_of_neg])
    (by norm_num [abs_of_pos, abs_of_neg]) (by norm_num) (by norm_num)]
  norm_num

/-- `GRAVITY * deltaTime` for `deltaTime = 1/64`, exact. -/
theorem round32_gdt : round32 (10286531 / 524288 * (1 / 64)) = 10286531 / 33554432 := by
  rw [round32_eval _ (-2) (10286531) (by norm_num) (by norm_num [abs_of_pos, abs_of_neg])
    (by norm_num [abs_of_pos, abs_of_neg]) (by norm_num) (by norm_num)]
  norm_num

/-- The velocity after gravity from rest, exact. -/
theorem round32_v1 : round32 (0 - 10286531 / 33554432) = -(10286531 / 33554432) := by
  rw [round32_eval _ (-2) (-10286531) (by norm_num) (by norm_num [abs_of_pos, abs_of_neg])
    (by norm_num [abs_of_pos, abs_of_neg]) (by norm_num) (by norm_num)]
  norm_num

/-- The velocity times `deltaTime = 1/64`, exact. -/
theorem round32_v1dt : round32 (-(10286531 / 33554432) * (1 / 64)) = -(10286531 / 2147483648) := by
  rw [round32_eval _ (-8) (-10286531) (by norm_num) (by norm_num [abs_of_pos, abs_of_neg])
    (by norm_num [abs_of_pos, abs_of_neg]) (by norm_num) (by norm_num)]
  norm_num

/-- The tentative height one frame of 1/64 s after resting at `5/4`. -/
theorem round32_y1 : round32 (5 / 4 + -(10286531 / 2147483648)) = 5222789 / 4194304 := by
  rw [round32_eval _ (0) (10445578) (by norm_num) (by norm_num [abs_of_pos, abs_of_neg])
    (by norm_num [abs_of_pos, abs_of_neg]) (by norm_num) (by norm_num)]
  norm_num

/-- The feet height at that tentative height, exact. -/
theorem round32_feet1 : round32 (5222789 / 4194304 - 7130317 / 4194304) = -(238441 / 524288) := by
  rw [round32_eval _ (-2) (-15260224) (by norm_num) (by norm_num [abs_of_pos, abs_of_neg])
    (by norm_num [abs_of_pos, abs_of_neg]) (by norm_num) (by norm_num)]
  norm_num

/-- The feet height at the snap height, `1.25f - 1.7f`, exact. -/
theorem round32_feet_snap : round32 (5 / 4 - 7130317 / 4194304) = -(1887437 / 4194304) := by
  rw [round32_eval _ (-2) (-15099496) (by norm_num) (by norm_num [abs_of_pos, abs_of_neg])
    (by norm_num [abs_of_pos, abs_of_neg]) (by norm_num) (by norm_num)]
  norm_num

/-! ## The two readings of the rounding-explicit definitions -/

theorem generateBalconyIn_exact (towerX towerZ : ℚ) (towerBasePos : Vec3)
    (balconiesPerTower j : Int) (side : Nat) :
    generateBalconyIn exactArith towerX towerZ towerBasePos balconiesPerTower j side
      = generateBalcony towerX towerZ towerBasePos balconiesPerTower j side := rfl

theorem walkVerticalIn_exact (space : Bool) (dt : ℚ) (p : Vec3) (v : ℚ) (g : Bool) :
    walkVerticalIn exactArith space dt p v g = walkVertical space dt p v g := rfl

theorem binary32_GROUND_LEVEL : binary32Arith.GROUND_LEVEL = -(7549747 / 16777216) := by
  show -(round32 (45 / 100)) = _
  rw [round32_045]

theorem binary32_PLAYER_EYE_HEIGHT : binary32Arith.PLAYER_EYE_HEIGHT = 7130317 / 4194304 :=
  round32_17

theorem binary32_GRAVITY : binary32Arith.GRAVITY = 10286531 / 524288 := by
  show round32 (round32 (981 / 100) * round32 2) = _
  rw [round32_981, round32_two, round32_gravity]

theorem binary32_BALCONY_WIDTH : binary32Arith.BALCONY_WIDTH = 5 / 2 := round32_25

theorem binary32_BALCONY_DEPTH : binary32Arith.BALCONY_DEPTH = 3 / 2 := round32_15

theorem binary32_BALCONY_FLOOR_HEIGHT :
    binary32Arith.BALCONY_FLOOR_HEIGHT = 13421773 / 67108864 := round32_02

theorem binary32_BALCONY_RAILING_HEIGHT :
    binary32Arith.BALCONY_RAILING_HEIGHT = 13421773 / 16777216 := round32_08

theorem binary32_BALCONY_RAILING_THICKNESS :
    binary32Arith.BALCONY_RAILING_THICKNESS = 13421773 / 134217728 := round32_01

/-- The snap height of the binary32 program is `5/4`. -/
theorem binary32_snap :
    binary32Arith.fl (binary32Arith.GROUND_LEVEL + binary32Arith.PLAYER_EYE_HEIGHT) = 5 / 4 := by
  rw [binary32_GROUND_LEVEL, binary32_PLAYER_EYE_HEIGHT]
  exact round32_snap


/-! ## The ground, in any arithmetic -/

/-- The two ways the vertical part of a walking step can end, whatever the
arithmetic: snapped to the stored sum `GROUND_LEVEL + PLAYER_EYE_HEIGHT` with
zero velocity and the flag set, or airborne with the computed feet height above
`GROUND_LEVEL`. -/
theorem walkVerticalIn_cases (A : Arith) (space : Bool) (dt : ℚ) (p : Vec3) (v : ℚ) (g : Bool) :
    ((walkVerticalIn A space dt p v g).2.2 = true ∧
      (walkVerticalIn A space dt p v g).1.y = A.fl (A.GROUND_LEVEL + A.PLAYER_EYE_HEIGHT) ∧
      (walkVerticalIn A space dt p v g).2.1 = 0) ∨
    ((walkVerticalIn A space dt p v g).2.2 = false ∧
      A.GROUND_LEVEL
        < A.fl ((walkVerticalIn A space dt p v g).1.y - A.PLAYER_EYE_HEIGHT)) := by
  unfold walkVerticalIn
  dsimp only
  generalize (if (space && g) = true then A.JUMP_FORCE
    else A.fl (v - A.fl (A.GRAVITY * dt))) = v1
  by_cases h : A.fl (A.fl (p.y + A.fl (v1 * dt)) - A.PLAYER_EYE_HEIGHT) ≤ A.GROUND_LEVEL
  · rw [if_pos h]
    exact Or.inl ⟨rfl, rfl, rfl⟩
  · rw [if_neg h]
    exact Or.inr ⟨rfl, not_le.mp h⟩

/-- In binary32 the feet of a player at the snap height are `2^-24` below
`GROUND_LEVEL`: `1.25f - 1.7f` against `-0.45f`. -/
theorem binary32_snap_feet :
    (5 / 4 : ℚ) - binary32Arith.PLAYER_EYE_HEIGHT = binary32Arith.GROUND_LEVEL - 1 / 2 ^ 24 := by
  rw [binary32_PLAYER_EYE_HEIGHT, binary32_GROUND_LEVEL]
  norm_num

theorem processInput_walk_vertical_in (inversesqrt : ℚ → ℚ) (w : World) (keys : Keys) (dt : ℚ)
    (st : State) :
    (processInput inversesqrt false w keys dt st).cameraPos.y
      = (walkVerticalIn exactArith keys.space dt st.cameraPos st.cameraVelocityY
          st.isOnGround).1.y ∧
    (processInput inversesqrt false w keys dt st).cameraVelocityY
      = (walkVerticalIn exactArith keys.space dt st.cameraPos st.cameraVelocityY
          st.isOnGround).2.1 ∧
    (processInput inversesqrt false w keys dt st).isOnGround
      = (walkVerticalIn exactArith keys.space dt st.cameraPos st.cameraVelocityY
          st.isOnGround).2.2 := by
  simp only [walkVerticalIn_exact]
  simp only [processInput, walkVertical, walkHorizontal_y, Bool.false_eq_true, if_false]
  refine ⟨?_, ?_, ?_⟩ <;> split_ifs <;> rfl

/-- C24, as the code has it: after the vertical part of a walking step, from any
prior state and with any input and `dt`, in any arithmetic, either the flag is
set and the camera is at the stored sum `GROUND_LEVEL + PLAYER_EYE_HEIGHT`, or
the flag is clear and the feet height the code computes is above
`GROUND_LEVEL`. When nothing is rounded this is the claim: feet at or above
`GROUND_LEVEL`, at it exactly when grounded. In binary32 a grounded camera is at
`5/4` and its feet are at `GROUND_LEVEL - 2^-24`. The vertical fields of a
walking `processInput` step are this part, read in exact arithmetic. -/
theorem C24_ground_test (A : Arith) (inversesqrt : ℚ → ℚ) (w : World) (keys : Keys)
    (st : State) (space : Bool) (dt : ℚ) (p : Vec3) (v : ℚ) (g : Bool) :
    (((walkVerticalIn A space dt p v g).2.2 = true ∧
        (walkVerticalIn A space dt p v g).1.y = A.fl (A.GROUND_LEVEL + A.PLAYER_EYE_HEIGHT) ∧
        (walkVerticalIn A space dt p v g).2.1 = 0) ∨
      ((walkVerticalIn A space dt p v g).2.2 = false ∧
        A.GROUND_LEVEL
          < A.fl ((walkVerticalIn A space dt p v g).1.y - A.PLAYER_EYE_HEIGHT))) ∧
    ((∀ q, A.fl q = q) →
      A.GROUND_LEVEL ≤ (walkVerticalIn A space dt p v g).1.y - A.PLAYER_EYE_HEIGHT ∧
      ((walkVerticalIn A space dt p v g).1.y - A.PLAYER_EYE_HEIGHT = A.GROUND_LEVEL ↔
        (walkVerticalIn A space dt p v g).2.2 = true)) ∧
    ((walkVerticalIn binary32Arith space dt p v g).2.2 = true →
      (walkVerticalIn binary32Arith space dt p v g).1.y = 5 / 4 ∧
      (walkVerticalIn binary32Arith space dt p v g).1.y - binary32Arith.PLAYER_EYE_HEIGHT
        = binary32Arith.GROUND_LEVEL - 1 / 2 ^ 24) ∧
    ((processInput inversesqrt false w keys dt st).cameraPos.y
        = (walkVerticalIn exactArith keys.space dt st.cameraPos st.cameraVelocityY
            st.isOnGround).1.y ∧
      (processInput inversesqrt false w keys dt st).cameraVelocityY
        = (walkVerticalIn exactArith keys.space dt st.cameraPos st.cameraVelocityY
            st.isOnGround).2.1 ∧
      (processInput inversesqrt false w keys dt st).isOnGround
        = (walkVerticalIn exactArith keys.space dt st.cameraPos st.cameraVelocityY
            st.isOnGround).2.2) := by
  refine ⟨walkVerticalIn_cases A space dt p v g, ?_, ?_,
    processInput_walk_vertical_in inversesqrt w keys dt st⟩
  · intro hfl
    rcases walkVerticalIn_cases A space dt p v g with ⟨hg, hy, _⟩ | ⟨hg, hlt⟩
    · rw [hfl] at hy
      rw [hy, hg]
      refine ⟨by linarith, ?_⟩
      constructor
      · intro _; rfl
      · intro _; ring
    · rw [hfl] at hlt
      rw [hg]
      refine ⟨le_of_lt hlt, ?_⟩
      constructor
      · intro heq
        exact absurd heq (ne_of_gt hlt)
      · intro hc
        exact absurd hc (by decide)
  · intro hg
    rcases walkVerticalIn_cases binary32Arith space dt p v g with ⟨_, hy, _⟩ | ⟨hg2, _⟩
    · rw [binary32_snap] at hy
      exact ⟨hy, by rw [hy]; exact binary32_snap_feet⟩
    · rw [hg2] at hg
      exact absurd hg (by decide)

/-- One binary32 frame of 1/64 s for a player resting at the snap height `5/4`:
gravity takes the tentative height to `5222789/4194304`, the feet test
succeeds, and the camera is snapped back to `5/4`. -/
theorem binary32_rest_frame :
    walkVerticalIn binary32Arith false (1 / 64) (Vec3.mk 0 (5 / 4) 3) 0 true
      = (Vec3.mk 0 (5 / 4) 3, 0, true) := by
  have hfl : binary32Arith.fl = round32 := rfl
  unfold walkVerticalIn
  simp only [hfl, binary32_GRAVITY, binary32_PLAYER_EYE_HEIGHT, binary32_GROUND_LEVEL,
    Bool.false_and, Bool.false_eq_true, if_false]
  rw [round32_gdt, round32_v1, round32_v1dt, round32_y1, round32_feet1, round32_snap]
  norm_num

/-- C24 fails as stated in binary32: after one walking frame of 1/64 s from
rest at the snap height the player is grounded, with the camera at `5/4`, and
the feet height `5/4 - 1.7f` is below `GROUND_LEVEL = -0.45f` by `2^-24`. -/
theorem C24_counterexample :
    ¬ (binary32Arith.GROUND_LEVEL
          ≤ (walkVerticalIn binary32Arith false (1 / 64) (Vec3.mk 0 (5 / 4) 3) 0 true).1.y
            - binary32Arith.PLAYER_EYE_HEIGHT ∧
        ((walkVerticalIn binary32Arith false (1 / 64) (Vec3.mk 0 (5 / 4) 3) 0 true).1.y
            - binary32Arith.PLAYER_EYE_HEIGHT = binary32Arith.GROUND_LEVEL ↔
          (walkVerticalIn binary32Arith false (1 / 64) (Vec3.mk 0 (5 / 4) 3) 0 true).2.2
            = true)) := by
  rw [binary32_rest_frame]
  rintro ⟨h, -⟩
  have hf : (5 / 4 : ℚ) - binary32Arith.PLAYER_EYE_HEIGHT
      = binary32Arith.GROUND_LEVEL - 1 / 2 ^ 24 := binary32_snap_feet
  have h2 : binary32Arith.GROUND_LEVEL ≤ (5 / 4 : ℚ) - binary32Arith.PLAYER_EYE_HEIGHT := h
  rw [hf] at h2
  norm_num at h2


/-! ## Landing, in any arithmetic -/

/-- After at least one idle walking frame, in any arithmetic, a set flag means
that the camera is at the stored sum `GROUND_LEVEL + PLAYER_EYE_HEIGHT` and the
vertical velocity is 0. -/
theorem idleFallIn_grounded (A : Arith) (dt : ℚ) :
    ∀ (n : Nat) (s : Vec3 × ℚ × Bool),
      (idleFallIn A dt (n + 1) s).2.2 = true →
      (idleFallIn A dt (n + 1) s).1.y = A.fl (A.GROUND_LEVEL + A.PLAYER_EYE_HEIGHT) ∧
        (idleFallIn A dt (n + 1) s).2.1 = 0 := by
  intro n
  induction n with
  | zero =>
    intro s hg
    have hstep : idleFallIn A dt (0 + 1) s = walkVerticalIn A false dt s.1 s.2.1 s.2.2 := rfl
    rw [hstep] at hg ⊢
    rcases walkVerticalIn_cases A false dt s.1 s.2.1 s.2.2 with ⟨_, hy, hv⟩ | ⟨hg2, _⟩
    · exact ⟨hy, hv⟩
    · rw [hg2] at hg
      exact absurd hg (by decide)
  | succ n ih =>
    intro s hg
    exact ih (walkVerticalIn A false dt s.1 s.2.1 s.2.2) hg

/-- C15, as the code has it: in walking mode without input and with a constant
frame time `dt > 0` (in particular `dt ≤ 0.1`), from any starting height (in
particular above `GROUND_LEVEL + PLAYER_EYE_HEIGHT`), any starting velocity and
any grounded flag, there is a frame count `N` such that after `N` frames, and
after every larger number of frames, the camera is at the snap height
`GROUND_LEVEL + PLAYER_EYE_HEIGHT` the code assigns, the vertical velocity is 0
and grounded is true. In any arithmetic, a player found grounded after at least
one idle frame has the camera at the stored sum `GROUND_LEVEL +
PLAYER_EYE_HEIGHT` and velocity 0; in binary32 that is camera Y `5/4` and feet
at `GROUND_LEVEL - 2^-24`. -/
theorem C15_ground_snap (inversesqrt : ℚ → ℚ) (w : World) (dt : ℚ) (st : State)
    (A : Arith) (n : Nat) (s : Vec3 × ℚ × Bool) (hdt : 0 < dt) :
    (∃ N : Nat, ∀ M : Nat, N ≤ M →
      (frames inversesqrt false w noKeys dt M st).cameraPos.y
          = GROUND_LEVEL + PLAYER_EYE_HEIGHT ∧
      (frames inversesqrt false w noKeys dt M st).cameraVelocityY = 0 ∧
      (frames inversesqrt false w noKeys dt M st).isOnGround = true) ∧
    ((idleFallIn A dt (n + 1) s).2.2 = true →
      (idleFallIn A dt (n + 1) s).1.y = A.fl (A.GROUND_LEVEL + A.PLAYER_EYE_HEIGHT) ∧
        (idleFallIn A dt (n + 1) s).2.1 = 0) ∧
    ((idleFallIn binary32Arith dt (n + 1) s).2.2 = true →
      (idleFallIn binary32Arith dt (n + 1) s).1.y = 5 / 4 ∧
      (idleFallIn binary32Arith dt (n + 1) s).1.y - binary32Arith.PLAYER_EYE_HEIGHT
        = binary32Arith.GROUND_LEVEL - 1 / 2 ^ 24) := by
  refine ⟨?_, idleFallIn_grounded A dt n s, ?_⟩
  · obtain ⟨N, hN1, hN⟩ := idle_fall_reaches_ground st.cameraPos.y st.cameraVelocityY dt hdt
    refine ⟨N, fun M hM => ?_⟩
    have hland : ∃ m : Nat, m ≤ N ∧
        (frames inversesqrt false w noKeys dt m st).cameraPos.y
            = GROUND_LEVEL + PLAYER_EYE_HEIGHT ∧
        (frames inversesqrt false w noKeys dt m st).cameraVelocityY = 0 ∧
        (frames inversesqrt false w noKeys dt m st).isOnGround = true := by
      rcases idle_fall_or_landed inversesqrt w dt st N with h | ⟨_, _, h⟩
      · exact h
      · exact absurd hN (not_le.mpr (h hN1))
    obtain ⟨m, hm, hG⟩ := hland
    have hsplit : M = m + (M - m) := by omega
    rw [hsplit, frames_add]
    exact idle_grounded_forever inversesqrt w dt (le_of_lt hdt) (M - m) _ hG
  · intro hg
    obtain ⟨hy, _⟩ := idleFallIn_grounded binary32Arith dt n s hg
    rw [binary32_snap] at hy
    exact ⟨hy, by rw [hy]; exact binary32_snap_feet⟩

/-- Witness of C15: the player dropped from camera height 10 in the empty
world, frames of 1/60 s. -/
theorem C15_ground_snap_witness :
    (0 : ℚ) < 1 / 60 ∧
    ∃ N : Nat, ∀ M : Nat, N ≤ M →
      (frames (fun _ => 1) false emptyWorld noKeys (1 / 60) M droppedState).cameraPos.y
          = GROUND_LEVEL + PLAYER_EYE_HEIGHT ∧
      (frames (fun _ => 1) false emptyWorld noKeys (1 / 60) M droppedState).cameraVelocityY
          = 0 ∧
      (frames (fun _ => 1) false emptyWorld noKeys (1 / 60) M droppedState).isOnGround = true :=
  ⟨by norm_num,
    (C15_ground_snap (fun _ => 1) emptyWorld (1 / 60) droppedState exactArith 0
      (Vec3.mk 0 10 3, 0, false) (by norm_num)).1⟩

/-- C15 fails as stated in binary32: dropped from camera height 2 with frames
of 1/64 s, the player is at no frame count grounded with the feet height
`cameraPos.y - PLAYER_EYE_HEIGHT` equal to `GROUND_LEVEL`, since a grounded
camera is at `5/4` and `5/4 - 1.7f` is `2^-24` below `-0.45f`. -/
theorem C15_counterexample :
    ¬ ∃ N : Nat, ∀ M : Nat, N ≤ M →
      (idleFallIn binary32Arith (1 / 64) M (Vec3.mk 0 2 3, 0, false)).1.y
          - binary32Arith.PLAYER_EYE_HEIGHT = binary32Arith.GROUND_LEVEL ∧
      (idleFallIn binary32Arith (1 / 64) M (Vec3.mk 0 2 3, 0, false)).2.1 = 0 ∧
      (idleFallIn binary32Arith (1 / 64) M (Vec3.mk 0 2 3, 0, false)).2.2 = true := by
  rintro ⟨N, hN⟩
  obtain ⟨hfeet, _, hg⟩ := hN (N + 1) (Nat.le_succ N)
  obtain ⟨hy, _⟩ := idleFallIn_grounded binary32Arith (1 / 64) N (Vec3.mk 0 2 3, 0, false) hg
  rw [binary32_snap] at hy
  rw [hy, binary32_snap_feet] at hfeet
  norm_num at hfeet


/-! ## The railings, in any arithmetic -/

theorem binary32_offsetX :
    binary32Arith.fl (binary32Arith.fl (binary32Arith.BALCONY_WIDTH / 2)
      - binary32Arith.fl (binary32Arith.BALCONY_RAILING_THICKNESS / 2))
      = 5033165 / 4194304 := by
  rw [binary32_BALCONY_WIDTH, binary32_BALCONY_RAILING_THICKNESS]
  show round32 (round32 (5 / 2 / 2) - round32 (13421773 / 134217728 / 2)) = _
  rw [round32_half_width, round32_half_thickness, round32_offsetX]

theorem binary32_offsetZ :
    binary32Arith.fl (binary32Arith.fl (binary32Arith.BALCONY_DEPTH / 2)
      - binary32Arith.fl (binary32Arith.BALCONY_RAILING_THICKNESS / 2))
      = 11744051 / 16777216 := by
  rw [binary32_BALCONY_DEPTH, binary32_BALCONY_RAILING_THICKNESS]
  show round32 (round32 (3 / 2 / 2) - round32 (13421773 / 134217728 / 2)) = _
  rw [round32_half_depth, round32_half_thickness, round32_offsetZ]

theorem binary32_offsetY :
    binary32Arith.fl (binary32Arith.fl (binary32Arith.BALCONY_FLOOR_HEIGHT / 2)
      + binary32Arith.fl (binary32Arith.BALCONY_RAILING_HEIGHT / 2)) = 1 / 2 := by
  rw [binary32_BALCONY_FLOOR_HEIGHT, binary32_BALCONY_RAILING_HEIGHT]
  show round32 (round32 (13421773 / 67108864 / 2) + round32 (13421773 / 16777216 / 2)) = _
  rw [round32_half_floor, round32_half_railing, round32_offsetY]

/-- C7, as the code has it. A balcony `b` read from the generated world is the
one the loop body builds for its tower on the side drawn for it, and for the
balcony `g` the loop body builds on that side in any arithmetic: all three
railings are raised by the stored `railingOffsetY`, the rounded sum of half the
floor height and half the railing height; the front railing is centred on the
floor along the tower face with the extent of the floor there, and is moved
along the projecting axis by the stored `railingOffsetZ`, the way the balcony
is moved from the tower; the left and right railings are centred along the
projecting axis with the extent of the floor there, and are moved along the
tower face by the stored `railingOffsetX`, one each way. In binary32 the bottom
faces of the railings are `2^-27` below the top face of the floor, the outer
face of the front railing is `3/2^28` inside the far floor edge, and the outer
faces of the left and right railings are `13/2^28` outside the floor edges. In
exact arithmetic over the decimal constants, which is the arithmetic of the
generated world `b` is read from, the three footprints lie within the floor,
the bottom faces are on its top face, and the outer faces coincide with the
three outer floor edges. -/
theorem C7_railings_follow_offsets (RAND_MAX : Nat) (towers : List Vec3)
    (balconyData : List Balcony) (areaSize : ℚ) (towerCount n : Int) (rng : Rng) (i j : Nat)
    (t : Vec3) (b : Balcony) (side : Nat) (A : Arith) (towerX towerZ : ℚ) (towerBasePos : Vec3)
    (hj : (j : Int) < n)
    (ht : (generateTowersAndBalconies RAND_MAX towers balconyData areaSize towerCount n
      rng).1.1[i]? = some t)
    (hb : (generateTowersAndBalconies RAND_MAX towers balconyData areaSize towerCount n
      rng).1.2[i * n.toNat + j]? = some b)
    (hside : side = rng.draws (rng.pos + (2 + n.toNat) * i + 2 + j) % 4) :
    (side < 4 ∧ b = generateBalconyIn exactArith t.x t.z t n (j : Int) side) ∧
    (∀ g : Balcony, g = generateBalconyIn A towerX towerZ towerBasePos n (j : Int) side →
      (g.dimensions.y = A.BALCONY_FLOOR_HEIGHT ∧
        g.railingDimsFront.y = A.BALCONY_RAILING_HEIGHT ∧
        g.railingDimsSide.y = A.BALCONY_RAILING_HEIGHT ∧
        g.railingFrontPosRel.y =
          A.fl (A.fl (A.BALCONY_FLOOR_HEIGHT / 2) + A.fl (A.BALCONY_RAILING_HEIGHT / 2)) ∧
        g.railingLeftPosRel.y = g.railingFrontPosRel.y ∧
        g.railingRightPosRel.y = g.railingFrontPosRel.y) ∧
      (side = 0 →
        g.position.z =
          A.fl (towerZ + A.fl (A.fl (A.TOWER_DEPTH / 2) + A.fl (A.BALCONY_DEPTH / 2))) ∧
        g.railingFrontPosRel.x = 0 ∧
        g.railingDimsFront.x = g.dimensions.x ∧
        g.railingFrontPosRel.z =
          A.fl (A.fl (A.BALCONY_DEPTH / 2) - A.fl (A.BALCONY_RAILING_THICKNESS / 2)) ∧
        g.railingDimsFront.z = A.BALCONY_RAILING_THICKNESS ∧
        g.railingLeftPosRel.z = 0 ∧
        g.railingRightPosRel.z = 0 ∧
        g.railingDimsSide.z = g.dimensions.z ∧
        g.railingLeftPosRel.x =
          -(A.fl (A.fl (A.BALCONY_WIDTH / 2) - A.fl (A.BALCONY_RAILING_THICKNESS / 2))) ∧
        g.railingRightPosRel.x =
          A.fl (A.fl (A.BALCONY_WIDTH / 2) - A.fl (A.BALCONY_RAILING_THICKNESS / 2)) ∧
        g.railingDimsSide.x = A.BALCONY_RAILING_THICKNESS) ∧
      (side = 1 →
        g.position.z =
          A.fl (towerZ - A.fl (A.fl (A.TOWER_DEPTH / 2) + A.fl (A.BALCONY_DEPTH / 2))) ∧
        g.railingFrontPosRel.x = 0 ∧
        g.railingDimsFront.x = g.dimensions.x ∧
        g.railingFrontPosRel.z =
          -(A.fl (A.fl (A.BALCONY_DEPTH / 2) - A.fl (A.BALCONY_RAILING_THICKNESS / 2))) ∧
        g.railingDimsFront.z = A.BALCONY_RAILING_THICKNESS ∧
        g.railingLeftPosRel.z = 0 ∧
        g.railingRightPosRel.z = 0 ∧
        g.railingDimsSide.z = g.dimensions.z ∧
        g.railingLeftPosRel.x =
          -(A.fl (A.fl (A.BALCONY_WIDTH / 2) - A.fl (A.BALCONY_RAILING_THICKNESS / 2))) ∧
        g.railingRightPosRel.x =
          A.fl (A.fl (A.BALCONY_WIDTH / 2) - A.fl (A.BALCONY_RAILING_THICKNESS / 2)) ∧
        g.railingDimsSide.x = A.BALCONY_RAILING_THICKNESS) ∧
      (side = 2 →
        g.position.x =
          A.fl (towerX + A.fl (A.fl (A.TOWER_WIDTH / 2) + A.fl (A.BALCONY_DEPTH / 2))) ∧
        g.railingFrontPosRel.z = 0 ∧
        g.railingDimsFront.z = g.dimensions.z ∧
        g.railingFrontPosRel.x =
          A.fl (A.fl (A.BALCONY_DEPTH / 2) - A.fl (A.BALCONY_RAILING_THICKNESS / 2)) ∧
        g.railingDimsFront.x = A.BALCONY_RAILING_THICKNESS ∧
        g.railingLeftPosRel.x = 0 ∧
        g.railingRightPosRel.x = 0 ∧
        g.railingDimsSide.x = g.dimensions.x ∧
        g.railingLeftPosRel.z =
          -(A.fl (A.fl (A.BALCONY_WIDTH / 2) - A.fl (A.BALCONY_RAILING_THICKNESS / 2))) ∧
        g.railingRightPosRel.z =
          A.fl (A.fl (A.BALCONY_WIDTH / 2) - A.fl (A.BALCONY_RAILING_THICKNESS / 2)) ∧
        g.railingDimsSide.z = A.BALCONY_RAILING_THICKNESS) ∧
      (side = 3 →
        g.position.x =
          A.fl (towerX - A.fl (A.fl (A.TOWER_WIDTH / 2) + A.fl (A.BALCONY_DEPTH / 2))) ∧
        g.railingFrontPosRel.z = 0 ∧
        g.railingDimsFront.z = g.dimensions.z ∧
        g.railingFrontPosRel.x =
          -(A.fl (A.fl (A.BALCONY_DEPTH / 2) - A.fl (A.BALCONY_RAILING_THICKNESS / 2))) ∧
        g.railingDimsFront.x = A.BALCONY_RAILING_THICKNESS ∧
        g.railingLeftPosRel.x = 0 ∧
        g.railingRightPosRel.x = 0 ∧
        g.railingDimsSide.x = g.dimensions.x ∧
        g.railingLeftPosRel.z =
          -(A.fl (A.fl (A.BALCONY_WIDTH / 2) - A.fl (A.BALCONY_RAILING_THICKNESS / 2))) ∧
        g.railingRightPosRel.z =
          A.fl (A.fl (A.BALCONY_WIDTH / 2) - A.fl (A.BALCONY_RAILING_THICKNESS / 2)) ∧
        g.railingDimsSide.z = A.BALCONY_RAILING_THICKNESS)) ∧
    (∀ g : Balcony,
      g = generateBalconyIn binary32Arith towerX towerZ towerBasePos n (j : Int) side →
      (g.railingFrontPosRel.y - g.railingDimsFront.y / 2 - g.dimensions.y / 2 = -(1 / 2 ^ 27) ∧
        g.railingLeftPosRel.y - g.railingDimsSide.y / 2 - g.dimensions.y / 2 = -(1 / 2 ^ 27) ∧
        g.railingRightPosRel.y - g.railingDimsSide.y / 2 - g.dimensions.y / 2
          = -(1 / 2 ^ 27)) ∧
      (side = 0 →
        g.railingFrontPosRel.z + g.railingDimsFront.z / 2 - g.dimensions.z / 2 = -(3 / 2 ^ 28) ∧
        0 < g.railingFrontPosRel.z ∧
        g.railingLeftPosRel.x - g.railingDimsSide.x / 2 + g.dimensions.x / 2 = -(13 / 2 ^ 28) ∧
        g.railingRightPosRel.x + g.railingDimsSide.x / 2 - g.dimensions.x / 2 = 13 / 2 ^ 28) ∧
      (side = 1 →
        g.railingFrontPosRel.z - g.railingDimsFront.z / 2 + g.dimensions.z / 2 = 3 / 2 ^ 28 ∧
        g.railingFrontPosRel.z < 0 ∧
        g.railingLeftPosRel.x - g.railingDimsSide.x / 2 + g.dimensions.x / 2 = -(13 / 2 ^ 28) ∧
        g.railingRightPosRel.x + g.railingDimsSide.x / 2 - g.dimensions.x / 2 = 13 / 2 ^ 28) ∧
      (side = 2 →
        g.railingFrontPosRel.x + g.railingDimsFront.x / 2 - g.dimensions.x / 2 = -(3 / 2 ^ 28) ∧
        0 < g.railingFrontPosRel.x ∧
        g.railingLeftPosRel.z - g.railingDimsSide.z / 2 + g.dimensions.z / 2 = -(13 / 2 ^ 28) ∧
        g.railingRightPosRel.z + g.railingDimsSide.z / 2 - g.dimensions.z / 2 = 13 / 2 ^ 28) ∧
      (side = 3 →
        g.railingFrontPosRel.x - g.railingDimsFront.x / 2 + g.dimensions.x / 2 = 3 / 2 ^ 28 ∧
        g.railingFrontPosRel.x < 0 ∧
        g.railingLeftPosRel.z - g.railingDimsSide.z / 2 + g.dimensions.z / 2 = -(13 / 2 ^ 28) ∧
        g.railingRightPosRel.z + g.railingDimsSide.z / 2 - g.dimensions.z / 2 = 13 / 2 ^ 28)) ∧
    ((∀ r ∈ [(b.railingFrontPosRel, b.railingDimsFront), (b.railingLeftPosRel, b.railingDimsSide),
          (b.railingRightPosRel, b.railingDimsSide)],
      -(b.dimensions.x / 2) ≤ r.1.x - r.2.x / 2 ∧ r.1.x + r.2.x / 2 ≤ b.dimensions.x / 2 ∧
      -(b.dimensions.z / 2) ≤ r.1.z - r.2.z / 2 ∧ r.1.z + r.2.z / 2 ≤ b.dimensions.z / 2 ∧
      r.1.y - r.2.y / 2 = b.dimensions.y / 2) ∧
      (side = 0 →
        (b.railingFrontPosRel.x - b.railingDimsFront.x / 2 = -(b.dimensions.x / 2) ∧
          b.railingFrontPosRel.x + b.railingDimsFront.x / 2 = b.dimensions.x / 2 ∧
          b.railingFrontPosRel.z + b.railingDimsFront.z / 2 = b.dimensions.z / 2 ∧
          0 < b.position.z - t.z ∧
          0 < b.railingFrontPosRel.z ∧
          b.railingFrontPosRel.x = 0) ∧
        (b.railingLeftPosRel.z - b.railingDimsSide.z / 2 = -(b.dimensions.z / 2) ∧
          b.railingLeftPosRel.z + b.railingDimsSide.z / 2 = b.dimensions.z / 2 ∧
          b.railingLeftPosRel.x - b.railingDimsSide.x / 2 = -(b.dimensions.x / 2)) ∧
        (b.railingRightPosRel.z - b.railingDimsSide.z / 2 = -(b.dimensions.z / 2) ∧
          b.railingRightPosRel.z + b.railingDimsSide.z / 2 = b.dimensions.z / 2 ∧
          b.railingRightPosRel.x + b.railingDimsSide.x / 2 = b.dimensions.x / 2)) ∧
      (side = 1 →
        (b.railingFrontPosRel.x - b.railingDimsFront.x / 2 = -(b.dimensions.x / 2) ∧
          b.railingFrontPosRel.x + b.railingDimsFront.x / 2 = b.dimensions.x / 2 ∧
          b.railingFrontPosRel.z - b.railingDimsFront.z / 2 = -(b.dimensions.z / 2) ∧
          b.position.z - t.z < 0 ∧
          b.railingFrontPosRel.z < 0 ∧
          b.railingFrontPosRel.x = 0) ∧
        (b.railingLeftPosRel.z - b.railingDimsSide.z / 2 = -(b.dimensions.z / 2) ∧
          b.railingLeftPosRel.z + b.railingDimsSide.z / 2 = b.dimensions.z / 2 ∧
          b.railingLeftPosRel.x - b.railingDimsSide.x / 2 = -(b.dimensions.x / 2)) ∧
        (b.railingRightPosRel.z - b.railingDimsSide.z / 2 = -(b.dimensions.z / 2) ∧
          b.railingRightPosRel.z + b.railingDimsSide.z / 2 = b.dimensions.z / 2 ∧
          b.railingRightPosRel.x + b.railingDimsSide.x / 2 = b.dimensions.x / 2)) ∧
      (side = 2 →
        (b.railingFrontPosRel.z - b.railingDimsFront.z / 2 = -(b.dimensions.z / 2) ∧
          b.railingFrontPosRel.z + b.railingDimsFront.z / 2 = b.dimensions.z / 2 ∧
          b.railingFrontPosRel.x + b.railingDimsFront.x / 2 = b.dimensions.x / 2 ∧
          0 < b.position.x - t.x ∧
          0 < b.railingFrontPosRel.x ∧
          b.railingFrontPosRel.z = 0) ∧
        (b.railingLeftPosRel.x - b.railingDimsSide.x / 2 = -(b.dimensions.x / 2) ∧
          b.railingLeftPosRel.x + b.railingDimsSide.x / 2 = b.dimensions.x / 2 ∧
          b.railingLeftPosRel.z - b.railingDimsSide.z / 2 = -(b.dimensions.z / 2)) ∧
        (b.railingRightPosRel.x - b.railingDimsSide.x / 2 = -(b.dimensions.x / 2) ∧
          b.railingRightPosRel.x + b.railingDimsSide.x / 2 = b.dimensions.x / 2 ∧
          b.railingRightPosRel.z + b.railingDimsSide.z / 2 = b.dimensions.z / 2)) ∧
      (side = 3 →
        (b.railingFrontPosRel.z - b.railingDimsFront.z / 2 = -(b.dimensions.z / 2) ∧
          b.railingFrontPosRel.z + b.railingDimsFront.z / 2 = b.dimensions.z / 2 ∧
          b.railingFrontPosRel.x - b.railingDimsFront.x / 2 = -(b.dimensions.x / 2) ∧
          b.position.x - t.x < 0 ∧
          b.railingFrontPosRel.x < 0 ∧
          b.railingFrontPosRel.z = 0) ∧
        (b.railingLeftPosRel.x - b.railingDimsSide.x / 2 = -(b.dimensions.x / 2) ∧
          b.railingLeftPosRel.x + b.railingDimsSide.x / 2 = b.dimensions.x / 2 ∧
          b.railingLeftPosRel.z - b.railingDimsSide.z / 2 = -(b.dimensions.z / 2)) ∧
        (b.railingRightPosRel.x - b.railingDimsSide.x / 2 = -(b.dimensions.x / 2) ∧
          b.railingRightPosRel.x + b.railingDimsSide.x / 2 = b.dimensions.x / 2 ∧
          b.railingRightPosRel.z + b.railingDimsSide.z / 2 = b.dimensions.z / 2))) := by
  obtain ⟨ht2, hb2⟩ := generated_pair RAND_MAX towers balconyData areaSize towerCount n rng
    i j t b hj ht hb
  have hs : side < 4 := by
    rw [hside]
    exact Nat.mod_lt _ (by decide)
  have hb3 : b = generateBalcony t.x t.z t n (j : Int) side := by
    subst hside
    rw [hb2, ht2]
    rfl
  clear ht hb ht2 hb2 hside hj
  subst hb3
  refine ⟨⟨hs, rfl⟩, ?_, ?_, ?_⟩
  · intro g hg
    subst hg
    refine ⟨?_, ?_, ?_, ?_, ?_⟩
    · clear hs
      unfold generateBalconyIn
      split_ifs <;> exact ⟨rfl, rfl, rfl, rfl, rfl, rfl⟩
    · intro h
      subst h
      exact ⟨rfl, rfl, rfl, rfl, rfl, rfl, rfl, rfl, rfl, rfl, rfl⟩
    · intro h
      subst h
      exact ⟨rfl, rfl, rfl, rfl, rfl, rfl, rfl, rfl, rfl, rfl, rfl⟩
    · intro h
      subst h
      exact ⟨rfl, rfl, rfl, rfl, rfl, rfl, rfl, rfl, rfl, rfl, rfl⟩
    · intro h
      subst h
      exact ⟨rfl, rfl, rfl, rfl, rfl, rfl, rfl, rfl, rfl, rfl, rfl⟩
  · intro g hg
    subst hg
    interval_cases side <;>
      simp only [generateBalconyIn] <;>
      simp only [binary32_offsetX, binary32_offsetZ, binary32_offsetY] <;>
      simp only [binary32_BALCONY_WIDTH, binary32_BALCONY_DEPTH, binary32_BALCONY_FLOOR_HEIGHT,
        binary32_BALCONY_RAILING_HEIGHT, binary32_BALCONY_RAILING_THICKNESS] <;>
      norm_num
  · interval_cases side <;>
      simp only [generateBalcony, List.forall_mem_cons] <;>
      norm_num [TOWER_DEPTH, TOWER_WIDTH, BALCONY_DEPTH, BALCONY_WIDTH, BALCONY_FLOOR_HEIGHT,
        BALCONY_RAILING_HEIGHT, BALCONY_RAILING_THICKNESS]

/-- Witness of C7: the first balcony of the first tower in the program
configuration on the sample stream (side 3); in binary32 the bottom face of its
front railing is `2^-27` below the top face of the floor. -/
theorem C7_railings_follow_offsets_witness :
    (((0 : Nat) : Int) < BALCONIES_PER_TOWER) ∧
    sampleRng.draws (sampleRng.pos + (2 + BALCONIES_PER_TOWER.toNat) * 0 + 2 + 0) % 4 = 3 ∧
    (generateBalconyIn binary32Arith 0 0 (Vec3.mk 0 binary32Arith.GROUND_LEVEL 0)
        BALCONIES_PER_TOWER ((0 : Nat) : Int) 3).railingFrontPosRel.y
      - (generateBalconyIn binary32Arith 0 0 (Vec3.mk 0 binary32Arith.GROUND_LEVEL 0)
        BALCONIES_PER_TOWER ((0 : Nat) : Int) 3).railingDimsFront.y / 2
      - (generateBalconyIn binary32Arith 0 0 (Vec3.mk 0 binary32Arith.GROUND_LEVEL 0)
        BALCONIES_PER_TOWER ((0 : Nat) : Int) 3).dimensions.y / 2 = -(1 / 2 ^ 27) :=
  ⟨by decide, by decide,
    ((C7_railings_follow_offsets 32767 [] [] GROUND_SIZE APARTMENT_TOWER_COUNT
      BALCONIES_PER_TOWER sampleRng 0 0 _ _ 3 binary32Arith 0 0
      (Vec3.mk 0 binary32Arith.GROUND_LEVEL 0) (by decide)
      (generated_towers_getElem? 32767 [] [] GROUND_SIZE APARTMENT_TOWER_COUNT
        BALCONIES_PER_TOWER sampleRng 0 (by decide))
      (generated_balconies_getElem? 32767 [] [] GROUND_SIZE APARTMENT_TOWER_COUNT
        BALCONIES_PER_TOWER sampleRng 0 0 (by decide) (by decide))
      (by decide)).2.2.1 _ rfl).1.1⟩

/-- C7 fails as stated in binary32: the balcony the loop body builds
on side 0 for a tower at the origin has the bottom face of its front railing
below the top face of the floor (`0.5 - 0.8f/2` is less than `0.2f/2`), so the
three railing boxes do not all stand exactly on the floor. -/
theorem C7_counterexample :
    ¬ (∀ r ∈ [((generateBalconyIn binary32Arith 0 0 (Vec3.mk 0 binary32Arith.GROUND_LEVEL 0)
            3 0 0).railingFrontPosRel,
          (generateBalconyIn binary32Arith 0 0 (Vec3.mk 0 binary32Arith.GROUND_LEVEL 0)
            3 0 0).railingDimsFront),
        ((generateBalconyIn binary32Arith 0 0 (Vec3.mk 0 binary32Arith.GROUND_LEVEL 0)
            3 0 0).railingLeftPosRel,
          (generateBalconyIn binary32Arith 0 0 (Vec3.mk 0 binary32Arith.GROUND_LEVEL 0)
            3 0 0).railingDimsSide),
        ((generateBalconyIn binary32Arith 0 0 (Vec3.mk 0 binary32Arith.GROUND_LEVEL 0)
            3 0 0).railingRightPosRel,
          (generateBalconyIn binary32Arith 0 0 (Vec3.mk 0 binary32Arith.GROUND_LEVEL 0)
            3 0 0).railingDimsSide)],
      -((generateBalconyIn binary32Arith 0 0 (Vec3.mk 0 binary32Arith.GROUND_LEVEL 0)
            3 0 0).dimensions.x / 2) ≤ r.1.x - r.2.x / 2 ∧
      r.1.x + r.2.x / 2 ≤ (generateBalconyIn binary32Arith 0 0
        (Vec3.mk 0 binary32Arith.GROUND_LEVEL 0) 3 0 0).dimensions.x / 2 ∧
      -((generateBalconyIn binary32Arith 0 0 (Vec3.mk 0 binary32Arith.GROUND_LEVEL 0)
            3 0 0).dimensions.z / 2) ≤ r.1.z - r.2.z / 2 ∧
      r.1.z + r.2.z / 2 ≤ (generateBalconyIn binary32Arith 0 0
        (Vec3.mk 0 binary32Arith.GROUND_LEVEL 0) 3 0 0).dimensions.z / 2 ∧
      r.1.y - r.2.y / 2 = (generateBalconyIn binary32Arith 0 0
        (Vec3.mk 0 binary32Arith.GROUND_LEVEL 0) 3 0 0).dimensions.y / 2) := by
  intro h
  have h1 := (h _ (List.mem_cons_self _ _)).2.2.2.2
  simp only [generateBalconyIn] at h1
  simp only [binary32_offsetY] at h1
  simp only [binary32_BALCONY_FLOOR_HEIGHT, binary32_BALCONY_RAILING_HEIGHT] at h1
  norm_num at h1

end Forest
